import Mathlib

/-!
Shallow embedding of the sftp-ws client core (packet codec, flags translator,
attribute codec, extension registry, and the protocol-engine dispatch logic)
together with proofs about the properties claimed of it.

Numbers follow JavaScript semantics where the source relies on them:
bitwise operators work on the 32-bit pattern of an integer (`ToInt32` /
`ToUint32`), and `Int` stands for the JS number type restricted to integers.
-/

set_option maxRecDepth 4000

/-- Decidable equality for `Except`, so that concrete codec runs can be
checked by `decide`. -/
instance {ε α : Type} [DecidableEq ε] [DecidableEq α] : DecidableEq (Except ε α) := fun x y =>
  match x, y with
  | Except.ok a, Except.ok b =>
    if h : a = b then isTrue (by rw [h]) else isFalse (by intro hh; cases hh; exact h rfl)
  | Except.ok _, Except.error _ => isFalse (by intro hh; cases hh)
  | Except.error _, Except.ok _ => isFalse (by intro hh; cases hh)
  | Except.error e, Except.error f =>
    if h : e = f then isTrue (by rw [h]) else isFalse (by intro hh; cases hh; exact h rfl)

/-- JS `ToUint32`: the unsigned 32-bit pattern of an integer. -/
def toUint32 (x : Int) : Nat := (x % 4294967296).toNat

/-- JS `ToInt32`: reduce an integer to the signed 32-bit range. -/
def jsToInt32 (x : Int) : Int :=
  let r := x % 4294967296
  if r < 2147483648 then r else r - 4294967296

/-- JS bitwise `&`: both operands pass through ToInt32, result is signed 32-bit. -/
def jsAnd (a b : Int) : Int := jsToInt32 (((toUint32 a) &&& (toUint32 b) : Nat) : Int)

/-- JS bitwise `|`. -/
def jsOr (a b : Int) : Int := jsToInt32 (((toUint32 a) ||| (toUint32 b) : Nat) : Int)

/-- JS bitwise `^`. -/
def jsXor (a b : Int) : Int := jsToInt32 (((toUint32 a) ^^^ (toUint32 b) : Nat) : Int)

/-- JS `<<`: shift the 32-bit pattern left (shift counts used here are < 32). -/
def jsShl (a : Int) (s : Nat) : Int :=
  jsToInt32 (((toUint32 a) <<< (s % 32) % 4294967296 : Nat) : Int)

/-- Modelled from the spec: `enums.ts` is not under `src/`.  SFTP v3 open-flag
bits (spec section 3); the numeric values are pinned by the literal cases of
`SftpFlags.fromNumber` in part_001 lines 75-89. -/
def SftpOpenFlags.READ : Int := 1

/-- SFTP v3 open-flag bit WRITE (see `SftpOpenFlags.READ`). -/
def SftpOpenFlags.WRITE : Int := 2

/-- SFTP v3 open-flag bit APPEND. -/
def SftpOpenFlags.APPEND : Int := 4

/-- SFTP v3 open-flag bit CREATE. -/
def SftpOpenFlags.CREATE : Int := 8

/-- SFTP v3 open-flag bit TRUNC. -/
def SftpOpenFlags.TRUNC : Int := 16

/-- SFTP v3 open-flag bit EXCL. -/
def SftpOpenFlags.EXCL : Int := 32

/-- Mask of all valid open-flag bits. -/
def SftpOpenFlags.ALL : Int := 63

/-- `SftpFlags.toNumber` (part_001 lines 19-51), string branch: exact-match
table from mode strings to the open-flags bitmask; unrecognized strings throw. -/
def SftpFlags.toNumber (flags : String) : Except String Int :=
  match flags with
  | "r" => Except.ok SftpOpenFlags.READ
  | "r+" => Except.ok (jsOr SftpOpenFlags.READ SftpOpenFlags.WRITE)
  | "w" => Except.ok (jsOr (jsOr SftpOpenFlags.WRITE SftpOpenFlags.CREATE) SftpOpenFlags.TRUNC)
  | "w+" => Except.ok (jsOr (jsOr (jsOr SftpOpenFlags.WRITE SftpOpenFlags.CREATE) SftpOpenFlags.TRUNC) SftpOpenFlags.READ)
  | "wx" => Except.ok (jsOr (jsOr SftpOpenFlags.WRITE SftpOpenFlags.CREATE) SftpOpenFlags.EXCL)
  | "xw" => Except.ok (jsOr (jsOr SftpOpenFlags.WRITE SftpOpenFlags.CREATE) SftpOpenFlags.EXCL)
  | "wx+" => Except.ok (jsOr (jsOr (jsOr SftpOpenFlags.WRITE SftpOpenFlags.CREATE) SftpOpenFlags.EXCL) SftpOpenFlags.READ)
  | "xw+" => Except.ok (jsOr (jsOr (jsOr SftpOpenFlags.WRITE SftpOpenFlags.CREATE) SftpOpenFlags.EXCL) SftpOpenFlags.READ)
  | "a" => Except.ok (jsOr (jsOr SftpOpenFlags.WRITE SftpOpenFlags.CREATE) SftpOpenFlags.APPEND)
  | "a+" => Except.ok (jsOr (jsOr (jsOr SftpOpenFlags.WRITE SftpOpenFlags.CREATE) SftpOpenFlags.APPEND) SftpOpenFlags.READ)
  | "ax" => Except.ok (jsOr (jsOr (jsOr SftpOpenFlags.WRITE SftpOpenFlags.CREATE) SftpOpenFlags.APPEND) SftpOpenFlags.EXCL)
  | "xa" => Except.ok (jsOr (jsOr (jsOr SftpOpenFlags.WRITE SftpOpenFlags.CREATE) SftpOpenFlags.APPEND) SftpOpenFlags.EXCL)
  | "ax+" => Except.ok (jsOr (jsOr (jsOr (jsOr SftpOpenFlags.WRITE SftpOpenFlags.CREATE) SftpOpenFlags.APPEND) SftpOpenFlags.EXCL) SftpOpenFlags.READ)
  | "xa+" => Except.ok (jsOr (jsOr (jsOr (jsOr SftpOpenFlags.WRITE SftpOpenFlags.CREATE) SftpOpenFlags.APPEND) SftpOpenFlags.EXCL) SftpOpenFlags.READ)
  | _ => Except.error ("Invalid flags \x27" ++ flags ++ "\x27")

/-- The normalization performed at the top of `SftpFlags.fromNumber`
(part_001 lines 54-73): mask to valid bits, EXCL cancels TRUNC, TRUNC cancels
APPEND, READ implied when neither READ nor WRITE, CREATE absent restricts to
READ and WRITE, CREATE present forces WRITE. -/
def normalizeOpenFlags (flags0 : Int) : Int :=
  let f1 := jsAnd flags0 SftpOpenFlags.ALL
  let f2 :=
    if jsAnd f1 SftpOpenFlags.EXCL ≠ 0 then
      jsAnd f1 (jsXor SftpOpenFlags.ALL SftpOpenFlags.TRUNC)
    else f1
  let f3 :=
    if jsAnd f2 SftpOpenFlags.TRUNC ≠ 0 then
      jsAnd f2 (jsXor SftpOpenFlags.ALL SftpOpenFlags.APPEND)
    else f2
  let f4 :=
    if jsAnd f3 (jsOr SftpOpenFlags.READ SftpOpenFlags.WRITE) = 0 then
      jsOr f3 SftpOpenFlags.READ
    else f3
  if jsAnd f4 SftpOpenFlags.CREATE = 0 then
    jsAnd f4 (jsOr SftpOpenFlags.READ SftpOpenFlags.WRITE)
  else
    jsOr f4 SftpOpenFlags.WRITE

/-- `SftpFlags.fromNumber` (part_001 lines 53-93): normalize, then look up the
mode strings in the reverse table; any other value throws. -/
def SftpFlags.fromNumber (flags : Int) : Except String (List String) :=
  match normalizeOpenFlags flags with
  | 1 => Except.ok ["r"]
  | 2 => Except.ok ["r+"]
  | 3 => Except.ok ["r+"]
  | 10 => Except.ok ["wx", "r+"]
  | 11 => Except.ok ["wx+", "r+"]
  | 14 => Except.ok ["a"]
  | 15 => Except.ok ["a+"]
  | 26 => Except.ok ["w"]
  | 27 => Except.ok ["w+"]
  | 42 => Except.ok ["wx"]
  | 43 => Except.ok ["wx+"]
  | 46 => Except.ok ["ax"]
  | 47 => Except.ok ["ax+"]
  | _ => Except.error ("Unsupported flags")

/-- One direction of the claimed flags law at a single mask value:
`toMask (fromMask m).head = m`. -/
def maskLawHolds (m : Int) : Bool :=
  match SftpFlags.fromNumber m with
  | Except.ok (s :: _) =>
    match SftpFlags.toNumber s with
    | Except.ok n => n == m
    | Except.error _ => false
  | _ => false

/-- The other direction of the claimed flags law at a single mode string:
`s` occurs among `fromMask (toMask s)`. -/
def modeLawHolds (s : String) : Bool :=
  match SftpFlags.toNumber s with
  | Except.ok n =>
    match SftpFlags.fromNumber n with
    | Except.ok l => l.contains s
    | Except.error _ => false
  | Except.error _ => false

/-- Claim C2 counterexample: the documented mode string "xw" violates the law
`fromMask (toMask s)` contains `s`: `toMask "xw" = 42` but `fromMask 42 = ["wx"]`,
which does not contain "xw". -/
theorem c2_flags_law_counterexample :
    SftpFlags.toNumber ("xw") = Except.ok 42 ∧
    SftpFlags.fromNumber 42 = Except.ok ["wx"] ∧
    modeLawHolds ("xw") = false := by
  refine ⟨by rfl, by rfl, by decide⟩

/-- Claim C2 amended: the mask round-trip law `toMask (fromMask m).head = m`
holds exactly for the ten masks 1, 3, 14, 15, 26, 27, 42, 43, 46, 47 (all of
which are normalization fixed points); it fails for the remaining normalized
masks 2, 10 and 11, and the set of normalization fixed points has thirteen
elements, not twelve.  The mode-string law `s occurs in fromMask (toMask s)`
holds exactly for the ten primary spellings r, r+, w, w+, wx, wx+, a, a+, ax,
ax+ and fails for the four alias spellings xw, xw+, xa, xa+. -/
theorem c2_flags_law_amended :
    (([1, 3, 14, 15, 26, 27, 42, 43, 46, 47] : List Int).all
      (fun m => maskLawHolds m && (normalizeOpenFlags m == m))) = true ∧
    (([2, 10, 11] : List Int).all
      (fun m => !maskLawHolds m && (normalizeOpenFlags m == m))) = true ∧
    ((List.range 64).filter
      (fun m => normalizeOpenFlags (m : Int) == (m : Int))).length = 13 ∧
    ((["r", "r+", "w", "w+", "wx", "wx+", "a", "a+", "ax", "ax+"] : List String).all
      modeLawHolds) = true ∧
    ((["xw", "xw+", "xa", "xa+"] : List String).all
      (fun s => !modeLawHolds s)) = true := by
  refine ⟨by decide, by decide, by decide, by decide, by decide⟩

/-! ## Packet codec (packet.ts) -/

/-- The error message thrown by `SftpPacket.check` (packet.ts line 19). -/
def eopMsg : String := "Unexpected end of packet"

/-- The cursor state shared by `SftpPacketReader` and `SftpPacketWriter`
(packet.ts lines 5-14): a byte buffer, a cursor position and a total length.
Positions are `Int` because JS arithmetic can in principle drive them out of
the `Nat` range. -/
structure SftpPacketState where
  buffer : List Nat
  position : Int
  length : Int
deriving Repr, DecidableEq

/-- `SftpPacket.check` (packet.ts lines 16-20) as a predicate: true when
reading or writing `count` more bytes would overrun the remaining space. -/
def SftpPacket.overruns (p : SftpPacketState) (count : Int) : Bool :=
  count > p.length - p.position

/-- Byte fetch: JS `buffer[i] & 0xFF`; out-of-range or negative indices read
as `undefined`, and `undefined & 0xFF` is 0. -/
def getByte (buf : List Nat) (i : Int) : Nat :=
  if i < 0 then 0 else (buf.getD i.toNat 0) &&& 255

/-- Byte store into a `Uint8Array`: out-of-range stores are dropped. -/
def setByte (buf : List Nat) (i : Int) (v : Nat) : List Nat :=
  if i < 0 then buf else buf.set i.toNat v

/-- TypedArray `slice`/`subarray` index clamping. -/
def jsSlice (buf : List Nat) (start endPos : Int) : List Nat :=
  let len : Int := (buf.length : Int)
  let s : Int := if start < 0 then max 0 (len + start) else min start len
  let e : Int := if endPos < 0 then max 0 (len + endPos) else min endPos len
  ((buf.drop s.toNat).take (e - s).toNat)

/-- Reader primitives return the read value or the thrown message, together
with the receiver state as it is left behind (reads mutate in place, so a
throw can leave a partially advanced cursor behind). -/
abbrev ReadResult (α : Type) := Except String α × SftpPacketState

/-- `SftpPacketReader.readByte` (packet.ts lines 96-100). -/
def SftpPacketReader.readByte (p : SftpPacketState) : ReadResult Int :=
  if SftpPacket.overruns p 1 then (Except.error eopMsg, p)
  else
    (Except.ok ((getByte p.buffer p.position : Nat) : Int),
     { p with position := p.position + 1 })

/-- `SftpPacketReader.readUint16` (packet.ts lines 108-114): big-endian; the
accumulation with JS `|=` and `<<` keeps the signed 32-bit pattern. -/
def SftpPacketReader.readUint16 (p : SftpPacketState) : ReadResult Int :=
  if SftpPacket.overruns p 2 then (Except.error eopMsg, p)
  else
    let b0 := getByte p.buffer p.position
    let b1 := getByte p.buffer (p.position + 1)
    let value := jsOr (jsOr 0 (jsShl (b0 : Int) 8)) ((b1 : Nat) : Int)
    (Except.ok value, { p with position := p.position + 2 })

/-- `SftpPacketReader.readInt16` (packet.ts lines 102-106). -/
def SftpPacketReader.readInt16 (p : SftpPacketState) : ReadResult Int :=
  match SftpPacketReader.readUint16 p with
  | (Except.error e, p1) => (Except.error e, p1)
  | (Except.ok value, p1) =>
    (Except.ok (if jsAnd value 32768 ≠ 0 then value - 65536 else value), p1)

/-- `SftpPacketReader.readUint32` (packet.ts lines 122-130): big-endian; note
that the JS `|=` accumulation makes the result negative when the top bit of
the pattern is set. -/
def SftpPacketReader.readUint32 (p : SftpPacketState) : ReadResult Int :=
  if SftpPacket.overruns p 4 then (Except.error eopMsg, p)
  else
    let b0 := getByte p.buffer p.position
    let b1 := getByte p.buffer (p.position + 1)
    let b2 := getByte p.buffer (p.position + 2)
    let b3 := getByte p.buffer (p.position + 3)
    let value :=
      jsOr (jsOr (jsOr (jsOr 0 (jsShl (b0 : Int) 24)) (jsShl (b1 : Int) 16))
        (jsShl (b2 : Int) 8)) ((b3 : Nat) : Int)
    (Except.ok value, { p with position := p.position + 4 })

/-- `SftpPacketReader.readInt32` (packet.ts lines 116-120). -/
def SftpPacketReader.readInt32 (p : SftpPacketState) : ReadResult Int :=
  match SftpPacketReader.readUint32 p with
  | (Except.error e, p1) => (Except.error e, p1)
  | (Except.ok value, p1) =>
    (Except.ok (if jsAnd value 2147483648 ≠ 0 then value - 4294967296 else value), p1)

/-- `SftpPacketReader.readInt64` (packet.ts lines 132-138): two 32-bit halves
combined as `hi * 2^32 + lo`. -/
def SftpPacketReader.readInt64 (p : SftpPacketState) : ReadResult Int :=
  match SftpPacketReader.readInt32 p with
  | (Except.error e, p1) => (Except.error e, p1)
  | (Except.ok hi, p1) =>
    match SftpPacketReader.readUint32 p1 with
    | (Except.error e, p2) => (Except.error e, p2)
    | (Except.ok lo, p2) => (Except.ok (hi * 4294967296 + lo), p2)

/-- Modelled from the spec: `charsets.ts` (`decodeUTF8`) is not under `src/`.
The spec (section 4.1) prescribes a UTF-8 transform; we model its restriction
to one-byte characters, which is what every string in this development uses. -/
def decodeUTF8 (buf : List Nat) (start endPos : Int) : String :=
  String.mk (((buf.drop start.toNat).take (endPos - start).toNat).map Char.ofNat)

/-- `SftpPacketReader.readString` (packet.ts lines 140-147): a 32-bit length
prefix, then that many bytes of UTF-8.  The length prefix is consumed before
the payload bounds check, so a failing check leaves the cursor past it. -/
def SftpPacketReader.readString (p : SftpPacketState) : ReadResult String :=
  match SftpPacketReader.readInt32 p with
  | (Except.error e, p1) => (Except.error e, p1)
  | (Except.ok len, p1) =>
    if SftpPacket.overruns p1 len then (Except.error eopMsg, p1)
    else
      let endPos := p1.position + len
      (Except.ok (decodeUTF8 p1.buffer p1.position endPos), { p1 with position := endPos })

/-- `SftpPacketReader.skipString` (packet.ts lines 149-155). -/
def SftpPacketReader.skipString (p : SftpPacketState) : ReadResult Unit :=
  match SftpPacketReader.readInt32 p with
  | (Except.error e, p1) => (Except.error e, p1)
  | (Except.ok len, p1) =>
    if SftpPacket.overruns p1 len then (Except.error eopMsg, p1)
    else (Except.ok (), { p1 with position := p1.position + len })

/-- `SftpPacketReader.readData` (packet.ts lines 157-172): length-prefixed
opaque bytes; `clone` selects a copy over a view, which is unobservable in
this immutable model. -/
def SftpPacketReader.readData (p : SftpPacketState) (clone : Bool) : ReadResult (List Nat) :=
  match SftpPacketReader.readInt32 p with
  | (Except.error e, p1) => (Except.error e, p1)
  | (Except.ok len, p1) =>
    if SftpPacket.overruns p1 len then (Except.error eopMsg, p1)
    else
      let start := p1.position
      let endPos := start + len
      let view := jsSlice p1.buffer start endPos
      (Except.ok (if clone then view else view), { p1 with position := endPos })

/-- A raw reader over a byte buffer (the `raw` constructor branch,
packet.ts lines 90-93): no envelope is parsed. -/
def mkRawReader (buf : List Nat) : SftpPacketState :=
  { buffer := buf, position := 0, length := (buf.length : Int) }

/-- `SftpPacketReader.readStructuredData` (packet.ts lines 174-177). -/
def SftpPacketReader.readStructuredData (p : SftpPacketState) : ReadResult SftpPacketState :=
  match SftpPacketReader.readData p false with
  | (Except.error e, p1) => (Except.error e, p1)
  | (Except.ok d, p1) => (Except.ok (mkRawReader d), p1)

/-- Sequencing helper: propagate a thrown read, otherwise continue with the
value and the advanced reader. -/
def bindRead {α β : Type} (r : ReadResult α) (f : α → SftpPacketState → Except String β) :
    Except String β :=
  match r with
  | (Except.error e, _) => Except.error e
  | (Except.ok a, p) => f a p

/-- `SftpPacketWriter.writeByte` (packet.ts lines 219-222). -/
def SftpPacketWriter.writeByte (p : SftpPacketState) (value : Int) : ReadResult Unit :=
  if SftpPacket.overruns p 1 then (Except.error eopMsg, p)
  else
    (Except.ok (),
     { p with buffer := setByte p.buffer p.position (toUint32 value % 256),
              position := p.position + 1 })

/-- `SftpPacketWriter.writeInt32` (packet.ts lines 224-230): big-endian bytes
of the 32-bit pattern (JS `(value >> k) & 0xFF` extracts byte `k/8` of the
pattern). -/
def SftpPacketWriter.writeInt32 (p : SftpPacketState) (value : Int) : ReadResult Unit :=
  if SftpPacket.overruns p 4 then (Except.error eopMsg, p)
  else
    let u := toUint32 value
    let buf0 := setByte p.buffer p.position (u / 16777216 % 256)
    let buf1 := setByte buf0 (p.position + 1) (u / 65536 % 256)
    let buf2 := setByte buf1 (p.position + 2) (u / 256 % 256)
    let buf3 := setByte buf2 (p.position + 3) (u % 256)
    (Except.ok (), { p with buffer := buf3, position := p.position + 4 })

/-- `SftpPacketWriter.writeInt64` (packet.ts lines 232-237): JS
`(value / 0x100000000) | 0` truncates toward zero (division by a power of two
is exact in binary floating point) and passes through ToInt32;
`(value & 0xFFFFFFFF) | 0` is ToInt32 of the value. -/
def SftpPacketWriter.writeInt64 (p : SftpPacketState) (value : Int) : ReadResult Unit :=
  let hi := jsToInt32 (Int.tdiv value 4294967296)
  let lo := jsAnd value 4294967295
  match SftpPacketWriter.writeInt32 p hi with
  | (Except.error e, p1) => (Except.error e, p1)
  | (Except.ok _, p1) => SftpPacketWriter.writeInt32 p1 lo

/-- Overwrite bytes of `buf` starting at index `i` with `data`
(TypedArray `set`; the callers below have validated the range). -/
def overwriteBytes (buf : List Nat) (i : Int) (data : List Nat) : List Nat :=
  match data with
  | [] => buf
  | b :: rest => overwriteBytes (setByte buf i b) (i + 1) rest

/-- `SftpPacketWriter.writeData` (packet.ts lines 254-264) without the
optional slicing arguments: 32-bit length prefix, then the raw bytes. -/
def SftpPacketWriter.writeData (p : SftpPacketState) (data : List Nat) : ReadResult Unit :=
  match SftpPacketWriter.writeInt32 p ((data.length : Nat) : Int) with
  | (Except.error e, p1) => (Except.error e, p1)
  | (Except.ok _, p1) =>
    if SftpPacket.overruns p1 ((data.length : Nat) : Int) then (Except.error eopMsg, p1)
    else
      (Except.ok (),
       { p1 with buffer := overwriteBytes p1.buffer p1.position data,
                 position := p1.position + (data.length : Int) })

/-- A fresh writer of the given capacity (`SftpPacketWriter` constructor,
packet.ts lines 183-189): a zero-filled buffer, cursor at 0. -/
def mkWriter (capacity : Nat) : SftpPacketState :=
  { buffer := List.replicate capacity 0, position := 0, length := (capacity : Int) }

/-! ## Claim C8: bounds failures of the reader primitives -/

/-- Claim C8 counterexample: `readString` on a raw 4-byte buffer holding the
length prefix 5 fails with the bounds-violation message, but leaves the
cursor advanced past the already-consumed length prefix (position 4, not 0) —
the failure does mutate observable reader state. -/
theorem c8_bounds_counterexample :
    SftpPacketReader.readString (mkRawReader [0, 0, 0, 5]) =
      (Except.error eopMsg, { buffer := [0, 0, 0, 5], position := 4, length := 4 }) ∧
    (4 : Int) ≠ (mkRawReader [0, 0, 0, 5]).position := by
  refine ⟨by decide, by decide⟩

/-- Claim C8 amended: every reader primitive fails with the "unexpected end of
packet" condition when asked to read more bytes than remain, and the
fixed-size primitives (byte, 16-bit, 32-bit) leave the reader state entirely
unchanged; but the composite reads are not atomic: a 64-bit read whose second
half overruns, and a string or opaque-data read whose payload overruns, leave
the cursor advanced past the successfully consumed 32-bit prefix. -/
theorem c8_bounds_amended :
    (∀ p : SftpPacketState, SftpPacket.overruns p 1 = true →
      SftpPacketReader.readByte p = (Except.error eopMsg, p)) ∧
    (∀ p : SftpPacketState, SftpPacket.overruns p 2 = true →
      SftpPacketReader.readUint16 p = (Except.error eopMsg, p)) ∧
    (∀ p : SftpPacketState, SftpPacket.overruns p 2 = true →
      SftpPacketReader.readInt16 p = (Except.error eopMsg, p)) ∧
    (∀ p : SftpPacketState, SftpPacket.overruns p 4 = true →
      SftpPacketReader.readUint32 p = (Except.error eopMsg, p)) ∧
    (∀ p : SftpPacketState, SftpPacket.overruns p 4 = true →
      SftpPacketReader.readInt32 p = (Except.error eopMsg, p)) ∧
    (∀ p : SftpPacketState, SftpPacket.overruns p 4 = true →
      SftpPacketReader.readInt64 p = (Except.error eopMsg, p)) ∧
    (∀ p : SftpPacketState, SftpPacket.overruns p 4 = true →
      SftpPacketReader.readString p = (Except.error eopMsg, p)) ∧
    (∀ p : SftpPacketState, ∀ clone : Bool, SftpPacket.overruns p 4 = true →
      SftpPacketReader.readData p clone = (Except.error eopMsg, p)) ∧
    (∀ p p1 : SftpPacketState, ∀ hi : Int,
      SftpPacketReader.readInt32 p = (Except.ok hi, p1) →
      SftpPacket.overruns p1 4 = true →
      SftpPacketReader.readInt64 p = (Except.error eopMsg, p1) ∧
        p1.position = p.position + 4) ∧
    (∀ p p1 : SftpPacketState, ∀ len : Int,
      SftpPacketReader.readInt32 p = (Except.ok len, p1) →
      SftpPacket.overruns p1 len = true →
      SftpPacketReader.readString p = (Except.error eopMsg, p1) ∧
        p1.position = p.position + 4) ∧
    (∀ p p1 : SftpPacketState, ∀ len : Int, ∀ clone : Bool,
      SftpPacketReader.readInt32 p = (Except.ok len, p1) →
      SftpPacket.overruns p1 len = true →
      SftpPacketReader.readData p clone = (Except.error eopMsg, p1) ∧
        p1.position = p.position + 4) := by
  have hu32 : ∀ p : SftpPacketState, SftpPacket.overruns p 4 = true →
      SftpPacketReader.readUint32 p = (Except.error eopMsg, p) := by
    intro p h
    simp [SftpPacketReader.readUint32, h]
  have hi32 : ∀ p : SftpPacketState, SftpPacket.overruns p 4 = true →
      SftpPacketReader.readInt32 p = (Except.error eopMsg, p) := by
    intro p h
    simp [SftpPacketReader.readInt32, hu32 p h]
  have hpos : ∀ p p1 : SftpPacketState, ∀ v : Int,
      SftpPacketReader.readInt32 p = (Except.ok v, p1) → p1.position = p.position + 4 := by
    intro p p1 v h
    by_cases hc : SftpPacket.overruns p 4 = true
    · rw [hi32 p hc] at h
      exact absurd (congrArg Prod.fst h) (by simp)
    · simp [SftpPacketReader.readInt32, SftpPacketReader.readUint32, hc] at h
      rw [← h.2]
  refine ⟨?_, ?_, ?_, hu32, hi32, ?_, ?_, ?_, ?_, ?_, ?_⟩
  · intro p h
    simp [SftpPacketReader.readByte, h]
  · intro p h
    simp [SftpPacketReader.readUint16, h]
  · intro p h
    simp [SftpPacketReader.readInt16, SftpPacketReader.readUint16, h]
  · intro p h
    simp [SftpPacketReader.readInt64, hi32 p h]
  · intro p h
    simp [SftpPacketReader.readString, hi32 p h]
  · intro p clone h
    simp [SftpPacketReader.readData, hi32 p h]
  · intro p p1 hi h hover
    refine ⟨?_, hpos p p1 hi h⟩
    simp [SftpPacketReader.readInt64, h, SftpPacketReader.readUint32, hover]
  · intro p p1 len h hover
    refine ⟨?_, hpos p p1 len h⟩
    simp [SftpPacketReader.readString, h, hover]
  · intro p p1 len clone h hover
    refine ⟨?_, hpos p p1 len h⟩
    simp [SftpPacketReader.readData, h, hover]

/-- Witness for the amended C8 claim: a concrete one-byte read past the end
of an empty buffer fails without mutation. -/
theorem c8_bounds_witness :
    SftpPacketReader.readByte (mkRawReader []) = (Except.error eopMsg, mkRawReader []) :=
  c8_bounds_amended.1 (mkRawReader []) (by decide)

/-! ## Arithmetic facts about the 32-bit codec -/

/-- The big-endian bytes of a 32-bit pattern, as written by `writeInt32`. -/
def int32Bytes (u : Nat) : List Nat :=
  [u / 16777216 % 256, u / 65536 % 256, u / 256 % 256, u % 256]

theorem int32Bytes_length (u : Nat) : (int32Bytes u).length = 4 := rfl

theorem toUint32_natCast (n : Nat) (h : n < 4294967296) : toUint32 (n : Int) = n := by
  simp only [toUint32]
  omega

theorem jsToInt32_natCast_small (n : Nat) (h : n < 2147483648) :
    jsToInt32 (n : Int) = (n : Int) := by
  simp only [jsToInt32]
  split <;> omega

theorem toUint32_jsToInt32 (x : Int) : toUint32 (jsToInt32 x) = toUint32 x := by
  simp only [toUint32, jsToInt32]
  split <;> omega

theorem or_step_24 (b0 b1 : Nat) (h0 : b0 < 256) (h1 : b1 < 256) :
    (b0 * 16777216) ||| (b1 * 65536) = b0 * 16777216 + b1 * 65536 := by
  rw [show b0 * 16777216 = 2 ^ 24 * b0 by ring]
  rw [← Nat.mul_add_lt_is_or (show b1 * 65536 < 2 ^ 24 by omega) b0]

theorem or_step_16 (b0 b1 b2 : Nat) (h0 : b0 < 256) (h1 : b1 < 256) (h2 : b2 < 256) :
    (b0 * 16777216 + b1 * 65536) ||| (b2 * 256)
      = b0 * 16777216 + b1 * 65536 + b2 * 256 := by
  rw [show b0 * 16777216 + b1 * 65536 = 2 ^ 16 * (b0 * 256 + b1) by ring]
  rw [← Nat.mul_add_lt_is_or (show b2 * 256 < 2 ^ 16 by omega) (b0 * 256 + b1)]

theorem or_step_8 (b0 b1 b2 b3 : Nat)
    (h0 : b0 < 256) (h1 : b1 < 256) (h2 : b2 < 256) (h3 : b3 < 256) :
    (b0 * 16777216 + b1 * 65536 + b2 * 256) ||| b3
      = b0 * 16777216 + b1 * 65536 + b2 * 256 + b3 := by
  rw [show b0 * 16777216 + b1 * 65536 + b2 * 256 = 2 ^ 8 * (b0 * 65536 + b1 * 256 + b2) by ring]
  rw [← Nat.mul_add_lt_is_or (show b3 < 2 ^ 8 by omega) (b0 * 65536 + b1 * 256 + b2)]

/-- The accumulated value computed by `readUint32` from four in-range bytes. -/
theorem readUint32_value (b0 b1 b2 b3 : Nat)
    (h0 : b0 < 256) (h1 : b1 < 256) (h2 : b2 < 256) (h3 : b3 < 256) :
    jsOr (jsOr (jsOr (jsOr 0 (jsShl (b0 : Int) 24)) (jsShl (b1 : Int) 16))
        (jsShl (b2 : Int) 8)) ((b3 : Nat) : Int)
      = jsToInt32 ((b0 * 16777216 + b1 * 65536 + b2 * 256 + b3 : Nat) : Int) := by
  have hsh0 : jsShl (b0 : Int) 24 = jsToInt32 ((b0 * 16777216 : Nat) : Int) := by
    rw [jsShl, toUint32_natCast b0 (by omega)]
    norm_num [Nat.shiftLeft_eq, Nat.mod_eq_of_lt (show b0 * 16777216 < 4294967296 by omega)]
  have hsh1 : jsShl (b1 : Int) 16 = jsToInt32 ((b1 * 65536 : Nat) : Int) := by
    rw [jsShl, toUint32_natCast b1 (by omega)]
    norm_num [Nat.shiftLeft_eq, Nat.mod_eq_of_lt (show b1 * 65536 < 4294967296 by omega)]
  have hsh2 : jsShl (b2 : Int) 8 = jsToInt32 ((b2 * 256 : Nat) : Int) := by
    rw [jsShl, toUint32_natCast b2 (by omega)]
    norm_num [Nat.shiftLeft_eq, Nat.mod_eq_of_lt (show b2 * 256 < 4294967296 by omega)]
  rw [hsh0, hsh1, hsh2]
  have s0 : jsOr 0 (jsToInt32 ((b0 * 16777216 : Nat) : Int))
      = jsToInt32 ((b0 * 16777216 : Nat) : Int) := by
    rw [jsOr, toUint32_jsToInt32, toUint32_natCast _ (by omega)]
    norm_num [toUint32]
  rw [s0]
  have s1 : jsOr (jsToInt32 ((b0 * 16777216 : Nat) : Int)) (jsToInt32 ((b1 * 65536 : Nat) : Int))
      = jsToInt32 ((b0 * 16777216 + b1 * 65536 : Nat) : Int) := by
    rw [jsOr, toUint32_jsToInt32, toUint32_jsToInt32,
      toUint32_natCast _ (by omega), toUint32_natCast _ (by omega),
      or_step_24 b0 b1 h0 h1]
  rw [s1]
  have s2 : jsOr (jsToInt32 ((b0 * 16777216 + b1 * 65536 : Nat) : Int))
        (jsToInt32 ((b2 * 256 : Nat) : Int))
      = jsToInt32 ((b0 * 16777216 + b1 * 65536 + b2 * 256 : Nat) : Int) := by
    rw [jsOr, toUint32_jsToInt32, toUint32_jsToInt32,
      toUint32_natCast _ (by omega), toUint32_natCast _ (by omega),
      or_step_16 b0 b1 b2 h0 h1 h2]
  rw [s2]
  rw [jsOr, toUint32_jsToInt32, toUint32_natCast _ (by omega), toUint32_natCast _ (by omega),
    or_step_8 b0 b1 b2 b3 h0 h1 h2 h3]

theorem and_high_bit_zero (u : Nat) (h : u < 2147483648) : u &&& 2147483648 = 0 := by
  rw [show (2147483648 : Nat) = 2 ^ 31 by norm_num, Nat.and_two_pow,
    Nat.testBit_lt_two_pow (show u < 2 ^ 31 by omega)]
  rfl

theorem land_255_of_lt (b : Nat) (h : b < 256) : b &&& 255 = b := by
  have hb := Nat.and_pow_two_sub_one_eq_mod b 8
  norm_num at hb
  rw [hb, Nat.mod_eq_of_lt h]

/-- Reading one byte of a segmented buffer. -/
theorem getByte_seg (pre mid rest : List Nat) (j : Nat) (i : Int)
    (hi : i = (pre.length : Int) + (j : Int)) (hj : j < mid.length)
    (hb : mid.getD j 0 < 256) :
    getByte (pre ++ (mid ++ rest)) i = mid.getD j 0 := by
  unfold getByte
  rw [if_neg (by omega)]
  rw [show i.toNat = pre.length + j by omega]
  rw [List.getD_append_right pre (mid ++ rest) 0 (pre.length + j) (by omega)]
  rw [show pre.length + j - pre.length = j by omega]
  rw [List.getD_append mid rest 0 j hj]
  exact land_255_of_lt _ hb

theorem jsAnd_high_zero (u : Nat) (h : u < 2147483648) : jsAnd (u : Int) 2147483648 = 0 := by
  unfold jsAnd
  rw [toUint32_natCast u (by omega)]
  rw [show toUint32 2147483648 = 2147483648 by rfl]
  rw [and_high_bit_zero u h]
  rfl

/-- `readUint32` over a segmented buffer positioned at the four bytes of `u`. -/
theorem readUint32_seg (pre rest : List Nat) (u : Nat) (hu : u < 4294967296) (L : Int)
    (hL : (pre.length : Int) + 4 ≤ L) :
    SftpPacketReader.readUint32 ⟨pre ++ (int32Bytes u ++ rest), (pre.length : Int), L⟩ =
      (Except.ok (jsToInt32 (u : Int)),
       ⟨pre ++ (int32Bytes u ++ rest), (pre.length : Int) + 4, L⟩) := by
  have hov : SftpPacket.overruns ⟨pre ++ (int32Bytes u ++ rest), (pre.length : Int), L⟩ 4 = false := by
    simp [SftpPacket.overruns]
    omega
  have g0 : getByte (pre ++ (int32Bytes u ++ rest)) ((pre.length : Int)) = u / 16777216 % 256 := by
    have h := getByte_seg pre (int32Bytes u) rest 0 ((pre.length : Int))
      (by push_cast; ring) (by simp [int32Bytes]) (by simp [int32Bytes]; omega)
    simpa [int32Bytes] using h
  have g1 : getByte (pre ++ (int32Bytes u ++ rest)) ((pre.length : Int) + 1) = u / 65536 % 256 := by
    have h := getByte_seg pre (int32Bytes u) rest 1 ((pre.length : Int) + 1)
      (by push_cast; ring) (by simp [int32Bytes]) (by simp [int32Bytes]; omega)
    simpa [int32Bytes] using h
  have g2 : getByte (pre ++ (int32Bytes u ++ rest)) ((pre.length : Int) + 2) = u / 256 % 256 := by
    have h := getByte_seg pre (int32Bytes u) rest 2 ((pre.length : Int) + 2)
      (by push_cast; ring) (by simp [int32Bytes]) (by simp [int32Bytes]; omega)
    simpa [int32Bytes] using h
  have g3 : getByte (pre ++ (int32Bytes u ++ rest)) ((pre.length : Int) + 3) = u % 256 := by
    have h := getByte_seg pre (int32Bytes u) rest 3 ((pre.length : Int) + 3)
      (by push_cast; ring) (by simp [int32Bytes]) (by simp [int32Bytes]; omega)
    simpa [int32Bytes] using h
  unfold SftpPacketReader.readUint32
  rw [hov]
  dsimp only
  rw [g0, g1, g2, g3]
  rw [readUint32_value (u / 16777216 % 256) (u / 65536 % 256) (u / 256 % 256) (u % 256)
    (by omega) (by omega) (by omega) (by omega)]
  rw [show u / 16777216 % 256 * 16777216 + u / 65536 % 256 * 65536 + u / 256 % 256 * 256
      + u % 256 = u by omega]
  simp

/-- `readInt32` over a segmented buffer holding a value below `2^31`. -/
theorem readInt32_seg (pre rest : List Nat) (u : Nat) (hu : u < 2147483648) (L : Int)
    (hL : (pre.length : Int) + 4 ≤ L) :
    SftpPacketReader.readInt32 ⟨pre ++ (int32Bytes u ++ rest), (pre.length : Int), L⟩ =
      (Except.ok ((u : Nat) : Int),
       ⟨pre ++ (int32Bytes u ++ rest), (pre.length : Int) + 4, L⟩) := by
  unfold SftpPacketReader.readInt32
  rw [readUint32_seg pre rest u (by omega) L hL]
  rw [jsToInt32_natCast_small u hu]
  dsimp only
  rw [jsAnd_high_zero u hu]
  simp

/-- `readInt64` over a segmented buffer holding zero high bytes and a low
word below `2^31`. -/
theorem readInt64_seg (pre rest : List Nat) (v : Nat) (hv : v < 2147483648) (L : Int)
    (hL : (pre.length : Int) + 8 ≤ L) :
    SftpPacketReader.readInt64
        ⟨pre ++ (int32Bytes 0 ++ (int32Bytes v ++ rest)), (pre.length : Int), L⟩ =
      (Except.ok ((v : Nat) : Int),
       ⟨pre ++ (int32Bytes 0 ++ (int32Bytes v ++ rest)), (pre.length : Int) + 8, L⟩) := by
  have hassoc : pre ++ (int32Bytes 0 ++ (int32Bytes v ++ rest))
      = (pre ++ int32Bytes 0) ++ (int32Bytes v ++ rest) := (List.append_assoc pre _ _).symm
  have hlen : (((pre ++ int32Bytes 0).length : Nat) : Int) = (pre.length : Int) + 4 := by
    simp [int32Bytes]
  unfold SftpPacketReader.readInt64
  rw [readInt32_seg pre (int32Bytes v ++ rest) 0 (by omega) L (by omega)]
  dsimp only
  rw [hassoc, ← hlen]
  rw [readUint32_seg (pre ++ int32Bytes 0) rest v (by omega) L (by rw [hlen]; omega)]
  rw [jsToInt32_natCast_small v hv]
  dsimp only
  rw [hlen]
  norm_num
  omega

/-- `readString` over a segmented buffer holding a length-prefixed payload. -/
theorem readString_seg (pre data rest : List Nat) (L : Int)
    (hdl : data.length < 2147483648)
    (hL : (pre.length : Int) + 4 + (data.length : Int) ≤ L) :
    SftpPacketReader.readString
        ⟨pre ++ (int32Bytes data.length ++ (data ++ rest)), (pre.length : Int), L⟩ =
      (Except.ok (String.mk (data.map Char.ofNat)),
       ⟨pre ++ (int32Bytes data.length ++ (data ++ rest)),
        (pre.length : Int) + 4 + (data.length : Int), L⟩) := by
  have hassoc : pre ++ (int32Bytes data.length ++ (data ++ rest))
      = (pre ++ int32Bytes data.length) ++ (data ++ rest) :=
    (List.append_assoc pre _ _).symm
  have hplen : (pre ++ int32Bytes data.length).length = pre.length + 4 := by
    simp [int32Bytes]
  unfold SftpPacketReader.readString
  rw [readInt32_seg pre (data ++ rest) data.length hdl L (by omega)]
  dsimp only
  rw [show SftpPacket.overruns
      ⟨pre ++ (int32Bytes data.length ++ (data ++ rest)),
       (pre.length : Int) + 4, L⟩ ((data.length : Nat) : Int) = false by
    simp [SftpPacket.overruns]; omega]
  simp only [Bool.false_eq_true, if_false]
  unfold decodeUTF8
  rw [show (((pre.length : Int) + 4).toNat) = (pre ++ int32Bytes data.length).length by
    rw [hplen]; omega]
  rw [hassoc, List.drop_left]
  rw [show (((pre.length : Int) + 4 + (data.length : Int)) - ((pre.length : Int) + 4)).toNat
      = data.length by omega]
  rw [List.take_left' rfl]

/-- `jsSlice` of the middle segment of a buffer. -/
theorem jsSlice_seg (pre data rest : List Nat) :
    jsSlice ((pre ++ data) ++ rest) ((pre.length : Int))
      ((pre.length : Int) + (data.length : Int)) = data := by
  have hlen : ((((pre ++ data) ++ rest).length : Nat) : Int)
      = (pre.length : Int) + (data.length : Int) + (rest.length : Int) := by
    push_cast [List.length_append]
    ring
  simp only [jsSlice]
  rw [if_neg (by omega), if_neg (by omega)]
  rw [min_eq_left (by rw [hlen]; omega), min_eq_left (by rw [hlen]; omega)]
  rw [show ((pre.length : Int) + (data.length : Int) - (pre.length : Int)).toNat
      = data.length by omega]
  rw [show ((pre.length : Int)).toNat = pre.length by omega]
  rw [List.append_assoc, List.drop_left, List.take_left' rfl]

/-- `readData` over a segmented buffer holding a length-prefixed payload. -/
theorem readData_seg (pre data rest : List Nat) (clone : Bool) (L : Int)
    (hdl : data.length < 2147483648)
    (hL : (pre.length : Int) + 4 + (data.length : Int) ≤ L) :
    SftpPacketReader.readData
        ⟨pre ++ (int32Bytes data.length ++ (data ++ rest)), (pre.length : Int), L⟩ clone =
      (Except.ok data,
       ⟨pre ++ (int32Bytes data.length ++ (data ++ rest)),
        (pre.length : Int) + 4 + (data.length : Int), L⟩) := by
  have hassoc : pre ++ (int32Bytes data.length ++ (data ++ rest))
      = (pre ++ int32Bytes data.length) ++ (data ++ rest) :=
    (List.append_assoc pre _ _).symm
  have hplen : (pre ++ int32Bytes data.length).length = pre.length + 4 := by
    simp [int32Bytes]
  unfold SftpPacketReader.readData
  rw [readInt32_seg pre (data ++ rest) data.length hdl L (by omega)]
  dsimp only
  rw [show SftpPacket.overruns
      ⟨pre ++ (int32Bytes data.length ++ (data ++ rest)),
       (pre.length : Int) + 4, L⟩ ((data.length : Nat) : Int) = false by
    simp [SftpPacket.overruns]; omega]
  simp only [Bool.false_eq_true, if_false]
  rw [show pre ++ (int32Bytes data.length ++ (data ++ rest))
      = ((pre ++ int32Bytes data.length) ++ data) ++ rest by simp [List.append_assoc]]
  rw [show (pre.length : Int) + 4 = ((pre ++ int32Bytes data.length).length : Int) by
    rw [hplen]; push_cast; ring]
  rw [jsSlice_seg (pre ++ int32Bytes data.length) data rest]
  simp

theorem set_seg (done tail : List Nat) (i j : Nat) (b : Nat) (hi : i = done.length + j) :
    (done ++ tail).set i b = done ++ tail.set j b := by
  subst hi
  rw [List.set_append_right _ _ (by omega)]
  rw [Nat.add_sub_cancel_left]

theorem set4_seg (done R : List Nat) (b0 b1 b2 b3 : Nat) :
    ((((done ++ (([0, 0, 0, 0] : List Nat) ++ R)).set done.length b0).set
        (done.length + 1) b1).set (done.length + 2) b2).set (done.length + 3) b3
      = done ++ (([b0, b1, b2, b3] : List Nat) ++ R) := by
  rw [set_seg done (([0, 0, 0, 0] : List Nat) ++ R) done.length 0 b0 (by omega)]
  rw [List.set_append_left 0 b0 (by norm_num)]
  rw [show ([0, 0, 0, 0] : List Nat).set 0 b0 = [b0, 0, 0, 0] from rfl]
  rw [set_seg done (([b0, 0, 0, 0] : List Nat) ++ R) (done.length + 1) 1 b1 (by omega)]
  rw [List.set_append_left 1 b1 (by norm_num)]
  rw [show ([b0, 0, 0, 0] : List Nat).set 1 b1 = [b0, b1, 0, 0] from rfl]
  rw [set_seg done (([b0, b1, 0, 0] : List Nat) ++ R) (done.length + 2) 2 b2 (by omega)]
  rw [List.set_append_left 2 b2 (by norm_num)]
  rw [show ([b0, b1, 0, 0] : List Nat).set 2 b2 = [b0, b1, b2, 0] from rfl]
  rw [set_seg done (([b0, b1, b2, 0] : List Nat) ++ R) (done.length + 3) 3 b3 (by omega)]
  rw [List.set_append_left 3 b3 (by norm_num)]
  rw [show ([b0, b1, b2, 0] : List Nat).set 3 b3 = [b0, b1, b2, b3] from rfl]

/-- `writeInt32` into the zero padding of a partially filled writer. -/
theorem writeInt32_seg (done : List Nat) (k : Nat) (v : Int) (L : Int)
    (hL : (done.length : Int) + 4 ≤ L) :
    SftpPacketWriter.writeInt32
        ⟨done ++ List.replicate (4 + k) 0, (done.length : Int), L⟩ v =
      (Except.ok (), ⟨done ++ (int32Bytes (toUint32 v) ++ List.replicate k 0),
        (done.length : Int) + 4, L⟩) := by
  have hov : SftpPacket.overruns
      ⟨done ++ List.replicate (4 + k) 0, (done.length : Int), L⟩ 4 = false := by
    simp [SftpPacket.overruns]
    omega
  have hrep : List.replicate (4 + k) (0 : Nat) = ([0, 0, 0, 0] : List Nat) ++ List.replicate k 0 := by
    rw [List.replicate_add]
    rfl
  unfold SftpPacketWriter.writeInt32
  rw [hov]
  simp only [Bool.false_eq_true, if_false]
  unfold setByte
  rw [if_neg (by omega), if_neg (by omega), if_neg (by omega), if_neg (by omega)]
  rw [show ((done.length : Int)).toNat = done.length by omega]
  rw [show ((done.length : Int) + 1).toNat = done.length + 1 by omega]
  rw [show ((done.length : Int) + 2).toNat = done.length + 2 by omega]
  rw [show ((done.length : Int) + 3).toNat = done.length + 3 by omega]
  rw [hrep, set4_seg]
  rfl

/-- `writeInt64` of a value below `2^31` into the zero padding of a writer:
the high word is written as zero, the low word as the value. -/
theorem writeInt64_seg (done : List Nat) (k : Nat) (v : Nat) (hv : v < 2147483648) (L : Int)
    (hL : (done.length : Int) + 8 ≤ L) :
    SftpPacketWriter.writeInt64
        ⟨done ++ List.replicate (8 + k) 0, (done.length : Int), L⟩ ((v : Nat) : Int) =
      (Except.ok (), ⟨done ++ (int32Bytes 0 ++ (int32Bytes v ++ List.replicate k 0)),
        (done.length : Int) + 8, L⟩) := by
  have htd : jsToInt32 (Int.tdiv ((v : Nat) : Int) 4294967296) = 0 := by
    rw [show Int.tdiv ((v : Nat) : Int) 4294967296 = ((v / 4294967296 : Nat) : Int) from rfl]
    rw [Nat.div_eq_of_lt (by omega)]
    rfl
  have hlo : jsAnd ((v : Nat) : Int) 4294967295 = ((v : Nat) : Int) := by
    unfold jsAnd
    rw [toUint32_natCast v (by omega)]
    rw [show toUint32 4294967295 = 4294967295 from rfl]
    have hm := Nat.and_pow_two_sub_one_eq_mod v 32
    norm_num at hm
    rw [hm, Nat.mod_eq_of_lt (by omega)]
    exact jsToInt32_natCast_small v hv
  unfold SftpPacketWriter.writeInt64
  rw [htd, hlo]
  dsimp only
  rw [show (8 : Nat) + k = 4 + (4 + k) by omega]
  rw [writeInt32_seg done (4 + k) 0 L (by omega)]
  dsimp only
  rw [show toUint32 0 = 0 from rfl]
  rw [show done ++ (int32Bytes 0 ++ List.replicate (4 + k) 0)
      = (done ++ int32Bytes 0) ++ List.replicate (4 + k) 0 from (List.append_assoc _ _ _).symm]
  rw [show (done.length : Int) + 4 = (((done ++ int32Bytes 0).length : Nat) : Int) by
    simp [int32Bytes]]
  rw [writeInt32_seg (done ++ int32Bytes 0) k ((v : Nat) : Int) L (by simp [int32Bytes]; omega)]
  rw [toUint32_natCast v (by omega)]
  rw [show ((done ++ int32Bytes 0) ++ (int32Bytes v ++ List.replicate k 0))
      = done ++ (int32Bytes 0 ++ (int32Bytes v ++ List.replicate k 0)) from List.append_assoc _ _ _]
  rw [show (((done ++ int32Bytes 0).length : Nat) : Int) + 4 = (done.length : Int) + 8 by
    simp [int32Bytes]; omega]

/-! ## Attribute codec (part_001 lines 176-311) -/

/-- `SftpAttributeFlags` (part_001 lines 176-183). -/
def SftpAttributeFlags.SIZE : Int := 1

/-- Attribute-presence bit UIDGID. -/
def SftpAttributeFlags.UIDGID : Int := 2

/-- Attribute-presence bit PERMISSIONS. -/
def SftpAttributeFlags.PERMISSIONS : Int := 4

/-- Attribute-presence bit ACMODTIME. -/
def SftpAttributeFlags.ACMODTIME : Int := 8

/-- Attribute-presence bit EXTENDED. -/
def SftpAttributeFlags.EXTENDED : Int := 2147483648

/-- `SftpAttributes` (part_001 lines 185-311): an optional-field record plus the
presence bitmask.  A field is `none` when the JS property is `undefined`; the
`Date` fields hold milliseconds since the epoch. -/
structure SftpAttributes where
  flags : Int
  size : Option Int := none
  uid : Option Int := none
  gid : Option Int := none
  mode : Option Int := none
  atime : Option Int := none
  mtime : Option Int := none
  nlink : Option Int := none
deriving Repr, DecidableEq

/-- The generic stat-like metadata shape (`IStats` of api.ts); `Date` fields
as milliseconds. -/
structure IStatsModel where
  size : Option Int := none
  uid : Option Int := none
  gid : Option Int := none
  mode : Option Int := none
  atime : Option Int := none
  mtime : Option Int := none
  nlink : Option Int := none
deriving Repr, DecidableEq

/-- Conditionally read one numeric field, mirroring the mask-guarded reads of
the `SftpAttributes` constructor. -/
def condRead (c : Bool) (rd : SftpPacketState → ReadResult Int) (p : SftpPacketState) :
    ReadResult (Option Int) :=
  if c then
    match rd p with
    | (Except.error e, p1) => (Except.error e, p1)
    | (Except.ok v, p1) => (Except.ok (some v), p1)
  else (Except.ok none, p)

/-- The `SftpAttributes` reader constructor (part_001 lines 221-246): read the
mask, then the mask-guarded fields in fixed order; times decode as
`new Date(1000 * seconds)`. -/
def SftpAttributes.decode (p0 : SftpPacketState) :
    Except String (SftpAttributes × SftpPacketState) :=
  bindRead (SftpPacketReader.readUint32 p0) fun flags p1 =>
  bindRead (condRead (jsAnd flags SftpAttributeFlags.SIZE != 0) SftpPacketReader.readInt64 p1)
    fun size p2 =>
  bindRead (condRead (jsAnd flags SftpAttributeFlags.UIDGID != 0) SftpPacketReader.readInt32 p2)
    fun uid p3 =>
  bindRead (condRead (jsAnd flags SftpAttributeFlags.UIDGID != 0) SftpPacketReader.readInt32 p3)
    fun gid p4 =>
  bindRead (condRead (jsAnd flags SftpAttributeFlags.PERMISSIONS != 0) SftpPacketReader.readUint32 p4)
    fun mode p5 =>
  bindRead (condRead (jsAnd flags SftpAttributeFlags.ACMODTIME != 0) SftpPacketReader.readUint32 p5)
    fun at0 p6 =>
  bindRead (condRead (jsAnd flags SftpAttributeFlags.ACMODTIME != 0) SftpPacketReader.readUint32 p6)
    fun mt0 p7 =>
  Except.ok ({ flags := flags, size := size, uid := uid, gid := gid, mode := mode,
               atime := at0.map (fun s => 1000 * s), mtime := mt0.map (fun s => 1000 * s),
               nlink := none }, p7)

/-- The message of the JS `TypeError` raised by calling `getTime` on an
`undefined` Date field during `SftpAttributes.write`. -/
def dateTypeErrorMsg : String := "TypeError: undefined has no method getTime"

/-- Write one `Date` field: `writeInt32(date.getTime() / 1000)` — the float
division truncates toward zero inside the bit extraction of `writeInt32`; an
absent Date throws a `TypeError`. -/
def writeTime (w : SftpPacketState) (t : Option Int) : ReadResult Unit :=
  match t with
  | some ms => SftpPacketWriter.writeInt32 w (Int.tdiv ms 1000)
  | none => (Except.error dateTypeErrorMsg, w)

/-- Sequencing helper for writer steps. -/
def bindWrite {β : Type} (r : ReadResult Unit) (f : SftpPacketState → Except String β) :
    Except String β :=
  match r with
  | (Except.error e, _) => Except.error e
  | (Except.ok _, p) => f p

/-- `SftpAttributes.write` (part_001 lines 248-273): write the mask, then the
mask-guarded fields in the same fixed order.  A numeric field left `undefined`
while its bit is set writes zero bytes (NaN arithmetic); an absent `Date`
throws.  The EXTENDED bit writes a zero pair count. -/
def SftpAttributes.write (a : SftpAttributes) (w0 : SftpPacketState) :
    Except String SftpPacketState :=
  bindWrite (SftpPacketWriter.writeInt32 w0 a.flags) fun w1 =>
  bindWrite (if jsAnd a.flags SftpAttributeFlags.SIZE ≠ 0 then
      SftpPacketWriter.writeInt64 w1 (a.size.getD 0) else (Except.ok (), w1)) fun w2 =>
  bindWrite (if jsAnd a.flags SftpAttributeFlags.UIDGID ≠ 0 then
      SftpPacketWriter.writeInt32 w2 (a.uid.getD 0) else (Except.ok (), w2)) fun w3 =>
  bindWrite (if jsAnd a.flags SftpAttributeFlags.UIDGID ≠ 0 then
      SftpPacketWriter.writeInt32 w3 (a.gid.getD 0) else (Except.ok (), w3)) fun w4 =>
  bindWrite (if jsAnd a.flags SftpAttributeFlags.PERMISSIONS ≠ 0 then
      SftpPacketWriter.writeInt32 w4 (a.mode.getD 0) else (Except.ok (), w4)) fun w5 =>
  bindWrite (if jsAnd a.flags SftpAttributeFlags.ACMODTIME ≠ 0 then
      writeTime w5 a.atime else (Except.ok (), w5)) fun w6 =>
  bindWrite (if jsAnd a.flags SftpAttributeFlags.ACMODTIME ≠ 0 then
      writeTime w6 a.mtime else (Except.ok (), w6)) fun w7 =>
  bindWrite (if jsAnd a.flags SftpAttributeFlags.EXTENDED ≠ 0 then
      SftpPacketWriter.writeInt32 w7 0 else (Except.ok (), w7)) fun w8 =>
  Except.ok w8

/-- `SftpAttributes.from` (part_001 lines 275-309; `from` is a Lean keyword):
build the mask from which metadata fields are defined.  Numeric fields pass
through `| 0` (ToInt32); when only one of uid/gid is defined the other is
written as 0; `Date` fields pass through unchanged, so a single defined time
leaves the other `undefined` with the ACMODTIME bit set. -/
def SftpAttributes.fromStats (stats : Option IStatsModel) : SftpAttributes :=
  match stats with
  | none =>
    { flags := 0 }
  | some s =>
    let f0 : Int := 0
    let f1 := if s.size.isSome then jsOr f0 SftpAttributeFlags.SIZE else f0
    let size := if s.size.isSome then some (jsToInt32 (s.size.getD 0)) else none
    let f2 := if s.uid.isSome || s.gid.isSome then jsOr f1 SftpAttributeFlags.UIDGID else f1
    let uid := if s.uid.isSome || s.gid.isSome then some (jsToInt32 (s.uid.getD 0)) else none
    let gid := if s.uid.isSome || s.gid.isSome then some (jsToInt32 (s.gid.getD 0)) else none
    let f3 := if s.mode.isSome then jsOr f2 SftpAttributeFlags.PERMISSIONS else f2
    let mode := if s.mode.isSome then some (jsToInt32 (s.mode.getD 0)) else none
    let f4 := if s.atime.isSome || s.mtime.isSome then jsOr f3 SftpAttributeFlags.ACMODTIME else f3
    let atime := if s.atime.isSome || s.mtime.isSome then s.atime else none
    let mtime := if s.atime.isSome || s.mtime.isSome then s.mtime else none
    { flags := f4, size := size, uid := uid, gid := gid, mode := mode,
      atime := atime, mtime := mtime, nlink := s.nlink }

/-- The round trip of claim C5: build attributes from metadata, encode them
into a fresh writer (the capacity 32 covers every mask), and decode the bytes
written. -/
def roundtripAttrs (m : IStatsModel) : Except String SftpAttributes :=
  Except.bind (SftpAttributes.write (SftpAttributes.fromStats (some m)) (mkWriter 32))
    (fun w => Except.map (fun pr => pr.1)
      (SftpAttributes.decode (mkRawReader (w.buffer.take w.position.toNat))))

/-- Claim C5 counterexample: a metadata object defining only `uid` round-trips
to a record in which `gid` is also present (as 0), because the UIDGID bit
covers both fields — "exactly the defined fields and no others" fails. -/
theorem c5_attr_roundtrip_counterexample :
    roundtripAttrs { uid := some 5 } =
      Except.ok { flags := 2, uid := some 5, gid := some 0 } ∧
    ({ uid := some 5 } : IStatsModel).gid = none ∧
    (({ flags := 2, uid := some 5, gid := some 0 } : SftpAttributes).gid ≠ none) := by
  refine ⟨by decide, by decide, by decide⟩

/-! ## Normal forms for chaining writer and reader steps -/

/-- Writer state: `done` bytes written, `k` zero bytes of padding left
(capacity 32, the fresh writer used by the attribute round trip). -/
def wst (done : List Nat) (k : Nat) : SftpPacketState :=
  ⟨done ++ List.replicate k 0, (done.length : Int), 32⟩

/-- Reader state over a fixed buffer with `c` bytes consumed. -/
def rstF (full : List Nat) (c : Nat) : SftpPacketState :=
  ⟨full, (c : Int), (full.length : Int)⟩

theorem writeInt32_wst (done : List Nat) (k : Nat) (v : Int) (hk : 4 ≤ k)
    (hL : (done.length : Int) + 4 ≤ 32) :
    SftpPacketWriter.writeInt32 (wst done k) v =
      (Except.ok (), wst (done ++ int32Bytes (toUint32 v)) (k - 4)) := by
  obtain ⟨j, rfl⟩ : ∃ j, k = 4 + j := ⟨k - 4, by omega⟩
  unfold wst
  rw [writeInt32_seg done j v 32 hL]
  rw [show (4 : Nat) + j - 4 = j by omega]
  rw [show done ++ (int32Bytes (toUint32 v) ++ List.replicate j 0)
      = (done ++ int32Bytes (toUint32 v)) ++ List.replicate j 0 from
    (List.append_assoc _ _ _).symm]
  rw [show (done.length : Int) + 4 = (((done ++ int32Bytes (toUint32 v)).length : Nat) : Int) by
    simp [int32Bytes]]

theorem writeInt64_wst (done : List Nat) (k : Nat) (v : Nat) (hv : v < 2147483648)
    (hk : 8 ≤ k) (hL : (done.length : Int) + 8 ≤ 32) :
    SftpPacketWriter.writeInt64 (wst done k) ((v : Nat) : Int) =
      (Except.ok (), wst ((done ++ int32Bytes 0) ++ int32Bytes v) (k - 8)) := by
  obtain ⟨j, rfl⟩ : ∃ j, k = 8 + j := ⟨k - 8, by omega⟩
  unfold wst
  rw [writeInt64_seg done j v hv 32 hL]
  rw [show (8 : Nat) + j - 8 = j by omega]
  rw [show done ++ (int32Bytes 0 ++ (int32Bytes v ++ List.replicate j 0))
      = ((done ++ int32Bytes 0) ++ int32Bytes v) ++ List.replicate j 0 by
    simp [List.append_assoc]]
  rw [show (done.length : Int) + 8 = ((((done ++ int32Bytes 0) ++ int32Bytes v).length : Nat) : Int) by
    simp [int32Bytes]]

theorem writeTime_wst (done : List Nat) (k : Nat) (s : Nat) (hk : 4 ≤ k)
    (hL : (done.length : Int) + 4 ≤ 32) :
    writeTime (wst done k) (some (1000 * (s : Int))) =
      (Except.ok (), wst (done ++ int32Bytes (toUint32 (s : Int))) (k - 4)) := by
  unfold writeTime
  dsimp only
  rw [show Int.tdiv (1000 * (s : Int)) 1000 = ((s : Nat) : Int) by
    rw [show (1000 : Int) * (s : Int) = ((1000 * s : Nat) : Int) by push_cast; ring]
    rw [show Int.tdiv ((1000 * s : Nat) : Int) 1000 = ((1000 * s / 1000 : Nat) : Int) from rfl]
    rw [Nat.mul_div_cancel_left s (by norm_num)]]
  exact writeInt32_wst done k ((s : Nat) : Int) hk hL

theorem readUint32_rst (pre rest : List Nat) (u : Nat) (hu : u < 4294967296) :
    SftpPacketReader.readUint32 (rstF (pre ++ (int32Bytes u ++ rest)) pre.length) =
      (Except.ok (jsToInt32 (u : Int)),
       rstF (pre ++ (int32Bytes u ++ rest)) (pre.length + 4)) := by
  unfold rstF
  rw [readUint32_seg pre rest u hu _ (by simp [int32Bytes]; push_cast; omega)]
  rw [show (pre.length : Int) + 4 = ((pre.length + 4 : Nat) : Int) by push_cast; ring]

theorem readInt32_rst (pre rest : List Nat) (u : Nat) (hu : u < 2147483648) :
    SftpPacketReader.readInt32 (rstF (pre ++ (int32Bytes u ++ rest)) pre.length) =
      (Except.ok ((u : Nat) : Int),
       rstF (pre ++ (int32Bytes u ++ rest)) (pre.length + 4)) := by
  unfold rstF
  rw [readInt32_seg pre rest u hu _ (by simp [int32Bytes]; push_cast; omega)]
  rw [show (pre.length : Int) + 4 = ((pre.length + 4 : Nat) : Int) by push_cast; ring]

theorem readInt64_rst (pre rest : List Nat) (v : Nat) (hv : v < 2147483648) :
    SftpPacketReader.readInt64
        (rstF (pre ++ (int32Bytes 0 ++ (int32Bytes v ++ rest))) pre.length) =
      (Except.ok ((v : Nat) : Int),
       rstF (pre ++ (int32Bytes 0 ++ (int32Bytes v ++ rest))) (pre.length + 8)) := by
  unfold rstF
  rw [readInt64_seg pre rest v hv _ (by simp [int32Bytes]; push_cast; omega)]
  rw [show (pre.length : Int) + 8 = ((pre.length + 8 : Nat) : Int) by push_cast; ring]

theorem bindWrite_ok {β : Type} (p : SftpPacketState) (f : SftpPacketState → Except String β) :
    bindWrite (Except.ok (), p) f = f p := rfl

theorem bindRead_ok {α β : Type} (a : α) (p : SftpPacketState)
    (f : α → SftpPacketState → Except String β) :
    bindRead (Except.ok a, p) f = f a p := rfl

theorem condRead_true_ok (rd : SftpPacketState → ReadResult Int) (p p1 : SftpPacketState)
    (v : Int) (h : rd p = (Except.ok v, p1)) :
    condRead true rd p = (Except.ok (some v), p1) := by
  unfold condRead
  rw [if_pos rfl, h]

theorem condRead_false (rd : SftpPacketState → ReadResult Int) (p : SftpPacketState) :
    condRead false rd p = (Except.ok none, p) := by
  unfold condRead
  rw [if_neg (by simp)]

theorem readUint32_at (full : List Nat) (c : Nat) (pre rest : List Nat) (u : Nat)
    (hfull : full = pre ++ (int32Bytes u ++ rest)) (hc : c = pre.length)
    (hu : u < 4294967296) :
    SftpPacketReader.readUint32 (rstF full c) =
      (Except.ok (jsToInt32 (u : Int)), rstF full (c + 4)) := by
  subst hfull hc
  exact readUint32_rst pre rest u hu

theorem readInt32_at (full : List Nat) (c : Nat) (pre rest : List Nat) (u : Nat)
    (hfull : full = pre ++ (int32Bytes u ++ rest)) (hc : c = pre.length)
    (hu : u < 2147483648) :
    SftpPacketReader.readInt32 (rstF full c) =
      (Except.ok ((u : Nat) : Int), rstF full (c + 4)) := by
  subst hfull hc
  exact readInt32_rst pre rest u hu

theorem readInt64_at (full : List Nat) (c : Nat) (pre rest : List Nat) (v : Nat)
    (hfull : full = pre ++ (int32Bytes 0 ++ (int32Bytes v ++ rest))) (hc : c = pre.length)
    (hv : v < 2147483648) :
    SftpPacketReader.readInt64 (rstF full c) =
      (Except.ok ((v : Nat) : Int), rstF full (c + 8)) := by
  subst hfull hc
  exact readInt64_rst pre rest v hv

theorem readUint32_at_small (full : List Nat) (c : Nat) (pre rest : List Nat) (u : Nat)
    (hfull : full = pre ++ (int32Bytes u ++ rest)) (hc : c = pre.length)
    (hu : u < 2147483648) :
    SftpPacketReader.readUint32 (rstF full c) =
      (Except.ok ((u : Nat) : Int), rstF full (c + 4)) := by
  rw [readUint32_at full c pre rest u hfull hc (by omega)]
  rw [jsToInt32_natCast_small u hu]

theorem except_bind_ok {α β : Type} (a : α) (f : α → Except String β) :
    Except.bind (Except.ok a) f = f a := rfl

theorem except_map_ok {α β : Type} (f : α → β) (a : α) :
    Except.map f (Except.ok a : Except String α) = Except.ok (f a) := rfl

theorem roundtripAttrs_eq (m : IStatsModel) (w : SftpPacketState) (a : SftpAttributes)
    (p : SftpPacketState)
    (hw : SftpAttributes.write (SftpAttributes.fromStats (some m)) (mkWriter 32) = Except.ok w)
    (hd : SftpAttributes.decode (mkRawReader (w.buffer.take w.position.toNat)) =
      Except.ok (a, p)) :
    roundtripAttrs m = Except.ok a := by
  unfold roundtripAttrs
  rw [hw, except_bind_ok, hd, except_map_ok]
/-- Initializing a reader on the written prefix of a `wst` writer state. -/
theorem mkRawReader_wst (done : List Nat) (k : Nat) :
    mkRawReader ((wst done k).buffer.take (wst done k).position.toNat) = rstF done 0 := by
  simp [wst, mkRawReader, rstF, List.take_left]

theorem attrRoundtrip_s0u0m0t0 (nl : Option Int)
    :
    roundtripAttrs ⟨none, none, none, none, none, none, nl⟩ =
      Except.ok ⟨0, none, none, none, none, none, none, none⟩ := by
  have hfrom : SftpAttributes.fromStats (some ⟨none, none, none, none, none, none, nl⟩) = (⟨0, none, none, none, none, none, none, nl⟩ : SftpAttributes) := by
    rw [SftpAttributes.fromStats]
    simp only [Option.isSome_some, Option.isSome_none, Option.getD_some, Bool.or_self,
      Bool.false_eq_true, if_true, if_false]
  have hw0 : SftpPacketWriter.writeInt32 (wst ([] : List Nat) 32) 0 =
      (Except.ok (), wst (int32Bytes 0) 28) := by
    rw [writeInt32_wst [] 32 0 (by norm_num) (by norm_num)]
    all_goals simp only [List.nil_append, show toUint32 0 = 0 from rfl,
      show (32 : Nat) - 4 = 28 from rfl]
  have hwrite : SftpAttributes.write (⟨0, none, none, none, none, none, none, nl⟩ : SftpAttributes) (mkWriter 32) =
      Except.ok (wst (int32Bytes 0) 28) := by
    simp only [SftpAttributes.write]
    simp [show jsAnd (0 : Int) SftpAttributeFlags.SIZE = 0 by decide,
      show jsAnd (0 : Int) SftpAttributeFlags.UIDGID = 0 by decide,
      show jsAnd (0 : Int) SftpAttributeFlags.PERMISSIONS = 0 by decide,
      show jsAnd (0 : Int) SftpAttributeFlags.ACMODTIME = 0 by decide,
      show jsAnd (0 : Int) SftpAttributeFlags.EXTENDED = 0 by decide]
    simp only [show mkWriter 32 = wst ([] : List Nat) 32 from rfl,
      hw0, bindWrite_ok]
    all_goals simp [List.append_assoc]
  have hr0 : SftpPacketReader.readUint32 (rstF (int32Bytes 0) 0) =
      (Except.ok ((0 : Nat) : Int), rstF (int32Bytes 0) 4) := by
    rw [readUint32_at_small (int32Bytes 0) 0 [] (([] : List Nat)) 0
      (by simp [List.append_assoc]) (by simp) (by norm_num)]
  have hdec : SftpAttributes.decode (rstF (int32Bytes 0) 0) =
      Except.ok ((⟨0, none, none, none, none, none, none, none⟩ : SftpAttributes), rstF (int32Bytes 0) 4) := by
    simp only [SftpAttributes.decode]
    simp only [hr0, bindRead_ok, show ((0 : Nat) : Int) = (0 : Int) from rfl]
    simp only [show ((jsAnd (0 : Int) SftpAttributeFlags.SIZE != 0)) = false by decide,
      show ((jsAnd (0 : Int) SftpAttributeFlags.UIDGID != 0)) = false by decide,
      show ((jsAnd (0 : Int) SftpAttributeFlags.PERMISSIONS != 0)) = false by decide,
      show ((jsAnd (0 : Int) SftpAttributeFlags.ACMODTIME != 0)) = false by decide]
    simp only [condRead_false, bindRead_ok]
    rfl
  have hmk : mkRawReader ((wst (int32Bytes 0) 28).buffer.take (wst (int32Bytes 0) 28).position.toNat)
      = rstF (int32Bytes 0) 0 := by
    exact mkRawReader_wst _ _
  exact roundtripAttrs_eq _ _ _ _ (by rw [hfrom]; exact hwrite) (by rw [hmk]; exact hdec)

theorem attrRoundtrip_s0u0m0t1 (ta tb : Nat) (nl : Option Int)
    (hta : ta < 2147483648) (htb : tb < 2147483648) :
    roundtripAttrs ⟨none, none, none, none, some (1000 * (ta : Int)), some (1000 * (tb : Int)), nl⟩ =
      Except.ok ⟨8, none, none, none, none, some (1000 * (ta : Int)), some (1000 * (tb : Int)), none⟩ := by
  have hfrom : SftpAttributes.fromStats (some ⟨none, none, none, none, some (1000 * (ta : Int)), some (1000 * (tb : Int)), nl⟩) = (⟨8, none, none, none, none, some (1000 * (ta : Int)), some (1000 * (tb : Int)), nl⟩ : SftpAttributes) := by
    rw [SftpAttributes.fromStats]
    simp only [Option.isSome_some, Option.isSome_none, Option.getD_some, Bool.or_self,
      Bool.false_eq_true, if_true, if_false]
    rw [show jsOr 0 SftpAttributeFlags.ACMODTIME = 8 by decide]
  have hw0 : SftpPacketWriter.writeInt32 (wst ([] : List Nat) 32) 8 =
      (Except.ok (), wst (int32Bytes 8) 28) := by
    rw [writeInt32_wst [] 32 8 (by norm_num) (by norm_num)]
    all_goals simp only [List.nil_append, show toUint32 8 = 8 from rfl,
      show (32 : Nat) - 4 = 28 from rfl]
  have hw1 : writeTime (wst (int32Bytes 8) 28) (some (1000 * (ta : Int))) =
      (Except.ok (), wst ((int32Bytes 8) ++ int32Bytes ta) 24) := by
    rw [writeTime_wst (int32Bytes 8) 28 ta (by norm_num) (by norm_num [int32Bytes])]
    all_goals simp only [toUint32_natCast ta (by omega),
      show (28 : Nat) - 4 = 24 from rfl]
  have hw2 : writeTime (wst ((int32Bytes 8 ++ int32Bytes ta)) 24) (some (1000 * (tb : Int))) =
      (Except.ok (), wst (((int32Bytes 8 ++ int32Bytes ta)) ++ int32Bytes tb) 20) := by
    rw [writeTime_wst ((int32Bytes 8 ++ int32Bytes ta)) 24 tb (by norm_num) (by norm_num [int32Bytes])]
    all_goals simp only [toUint32_natCast tb (by omega),
      show (24 : Nat) - 4 = 20 from rfl]
  have hwrite : SftpAttributes.write (⟨8, none, none, none, none, some (1000 * (ta : Int)), some (1000 * (tb : Int)), nl⟩ : SftpAttributes) (mkWriter 32) =
      Except.ok (wst (((int32Bytes 8 ++ int32Bytes ta) ++ int32Bytes tb)) 20) := by
    simp only [SftpAttributes.write]
    simp [show jsAnd (8 : Int) SftpAttributeFlags.SIZE = 0 by decide,
      show jsAnd (8 : Int) SftpAttributeFlags.UIDGID = 0 by decide,
      show jsAnd (8 : Int) SftpAttributeFlags.PERMISSIONS = 0 by decide,
      show jsAnd (8 : Int) SftpAttributeFlags.ACMODTIME = 8 by decide,
      show jsAnd (8 : Int) SftpAttributeFlags.EXTENDED = 0 by decide]
    simp only [show mkWriter 32 = wst ([] : List Nat) 32 from rfl,
      hw0, hw1, hw2, bindWrite_ok]
    all_goals simp [List.append_assoc]
  have hr0 : SftpPacketReader.readUint32 (rstF (((int32Bytes 8 ++ int32Bytes ta) ++ int32Bytes tb)) 0) =
      (Except.ok ((8 : Nat) : Int), rstF (((int32Bytes 8 ++ int32Bytes ta) ++ int32Bytes tb)) 4) := by
    rw [readUint32_at_small (((int32Bytes 8 ++ int32Bytes ta) ++ int32Bytes tb)) 0 [] ((int32Bytes ta ++ int32Bytes tb)) 8
      (by simp [List.append_assoc]) (by simp) (by norm_num)]
  have hr1 : condRead true SftpPacketReader.readUint32 (rstF (((int32Bytes 8 ++ int32Bytes ta) ++ int32Bytes tb)) 4) =
      (Except.ok (some ((ta : Nat) : Int)), rstF (((int32Bytes 8 ++ int32Bytes ta) ++ int32Bytes tb)) 8) := by
    exact condRead_true_ok _ _ _ _ (readUint32_at_small (((int32Bytes 8 ++ int32Bytes ta) ++ int32Bytes tb)) 4 (int32Bytes 8) (int32Bytes tb) ta
      (by simp [List.append_assoc]) (by simp [int32Bytes]) hta)
  have hr2 : condRead true SftpPacketReader.readUint32 (rstF (((int32Bytes 8 ++ int32Bytes ta) ++ int32Bytes tb)) 8) =
      (Except.ok (some ((tb : Nat) : Int)), rstF (((int32Bytes 8 ++ int32Bytes ta) ++ int32Bytes tb)) 12) := by
    exact condRead_true_ok _ _ _ _ (readUint32_at_small (((int32Bytes 8 ++ int32Bytes ta) ++ int32Bytes tb)) 8 ((int32Bytes 8 ++ int32Bytes ta)) (([] : List Nat)) tb
      (by simp [List.append_assoc]) (by simp [int32Bytes]) htb)
  have hdec : SftpAttributes.decode (rstF (((int32Bytes 8 ++ int32Bytes ta) ++ int32Bytes tb)) 0) =
      Except.ok ((⟨8, none, none, none, none, some (1000 * (ta : Int)), some (1000 * (tb : Int)), none⟩ : SftpAttributes), rstF (((int32Bytes 8 ++ int32Bytes ta) ++ int32Bytes tb)) 12) := by
    simp only [SftpAttributes.decode]
    simp only [hr0, bindRead_ok, show ((8 : Nat) : Int) = (8 : Int) from rfl]
    simp only [show ((jsAnd (8 : Int) SftpAttributeFlags.SIZE != 0)) = false by decide,
      show ((jsAnd (8 : Int) SftpAttributeFlags.UIDGID != 0)) = false by decide,
      show ((jsAnd (8 : Int) SftpAttributeFlags.PERMISSIONS != 0)) = false by decide,
      show ((jsAnd (8 : Int) SftpAttributeFlags.ACMODTIME != 0)) = true by decide]
    simp only [hr1, hr2, condRead_false, bindRead_ok]
    rfl
  have hmk : mkRawReader ((wst (((int32Bytes 8 ++ int32Bytes ta) ++ int32Bytes tb)) 20).buffer.take (wst (((int32Bytes 8 ++ int32Bytes ta) ++ int32Bytes tb)) 20).position.toNat)
      = rstF (((int32Bytes 8 ++ int32Bytes ta) ++ int32Bytes tb)) 0 := by
    exact mkRawReader_wst _ _
  exact roundtripAttrs_eq _ _ _ _ (by rw [hfrom]; exact hwrite) (by rw [hmk]; exact hdec)

theorem attrRoundtrip_s0u0m1t0 (mv : Nat) (nl : Option Int)
    (hmv : mv < 2147483648) :
    roundtripAttrs ⟨none, none, none, some (mv : Int), none, none, nl⟩ =
      Except.ok ⟨4, none, none, none, some (mv : Int), none, none, none⟩ := by
  have hfrom : SftpAttributes.fromStats (some ⟨none, none, none, some (mv : Int), none, none, nl⟩) = (⟨4, none, none, none, some (mv : Int), none, none, nl⟩ : SftpAttributes) := by
    rw [SftpAttributes.fromStats]
    simp only [Option.isSome_some, Option.isSome_none, Option.getD_some, Bool.or_self,
      Bool.false_eq_true, if_true, if_false]
    rw [jsToInt32_natCast_small mv hmv]
    rw [show jsOr 0 SftpAttributeFlags.PERMISSIONS = 4 by decide]
  have hw0 : SftpPacketWriter.writeInt32 (wst ([] : List Nat) 32) 4 =
      (Except.ok (), wst (int32Bytes 4) 28) := by
    rw [writeInt32_wst [] 32 4 (by norm_num) (by norm_num)]
    all_goals simp only [List.nil_append, show toUint32 4 = 4 from rfl,
      show (32 : Nat) - 4 = 28 from rfl]
  have hw1 : SftpPacketWriter.writeInt32 (wst (int32Bytes 4) 28) ((mv : Nat) : Int) =
      (Except.ok (), wst ((int32Bytes 4) ++ int32Bytes mv) 24) := by
    rw [writeInt32_wst (int32Bytes 4) 28 ((mv : Nat) : Int) (by norm_num) (by norm_num [int32Bytes])]
    all_goals simp only [toUint32_natCast mv (by omega),
      show (28 : Nat) - 4 = 24 from rfl]
  have hwrite : SftpAttributes.write (⟨4, none, none, none, some (mv : Int), none, none, nl⟩ : SftpAttributes) (mkWriter 32) =
      Except.ok (wst ((int32Bytes 4 ++ int32Bytes mv)) 24) := by
    simp only [SftpAttributes.write]
    simp [show jsAnd (4 : Int) SftpAttributeFlags.SIZE = 0 by decide,
      show jsAnd (4 : Int) SftpAttributeFlags.UIDGID = 0 by decide,
      show jsAnd (4 : Int) SftpAttributeFlags.PERMISSIONS = 4 by decide,
      show jsAnd (4 : Int) SftpAttributeFlags.ACMODTIME = 0 by decide,
      show jsAnd (4 : Int) SftpAttributeFlags.EXTENDED = 0 by decide]
    simp only [show mkWriter 32 = wst ([] : List Nat) 32 from rfl,
      hw0, hw1, bindWrite_ok]
    all_goals simp [List.append_assoc]
  have hr0 : SftpPacketReader.readUint32 (rstF ((int32Bytes 4 ++ int32Bytes mv)) 0) =
      (Except.ok ((4 : Nat) : Int), rstF ((int32Bytes 4 ++ int32Bytes mv)) 4) := by
    rw [readUint32_at_small ((int32Bytes 4 ++ int32Bytes mv)) 0 [] (int32Bytes mv) 4
      (by simp [List.append_assoc]) (by simp) (by norm_num)]
  have hr1 : condRead true SftpPacketReader.readUint32 (rstF ((int32Bytes 4 ++ int32Bytes mv)) 4) =
      (Except.ok (some ((mv : Nat) : Int)), rstF ((int32Bytes 4 ++ int32Bytes mv)) 8) := by
    exact condRead_true_ok _ _ _ _ (readUint32_at_small ((int32Bytes 4 ++ int32Bytes mv)) 4 (int32Bytes 4) (([] : List Nat)) mv
      (by simp [List.append_assoc]) (by simp [int32Bytes]) hmv)
  have hdec : SftpAttributes.decode (rstF ((int32Bytes 4 ++ int32Bytes mv)) 0) =
      Except.ok ((⟨4, none, none, none, some (mv : Int), none, none, none⟩ : SftpAttributes), rstF ((int32Bytes 4 ++ int32Bytes mv)) 8) := by
    simp only [SftpAttributes.decode]
    simp only [hr0, bindRead_ok, show ((4 : Nat) : Int) = (4 : Int) from rfl]
    simp only [show ((jsAnd (4 : Int) SftpAttributeFlags.SIZE != 0)) = false by decide,
      show ((jsAnd (4 : Int) SftpAttributeFlags.UIDGID != 0)) = false by decide,
      show ((jsAnd (4 : Int) SftpAttributeFlags.PERMISSIONS != 0)) = true by decide,
      show ((jsAnd (4 : Int) SftpAttributeFlags.ACMODTIME != 0)) = false by decide]
    simp only [hr1, condRead_false, bindRead_ok]
    rfl
  have hmk : mkRawReader ((wst ((int32Bytes 4 ++ int32Bytes mv)) 24).buffer.take (wst ((int32Bytes 4 ++ int32Bytes mv)) 24).position.toNat)
      = rstF ((int32Bytes 4 ++ int32Bytes mv)) 0 := by
    exact mkRawReader_wst _ _
  exact roundtripAttrs_eq _ _ _ _ (by rw [hfrom]; exact hwrite) (by rw [hmk]; exact hdec)

theorem attrRoundtrip_s0u0m1t1 (mv ta tb : Nat) (nl : Option Int)
    (hmv : mv < 2147483648) (hta : ta < 2147483648) (htb : tb < 2147483648) :
    roundtripAttrs ⟨none, none, none, some (mv : Int), some (1000 * (ta : Int)), some (1000 * (tb : Int)), nl⟩ =
      Except.ok ⟨12, none, none, none, some (mv : Int), some (1000 * (ta : Int)), some (1000 * (tb : Int)), none⟩ := by
  have hfrom : SftpAttributes.fromStats (some ⟨none, none, none, some (mv : Int), some (1000 * (ta : Int)), some (1000 * (tb : Int)), nl⟩) = (⟨12, none, none, none, some (mv : Int), some (1000 * (ta : Int)), some (1000 * (tb : Int)), nl⟩ : SftpAttributes) := by
    rw [SftpAttributes.fromStats]
    simp only [Option.isSome_some, Option.isSome_none, Option.getD_some, Bool.or_self,
      Bool.false_eq_true, if_true, if_false]
    rw [jsToInt32_natCast_small mv hmv]
    rw [show jsOr 0 SftpAttributeFlags.PERMISSIONS = 4 by decide, show jsOr 4 SftpAttributeFlags.ACMODTIME = 12 by decide]
  have hw0 : SftpPacketWriter.writeInt32 (wst ([] : List Nat) 32) 12 =
      (Except.ok (), wst (int32Bytes 12) 28) := by
    rw [writeInt32_wst [] 32 12 (by norm_num) (by norm_num)]
    all_goals simp only [List.nil_append, show toUint32 12 = 12 from rfl,
      show (32 : Nat) - 4 = 28 from rfl]
  have hw1 : SftpPacketWriter.writeInt32 (wst (int32Bytes 12) 28) ((mv : Nat) : Int) =
      (Except.ok (), wst ((int32Bytes 12) ++ int32Bytes mv) 24) := by
    rw [writeInt32_wst (int32Bytes 12) 28 ((mv : Nat) : Int) (by norm_num) (by norm_num [int32Bytes])]
    all_goals simp only [toUint32_natCast mv (by omega),
      show (28 : Nat) - 4 = 24 from rfl]
  have hw2 : writeTime (wst ((int32Bytes 12 ++ int32Bytes mv)) 24) (some (1000 * (ta : Int))) =
      (Except.ok (), wst (((int32Bytes 12 ++ int32Bytes mv)) ++ int32Bytes ta) 20) := by
    rw [writeTime_wst ((int32Bytes 12 ++ int32Bytes mv)) 24 ta (by norm_num) (by norm_num [int32Bytes])]
    all_goals simp only [toUint32_natCast ta (by omega),
      show (24 : Nat) - 4 = 20 from rfl]
  have hw3 : writeTime (wst (((int32Bytes 12 ++ int32Bytes mv) ++ int32Bytes ta)) 20) (some (1000 * (tb : Int))) =
      (Except.ok (), wst ((((int32Bytes 12 ++ int32Bytes mv) ++ int32Bytes ta)) ++ int32Bytes tb) 16) := by
    rw [writeTime_wst (((int32Bytes 12 ++ int32Bytes mv) ++ int32Bytes ta)) 20 tb (by norm_num) (by norm_num [int32Bytes])]
    all_goals simp only [toUint32_natCast tb (by omega),
      show (20 : Nat) - 4 = 16 from rfl]
  have hwrite : SftpAttributes.write (⟨12, none, none, none, some (mv : Int), some (1000 * (ta : Int)), some (1000 * (tb : Int)), nl⟩ : SftpAttributes) (mkWriter 32) =
      Except.ok (wst ((((int32Bytes 12 ++ int32Bytes mv) ++ int32Bytes ta) ++ int32Bytes tb)) 16) := by
    simp only [SftpAttributes.write]
    simp [show jsAnd (12 : Int) SftpAttributeFlags.SIZE = 0 by decide,
      show jsAnd (12 : Int) SftpAttributeFlags.UIDGID = 0 by decide,
      show jsAnd (12 : Int) SftpAttributeFlags.PERMISSIONS = 4 by decide,
      show jsAnd (12 : Int) SftpAttributeFlags.ACMODTIME = 8 by decide,
      show jsAnd (12 : Int) SftpAttributeFlags.EXTENDED = 0 by decide]
    simp only [show mkWriter 32 = wst ([] : List Nat) 32 from rfl,
      hw0, hw1, hw2, hw3, bindWrite_ok]
    all_goals simp [List.append_assoc]
  have hr0 : SftpPacketReader.readUint32 (rstF ((((int32Bytes 12 ++ int32Bytes mv) ++ int32Bytes ta) ++ int32Bytes tb)) 0) =
      (Except.ok ((12 : Nat) : Int), rstF ((((int32Bytes 12 ++ int32Bytes mv) ++ int32Bytes ta) ++ int32Bytes tb)) 4) := by
    rw [readUint32_at_small ((((int32Bytes 12 ++ int32Bytes mv) ++ int32Bytes ta) ++ int32Bytes tb)) 0 [] ((int32Bytes mv ++ (int32Bytes ta ++ int32Bytes tb))) 12
      (by simp [List.append_assoc]) (by simp) (by norm_num)]
  have hr1 : condRead true SftpPacketReader.readUint32 (rstF ((((int32Bytes 12 ++ int32Bytes mv) ++ int32Bytes ta) ++ int32Bytes tb)) 4) =
      (Except.ok (some ((mv : Nat) : Int)), rstF ((((int32Bytes 12 ++ int32Bytes mv) ++ int32Bytes ta) ++ int32Bytes tb)) 8) := by
    exact condRead_true_ok _ _ _ _ (readUint32_at_small ((((int32Bytes 12 ++ int32Bytes mv) ++ int32Bytes ta) ++ int32Bytes tb)) 4 (int32Bytes 12) ((int32Bytes ta ++ int32Bytes tb)) mv
      (by simp [List.append_assoc]) (by simp [int32Bytes]) hmv)
  have hr2 : condRead true SftpPacketReader.readUint32 (rstF ((((int32Bytes 12 ++ int32Bytes mv) ++ int32Bytes ta) ++ int32Bytes tb)) 8) =
      (Except.ok (some ((ta : Nat) : Int)), rstF ((((int32Bytes 12 ++ int32Bytes mv) ++ int32Bytes ta) ++ int32Bytes tb)) 12) := by
    exact condRead_true_ok _ _ _ _ (readUint32_at_small ((((int32Bytes 12 ++ int32Bytes mv) ++ int32Bytes ta) ++ int32Bytes tb)) 8 ((int32Bytes 12 ++ int32Bytes mv)) (int32Bytes tb) ta
      (by simp [List.append_assoc]) (by simp [int32Bytes]) hta)
  have hr3 : condRead true SftpPacketReader.readUint32 (rstF ((((int32Bytes 12 ++ int32Bytes mv) ++ int32Bytes ta) ++ int32Bytes tb)) 12) =
      (Except.ok (some ((tb : Nat) : Int)), rstF ((((int32Bytes 12 ++ int32Bytes mv) ++ int32Bytes ta) ++ int32Bytes tb)) 16) := by
    exact condRead_true_ok _ _ _ _ (readUint32_at_small ((((int32Bytes 12 ++ int32Bytes mv) ++ int32Bytes ta) ++ int32Bytes tb)) 12 (((int32Bytes 12 ++ int32Bytes mv) ++ int32Bytes ta)) (([] : List Nat)) tb
      (by simp [List.append_assoc]) (by simp [int32Bytes]) htb)
  have hdec : SftpAttributes.decode (rstF ((((int32Bytes 12 ++ int32Bytes mv) ++ int32Bytes ta) ++ int32Bytes tb)) 0) =
      Except.ok ((⟨12, none, none, none, some (mv : Int), some (1000 * (ta : Int)), some (1000 * (tb : Int)), none⟩ : SftpAttributes), rstF ((((int32Bytes 12 ++ int32Bytes mv) ++ int32Bytes ta) ++ int32Bytes tb)) 16) := by
    simp only [SftpAttributes.decode]
    simp only [hr0, bindRead_ok, show ((12 : Nat) : Int) = (12 : Int) from rfl]
    simp only [show ((jsAnd (12 : Int) SftpAttributeFlags.SIZE != 0)) = false by decide,
      show ((jsAnd (12 : Int) SftpAttributeFlags.UIDGID != 0)) = false by decide,
      show ((jsAnd (12 : Int) SftpAttributeFlags.PERMISSIONS != 0)) = true by decide,
      show ((jsAnd (12 : Int) SftpAttributeFlags.ACMODTIME != 0)) = true by decide]
    simp only [hr1, hr2, hr3, condRead_false, bindRead_ok]
    rfl
  have hmk : mkRawReader ((wst ((((int32Bytes 12 ++ int32Bytes mv) ++ int32Bytes ta) ++ int32Bytes tb)) 16).buffer.take (wst ((((int32Bytes 12 ++ int32Bytes mv) ++ int32Bytes ta) ++ int32Bytes tb)) 16).position.toNat)
      = rstF ((((int32Bytes 12 ++ int32Bytes mv) ++ int32Bytes ta) ++ int32Bytes tb)) 0 := by
    exact mkRawReader_wst _ _
  exact roundtripAttrs_eq _ _ _ _ (by rw [hfrom]; exact hwrite) (by rw [hmk]; exact hdec)

theorem attrRoundtrip_s0u1m0t0 (uv gv : Nat) (nl : Option Int)
    (huv : uv < 2147483648) (hgv : gv < 2147483648) :
    roundtripAttrs ⟨none, some (uv : Int), some (gv : Int), none, none, none, nl⟩ =
      Except.ok ⟨2, none, some (uv : Int), some (gv : Int), none, none, none, none⟩ := by
  have hfrom : SftpAttributes.fromStats (some ⟨none, some (uv : Int), some (gv : Int), none, none, none, nl⟩) = (⟨2, none, some (uv : Int), some (gv : Int), none, none, none, nl⟩ : SftpAttributes) := by
    rw [SftpAttributes.fromStats]
    simp only [Option.isSome_some, Option.isSome_none, Option.getD_some, Bool.or_self,
      Bool.false_eq_true, if_true, if_false]
    rw [jsToInt32_natCast_small uv huv, jsToInt32_natCast_small gv hgv]
    rw [show jsOr 0 SftpAttributeFlags.UIDGID = 2 by decide]
  have hw0 : SftpPacketWriter.writeInt32 (wst ([] : List Nat) 32) 2 =
      (Except.ok (), wst (int32Bytes 2) 28) := by
    rw [writeInt32_wst [] 32 2 (by norm_num) (by norm_num)]
    all_goals simp only [List.nil_append, show toUint32 2 = 2 from rfl,
      show (32 : Nat) - 4 = 28 from rfl]
  have hw1 : SftpPacketWriter.writeInt32 (wst (int32Bytes 2) 28) ((uv : Nat) : Int) =
      (Except.ok (), wst ((int32Bytes 2) ++ int32Bytes uv) 24) := by
    rw [writeInt32_wst (int32Bytes 2) 28 ((uv : Nat) : Int) (by norm_num) (by norm_num [int32Bytes])]
    all_goals simp only [toUint32_natCast uv (by omega),
      show (28 : Nat) - 4 = 24 from rfl]
  have hw2 : SftpPacketWriter.writeInt32 (wst ((int32Bytes 2 ++ int32Bytes uv)) 24) ((gv : Nat) : Int) =
      (Except.ok (), wst (((int32Bytes 2 ++ int32Bytes uv)) ++ int32Bytes gv) 20) := by
    rw [writeInt32_wst ((int32Bytes 2 ++ int32Bytes uv)) 24 ((gv : Nat) : Int) (by norm_num) (by norm_num [int32Bytes])]
    all_goals simp only [toUint32_natCast gv (by omega),
      show (24 : Nat) - 4 = 20 from rfl]
  have hwrite : SftpAttributes.write (⟨2, none, some (uv : Int), some (gv : Int), none, none, none, nl⟩ : SftpAttributes) (mkWriter 32) =
      Except.ok (wst (((int32Bytes 2 ++ int32Bytes uv) ++ int32Bytes gv)) 20) := by
    simp only [SftpAttributes.write]
    simp [show jsAnd (2 : Int) SftpAttributeFlags.SIZE = 0 by decide,
      show jsAnd (2 : Int) SftpAttributeFlags.UIDGID = 2 by decide,
      show jsAnd (2 : Int) SftpAttributeFlags.PERMISSIONS = 0 by decide,
      show jsAnd (2 : Int) SftpAttributeFlags.ACMODTIME = 0 by decide,
      show jsAnd (2 : Int) SftpAttributeFlags.EXTENDED = 0 by decide]
    simp only [show mkWriter 32 = wst ([] : List Nat) 32 from rfl,
      hw0, hw1, hw2, bindWrite_ok]
    all_goals simp [List.append_assoc]
  have hr0 : SftpPacketReader.readUint32 (rstF (((int32Bytes 2 ++ int32Bytes uv) ++ int32Bytes gv)) 0) =
      (Except.ok ((2 : Nat) : Int), rstF (((int32Bytes 2 ++ int32Bytes uv) ++ int32Bytes gv)) 4) := by
    rw [readUint32_at_small (((int32Bytes 2 ++ int32Bytes uv) ++ int32Bytes gv)) 0 [] ((int32Bytes uv ++ int32Bytes gv)) 2
      (by simp [List.append_assoc]) (by simp) (by norm_num)]
  have hr1 : condRead true SftpPacketReader.readInt32 (rstF (((int32Bytes 2 ++ int32Bytes uv) ++ int32Bytes gv)) 4) =
      (Except.ok (some ((uv : Nat) : Int)), rstF (((int32Bytes 2 ++ int32Bytes uv) ++ int32Bytes gv)) 8) := by
    exact condRead_true_ok _ _ _ _ (readInt32_at (((int32Bytes 2 ++ int32Bytes uv) ++ int32Bytes gv)) 4 (int32Bytes 2) (int32Bytes gv) uv
      (by simp [List.append_assoc]) (by simp [int32Bytes]) huv)
  have hr2 : condRead true SftpPacketReader.readInt32 (rstF (((int32Bytes 2 ++ int32Bytes uv) ++ int32Bytes gv)) 8) =
      (Except.ok (some ((gv : Nat) : Int)), rstF (((int32Bytes 2 ++ int32Bytes uv) ++ int32Bytes gv)) 12) := by
    exact condRead_true_ok _ _ _ _ (readInt32_at (((int32Bytes 2 ++ int32Bytes uv) ++ int32Bytes gv)) 8 ((int32Bytes 2 ++ int32Bytes uv)) (([] : List Nat)) gv
      (by simp [List.append_assoc]) (by simp [int32Bytes]) hgv)
  have hdec : SftpAttributes.decode (rstF (((int32Bytes 2 ++ int32Bytes uv) ++ int32Bytes gv)) 0) =
      Except.ok ((⟨2, none, some (uv : Int), some (gv : Int), none, none, none, none⟩ : SftpAttributes), rstF (((int32Bytes 2 ++ int32Bytes uv) ++ int32Bytes gv)) 12) := by
    simp only [SftpAttributes.decode]
    simp only [hr0, bindRead_ok, show ((2 : Nat) : Int) = (2 : Int) from rfl]
    simp only [show ((jsAnd (2 : Int) SftpAttributeFlags.SIZE != 0)) = false by decide,
      show ((jsAnd (2 : Int) SftpAttributeFlags.UIDGID != 0)) = true by decide,
      show ((jsAnd (2 : Int) SftpAttributeFlags.PERMISSIONS != 0)) = false by decide,
      show ((jsAnd (2 : Int) SftpAttributeFlags.ACMODTIME != 0)) = false by decide]
    simp only [hr1, hr2, condRead_false, bindRead_ok]
    rfl
  have hmk : mkRawReader ((wst (((int32Bytes 2 ++ int32Bytes uv) ++ int32Bytes gv)) 20).buffer.take (wst (((int32Bytes 2 ++ int32Bytes uv) ++ int32Bytes gv)) 20).position.toNat)
      = rstF (((int32Bytes 2 ++ int32Bytes uv) ++ int32Bytes gv)) 0 := by
    exact mkRawReader_wst _ _
  exact roundtripAttrs_eq _ _ _ _ (by rw [hfrom]; exact hwrite) (by rw [hmk]; exact hdec)

theorem attrRoundtrip_s0u1m0t1 (uv gv ta tb : Nat) (nl : Option Int)
    (huv : uv < 2147483648) (hgv : gv < 2147483648) (hta : ta < 2147483648) (htb : tb < 2147483648) :
    roundtripAttrs ⟨none, some (uv : Int), some (gv : Int), none, some (1000 * (ta : Int)), some (1000 * (tb : Int)), nl⟩ =
      Except.ok ⟨10, none, some (uv : Int), some (gv : Int), none, some (1000 * (ta : Int)), some (1000 * (tb : Int)), none⟩ := by
  have hfrom : SftpAttributes.fromStats (some ⟨none, some (uv : Int), some (gv : Int), none, some (1000 * (ta : Int)), some (1000 * (tb : Int)), nl⟩) = (⟨10, none, some (uv : Int), some (gv : Int), none, some (1000 * (ta : Int)), some (1000 * (tb : Int)), nl⟩ : SftpAttributes) := by
    rw [SftpAttributes.fromStats]
    simp only [Option.isSome_some, Option.isSome_none, Option.getD_some, Bool.or_self,
      Bool.false_eq_true, if_true, if_false]
    rw [jsToInt32_natCast_small uv huv, jsToInt32_natCast_small gv hgv]
    rw [show jsOr 0 SftpAttributeFlags.UIDGID = 2 by decide, show jsOr 2 SftpAttributeFlags.ACMODTIME = 10 by decide]
  have hw0 : SftpPacketWriter.writeInt32 (wst ([] : List Nat) 32) 10 =
      (Except.ok (), wst (int32Bytes 10) 28) := by
    rw [writeInt32_wst [] 32 10 (by norm_num) (by norm_num)]
    all_goals simp only [List.nil_append, show toUint32 10 = 10 from rfl,
      show (32 : Nat) - 4 = 28 from rfl]
  have hw1 : SftpPacketWriter.writeInt32 (wst (int32Bytes 10) 28) ((uv : Nat) : Int) =
      (Except.ok (), wst ((int32Bytes 10) ++ int32Bytes uv) 24) := by
    rw [writeInt32_wst (int32Bytes 10) 28 ((uv : Nat) : Int) (by norm_num) (by norm_num [int32Bytes])]
    all_goals simp only [toUint32_natCast uv (by omega),
      show (28 : Nat) - 4 = 24 from rfl]
  have hw2 : SftpPacketWriter.writeInt32 (wst ((int32Bytes 10 ++ int32Bytes uv)) 24) ((gv : Nat) : Int) =
      (Except.ok (), wst (((int32Bytes 10 ++ int32Bytes uv)) ++ int32Bytes gv) 20) := by
    rw [writeInt32_wst ((int32Bytes 10 ++ int32Bytes uv)) 24 ((gv : Nat) : Int) (by norm_num) (by norm_num [int32Bytes])]
    all_goals simp only [toUint32_natCast gv (by omega),
      show (24 : Nat) - 4 = 20 from rfl]
  have hw3 : writeTime (wst (((int32Bytes 10 ++ int32Bytes uv) ++ int32Bytes gv)) 20) (some (1000 * (ta : Int))) =
      (Except.ok (), wst ((((int32Bytes 10 ++ int32Bytes uv) ++ int32Bytes gv)) ++ int32Bytes ta) 16) := by
    rw [writeTime_wst (((int32Bytes 10 ++ int32Bytes uv) ++ int32Bytes gv)) 20 ta (by norm_num) (by norm_num [int32Bytes])]
    all_goals simp only [toUint32_natCast ta (by omega),
      show (20 : Nat) - 4 = 16 from rfl]
  have hw4 : writeTime (wst ((((int32Bytes 10 ++ int32Bytes uv) ++ int32Bytes gv) ++ int32Bytes ta)) 16) (some (1000 * (tb : Int))) =
      (Except.ok (), wst (((((int32Bytes 10 ++ int32Bytes uv) ++ int32Bytes gv) ++ int32Bytes ta)) ++ int32Bytes tb) 12) := by
    rw [writeTime_wst ((((int32Bytes 10 ++ int32Bytes uv) ++ int32Bytes gv) ++ int32Bytes ta)) 16 tb (by norm_num) (by norm_num [int32Bytes])]
    all_goals simp only [toUint32_natCast tb (by omega),
      show (16 : Nat) - 4 = 12 from rfl]
  have hwrite : SftpAttributes.write (⟨10, none, some (uv : Int), some (gv : Int), none, some (1000 * (ta : Int)), some (1000 * (tb : Int)), nl⟩ : SftpAttributes) (mkWriter 32) =
      Except.ok (wst (((((int32Bytes 10 ++ int32Bytes uv) ++ int32Bytes gv) ++ int32Bytes ta) ++ int32Bytes tb)) 12) := by
    simp only [SftpAttributes.write]
    simp [show jsAnd (10 : Int) SftpAttributeFlags.SIZE = 0 by decide,
      show jsAnd (10 : Int) SftpAttributeFlags.UIDGID = 2 by decide,
      show jsAnd (10 : Int) SftpAttributeFlags.PERMISSIONS = 0 by decide,
      show jsAnd (10 : Int) SftpAttributeFlags.ACMODTIME = 8 by decide,
      show jsAnd (10 : Int) SftpAttributeFlags.EXTENDED = 0 by decide]
    simp only [show mkWriter 32 = wst ([] : List Nat) 32 from rfl,
      hw0, hw1, hw2, hw3, hw4, bindWrite_ok]
    all_goals simp [List.append_assoc]
  have hr0 : SftpPacketReader.readUint32 (rstF (((((int32Bytes 10 ++ int32Bytes uv) ++ int32Bytes gv) ++ int32Bytes ta) ++ int32Bytes tb)) 0) =
      (Except.ok ((10 : Nat) : Int), rstF (((((int32Bytes 10 ++ int32Bytes uv) ++ int32Bytes gv) ++ int32Bytes ta) ++ int32Bytes tb)) 4) := by
    rw [readUint32_at_small (((((int32Bytes 10 ++ int32Bytes uv) ++ int32Bytes gv) ++ int32Bytes ta) ++ int32Bytes tb)) 0 [] ((int32Bytes uv ++ (int32Bytes gv ++ (int32Bytes ta ++ int32Bytes tb)))) 10
      (by simp [List.append_assoc]) (by simp) (by norm_num)]
  have hr1 : condRead true SftpPacketReader.readInt32 (rstF (((((int32Bytes 10 ++ int32Bytes uv) ++ int32Bytes gv) ++ int32Bytes ta) ++ int32Bytes tb)) 4) =
      (Except.ok (some ((uv : Nat) : Int)), rstF (((((int32Bytes 10 ++ int32Bytes uv) ++ int32Bytes gv) ++ int32Bytes ta) ++ int32Bytes tb)) 8) := by
    exact condRead_true_ok _ _ _ _ (readInt32_at (((((int32Bytes 10 ++ int32Bytes uv) ++ int32Bytes gv) ++ int32Bytes ta) ++ int32Bytes tb)) 4 (int32Bytes 10) ((int32Bytes gv ++ (int32Bytes ta ++ int32Bytes tb))) uv
      (by simp [List.append_assoc]) (by simp [int32Bytes]) huv)
  have hr2 : condRead true SftpPacketReader.readInt32 (rstF (((((int32Bytes 10 ++ int32Bytes uv) ++ int32Bytes gv) ++ int32Bytes ta) ++ int32Bytes tb)) 8) =
      (Except.ok (some ((gv : Nat) : Int)), rstF (((((int32Bytes 10 ++ int32Bytes uv) ++ int32Bytes gv) ++ int32Bytes ta) ++ int32Bytes tb)) 12) := by
    exact condRead_true_ok _ _ _ _ (readInt32_at (((((int32Bytes 10 ++ int32Bytes uv) ++ int32Bytes gv) ++ int32Bytes ta) ++ int32Bytes tb)) 8 ((int32Bytes 10 ++ int32Bytes uv)) ((int32Bytes ta ++ int32Bytes tb)) gv
      (by simp [List.append_assoc]) (by simp [int32Bytes]) hgv)
  have hr3 : condRead true SftpPacketReader.readUint32 (rstF (((((int32Bytes 10 ++ int32Bytes uv) ++ int32Bytes gv) ++ int32Bytes ta) ++ int32Bytes tb)) 12) =
      (Except.ok (some ((ta : Nat) : Int)), rstF (((((int32Bytes 10 ++ int32Bytes uv) ++ int32Bytes gv) ++ int32Bytes ta) ++ int32Bytes tb)) 16) := by
    exact condRead_true_ok _ _ _ _ (readUint32_at_small (((((int32Bytes 10 ++ int32Bytes uv) ++ int32Bytes gv) ++ int32Bytes ta) ++ int32Bytes tb)) 12 (((int32Bytes 10 ++ int32Bytes uv) ++ int32Bytes gv)) (int32Bytes tb) ta
      (by simp [List.append_assoc]) (by simp [int32Bytes]) hta)
  have hr4 : condRead true SftpPacketReader.readUint32 (rstF (((((int32Bytes 10 ++ int32Bytes uv) ++ int32Bytes gv) ++ int32Bytes ta) ++ int32Bytes tb)) 16) =
      (Except.ok (some ((tb : Nat) : Int)), rstF (((((int32Bytes 10 ++ int32Bytes uv) ++ int32Bytes gv) ++ int32Bytes ta) ++ int32Bytes tb)) 20) := by
    exact condRead_true_ok _ _ _ _ (readUint32_at_small (((((int32Bytes 10 ++ int32Bytes uv) ++ int32Bytes gv) ++ int32Bytes ta) ++ int32Bytes tb)) 16 ((((int32Bytes 10 ++ int32Bytes uv) ++ int32Bytes gv) ++ int32Bytes ta)) (([] : List Nat)) tb
      (by simp [List.append_assoc]) (by simp [int32Bytes]) htb)
  have hdec : SftpAttributes.decode (rstF (((((int32Bytes 10 ++ int32Bytes uv) ++ int32Bytes gv) ++ int32Bytes ta) ++ int32Bytes tb)) 0) =
      Except.ok ((⟨10, none, some (uv : Int), some (gv : Int), none, some (1000 * (ta : Int)), some (1000 * (tb : Int)), none⟩ : SftpAttributes), rstF (((((int32Bytes 10 ++ int32Bytes uv) ++ int32Bytes gv) ++ int32Bytes ta) ++ int32Bytes tb)) 20) := by
    simp only [SftpAttributes.decode]
    simp only [hr0, bindRead_ok, show ((10 : Nat) : Int) = (10 : Int) from rfl]
    simp only [show ((jsAnd (10 : Int) SftpAttributeFlags.SIZE != 0)) = false by decide,
      show ((jsAnd (10 : Int) SftpAttributeFlags.UIDGID != 0)) = true by decide,
      show ((jsAnd (10 : Int) SftpAttributeFlags.PERMISSIONS != 0)) = false by decide,
      show ((jsAnd (10 : Int) SftpAttributeFlags.ACMODTIME != 0)) = true by decide]
    simp only [hr1, hr2, hr3, hr4, condRead_false, bindRead_ok]
    rfl
  have hmk : mkRawReader ((wst (((((int32Bytes 10 ++ int32Bytes uv) ++ int32Bytes gv) ++ int32Bytes ta) ++ int32Bytes tb)) 12).buffer.take (wst (((((int32Bytes 10 ++ int32Bytes uv) ++ int32Bytes gv) ++ int32Bytes ta) ++ int32Bytes tb)) 12).position.toNat)
      = rstF (((((int32Bytes 10 ++ int32Bytes uv) ++ int32Bytes gv) ++ int32Bytes ta) ++ int32Bytes tb)) 0 := by
    exact mkRawReader_wst _ _
  exact roundtripAttrs_eq _ _ _ _ (by rw [hfrom]; exact hwrite) (by rw [hmk]; exact hdec)

theorem attrRoundtrip_s0u1m1t0 (uv gv mv : Nat) (nl : Option Int)
    (huv : uv < 2147483648) (hgv : gv < 2147483648) (hmv : mv < 2147483648) :
    roundtripAttrs ⟨none, some (uv : Int), some (gv : Int), some (mv : Int), none, none, nl⟩ =
      Except.ok ⟨6, none, some (uv : Int), some (gv : Int), some (mv : Int), none, none, none⟩ := by
  have hfrom : SftpAttributes.fromStats (some ⟨none, some (uv : Int), some (gv : Int), some (mv : Int), none, none, nl⟩) = (⟨6, none, some (uv : Int), some (gv : Int), some (mv : Int), none, none, nl⟩ : SftpAttributes) := by
    rw [SftpAttributes.fromStats]
    simp only [Option.isSome_some, Option.isSome_none, Option.getD_some, Bool.or_self,
      Bool.false_eq_true, if_true, if_false]
    rw [jsToInt32_natCast_small uv huv, jsToInt32_natCast_small gv hgv, jsToInt32_natCast_small mv hmv]
    rw [show jsOr 0 SftpAttributeFlags.UIDGID = 2 by decide, show jsOr 2 SftpAttributeFlags.PERMISSIONS = 6 by decide]
  have hw0 : SftpPacketWriter.writeInt32 (wst ([] : List Nat) 32) 6 =
      (Except.ok (), wst (int32Bytes 6) 28) := by
    rw [writeInt32_wst [] 32 6 (by norm_num) (by norm_num)]
    all_goals simp only [List.nil_append, show toUint32 6 = 6 from rfl,
      show (32 : Nat) - 4 = 28 from rfl]
  have hw1 : SftpPacketWriter.writeInt32 (wst (int32Bytes 6) 28) ((uv : Nat) : Int) =
      (Except.ok (), wst ((int32Bytes 6) ++ int32Bytes uv) 24) := by
    rw [writeInt32_wst (int32Bytes 6) 28 ((uv : Nat) : Int) (by norm_num) (by norm_num [int32Bytes])]
    all_goals simp only [toUint32_natCast uv (by omega),
      show (28 : Nat) - 4 = 24 from rfl]
  have hw2 : SftpPacketWriter.writeInt32 (wst ((int32Bytes 6 ++ int32Bytes uv)) 24) ((gv : Nat) : Int) =
      (Except.ok (), wst (((int32Bytes 6 ++ int32Bytes uv)) ++ int32Bytes gv) 20) := by
    rw [writeInt32_wst ((int32Bytes 6 ++ int32Bytes uv)) 24 ((gv : Nat) : Int) (by norm_num) (by norm_num [int32Bytes])]
    all_goals simp only [toUint32_natCast gv (by omega),
      show (24 : Nat) - 4 = 20 from rfl]
  have hw3 : SftpPacketWriter.writeInt32 (wst (((int32Bytes 6 ++ int32Bytes uv) ++ int32Bytes gv)) 20) ((mv : Nat) : Int) =
      (Except.ok (), wst ((((int32Bytes 6 ++ int32Bytes uv) ++ int32Bytes gv)) ++ int32Bytes mv) 16) := by
    rw [writeInt32_wst (((int32Bytes 6 ++ int32Bytes uv) ++ int32Bytes gv)) 20 ((mv : Nat) : Int) (by norm_num) (by norm_num [int32Bytes])]
    all_goals simp only [toUint32_natCast mv (by omega),
      show (20 : Nat) - 4 = 16 from rfl]
  have hwrite : SftpAttributes.write (⟨6, none, some (uv : Int), some (gv : Int), some (mv : Int), none, none, nl⟩ : SftpAttributes) (mkWriter 32) =
      Except.ok (wst ((((int32Bytes 6 ++ int32Bytes uv) ++ int32Bytes gv) ++ int32Bytes mv)) 16) := by
    simp only [SftpAttributes.write]
    simp [show jsAnd (6 : Int) SftpAttributeFlags.SIZE = 0 by decide,
      show jsAnd (6 : Int) SftpAttributeFlags.UIDGID = 2 by decide,
      show jsAnd (6 : Int) SftpAttributeFlags.PERMISSIONS = 4 by decide,
      show jsAnd (6 : Int) SftpAttributeFlags.ACMODTIME = 0 by decide,
      show jsAnd (6 : Int) SftpAttributeFlags.EXTENDED = 0 by decide]
    simp only [show mkWriter 32 = wst ([] : List Nat) 32 from rfl,
      hw0, hw1, hw2, hw3, bindWrite_ok]
    all_goals simp [List.append_assoc]
  have hr0 : SftpPacketReader.readUint32 (rstF ((((int32Bytes 6 ++ int32Bytes uv) ++ int32Bytes gv) ++ int32Bytes mv)) 0) =
      (Except.ok ((6 : Nat) : Int), rstF ((((int32Bytes 6 ++ int32Bytes uv) ++ int32Bytes gv) ++ int32Bytes mv)) 4) := by
    rw [readUint32_at_small ((((int32Bytes 6 ++ int32Bytes uv) ++ int32Bytes gv) ++ int32Bytes mv)) 0 [] ((int32Bytes uv ++ (int32Bytes gv ++ int32Bytes mv))) 6
      (by simp [List.append_assoc]) (by simp) (by norm_num)]
  have hr1 : condRead true SftpPacketReader.readInt32 (rstF ((((int32Bytes 6 ++ int32Bytes uv) ++ int32Bytes gv) ++ int32Bytes mv)) 4) =
      (Except.ok (some ((uv : Nat) : Int)), rstF ((((int32Bytes 6 ++ int32Bytes uv) ++ int32Bytes gv) ++ int32Bytes mv)) 8) := by
    exact condRead_true_ok _ _ _ _ (readInt32_at ((((int32Bytes 6 ++ int32Bytes uv) ++ int32Bytes gv) ++ int32Bytes mv)) 4 (int32Bytes 6) ((int32Bytes gv ++ int32Bytes mv)) uv
      (by simp [List.append_assoc]) (by simp [int32Bytes]) huv)
  have hr2 : condRead true SftpPacketReader.readInt32 (rstF ((((int32Bytes 6 ++ int32Bytes uv) ++ int32Bytes gv) ++ int32Bytes mv)) 8) =
      (Except.ok (some ((gv : Nat) : Int)), rstF ((((int32Bytes 6 ++ int32Bytes uv) ++ int32Bytes gv) ++ int32Bytes mv)) 12) := by
    exact condRead_true_ok _ _ _ _ (readInt32_at ((((int32Bytes 6 ++ int32Bytes uv) ++ int32Bytes gv) ++ int32Bytes mv)) 8 ((int32Bytes 6 ++ int32Bytes uv)) (int32Bytes mv) gv
      (by simp [List.append_assoc]) (by simp [int32Bytes]) hgv)
  have hr3 : condRead true SftpPacketReader.readUint32 (rstF ((((int32Bytes 6 ++ int32Bytes uv) ++ int32Bytes gv) ++ int32Bytes mv)) 12) =
      (Except.ok (some ((mv : Nat) : Int)), rstF ((((int32Bytes 6 ++ int32Bytes uv) ++ int32Bytes gv) ++ int32Bytes mv)) 16) := by
    exact condRead_true_ok _ _ _ _ (readUint32_at_small ((((int32Bytes 6 ++ int32Bytes uv) ++ int32Bytes gv) ++ int32Bytes mv)) 12 (((int32Bytes 6 ++ int32Bytes uv) ++ int32Bytes gv)) (([] : List Nat)) mv
      (by simp [List.append_assoc]) (by simp [int32Bytes]) hmv)
  have hdec : SftpAttributes.decode (rstF ((((int32Bytes 6 ++ int32Bytes uv) ++ int32Bytes gv) ++ int32Bytes mv)) 0) =
      Except.ok ((⟨6, none, some (uv : Int), some (gv : Int), some (mv : Int), none, none, none⟩ : SftpAttributes), rstF ((((int32Bytes 6 ++ int32Bytes uv) ++ int32Bytes gv) ++ int32Bytes mv)) 16) := by
    simp only [SftpAttributes.decode]
    simp only [hr0, bindRead_ok, show ((6 : Nat) : Int) = (6 : Int) from rfl]
    simp only [show ((jsAnd (6 : Int) SftpAttributeFlags.SIZE != 0)) = false by decide,
      show ((jsAnd (6 : Int) SftpAttributeFlags.UIDGID != 0)) = true by decide,
      show ((jsAnd (6 : Int) SftpAttributeFlags.PERMISSIONS != 0)) = true by decide,
      show ((jsAnd (6 : Int) SftpAttributeFlags.ACMODTIME != 0)) = false by decide]
    simp only [hr1, hr2, hr3, condRead_false, bindRead_ok]
    rfl
  have hmk : mkRawReader ((wst ((((int32Bytes 6 ++ int32Bytes uv) ++ int32Bytes gv) ++ int32Bytes mv)) 16).buffer.take (wst ((((int32Bytes 6 ++ int32Bytes uv) ++ int32Bytes gv) ++ int32Bytes mv)) 16).position.toNat)
      = rstF ((((int32Bytes 6 ++ int32Bytes uv) ++ int32Bytes gv) ++ int32Bytes mv)) 0 := by
    exact mkRawReader_wst _ _
  exact roundtripAttrs_eq _ _ _ _ (by rw [hfrom]; exact hwrite) (by rw [hmk]; exact hdec)

theorem attrRoundtrip_s0u1m1t1 (uv gv mv ta tb : Nat) (nl : Option Int)
    (huv : uv < 2147483648) (hgv : gv < 2147483648) (hmv : mv < 2147483648) (hta : ta < 2147483648) (htb : tb < 2147483648) :
    roundtripAttrs ⟨none, some (uv : Int), some (gv : Int), some (mv : Int), some (1000 * (ta : Int)), some (1000 * (tb : Int)), nl⟩ =
      Except.ok ⟨14, none, some (uv : Int), some (gv : Int), some (mv : Int), some (1000 * (ta : Int)), some (1000 * (tb : Int)), none⟩ := by
  have hfrom : SftpAttributes.fromStats (some ⟨none, some (uv : Int), some (gv : Int), some (mv : Int), some (1000 * (ta : Int)), some (1000 * (tb : Int)), nl⟩) = (⟨14, none, some (uv : Int), some (gv : Int), some (mv : Int), some (1000 * (ta : Int)), some (1000 * (tb : Int)), nl⟩ : SftpAttributes) := by
    rw [SftpAttributes.fromStats]
    simp only [Option.isSome_some, Option.isSome_none, Option.getD_some, Bool.or_self,
      Bool.false_eq_true, if_true, if_false]
    rw [jsToInt32_natCast_small uv huv, jsToInt32_natCast_small gv hgv, jsToInt32_natCast_small mv hmv]
    rw [show jsOr 0 SftpAttributeFlags.UIDGID = 2 by decide, show jsOr 2 SftpAttributeFlags.PERMISSIONS = 6 by decide, show jsOr 6 SftpAttributeFlags.ACMODTIME = 14 by decide]
  have hw0 : SftpPacketWriter.writeInt32 (wst ([] : List Nat) 32) 14 =
      (Except.ok (), wst (int32Bytes 14) 28) := by
    rw [writeInt32_wst [] 32 14 (by norm_num) (by norm_num)]
    all_goals simp only [List.nil_append, show toUint32 14 = 14 from rfl,
      show (32 : Nat) - 4 = 28 from rfl]
  have hw1 : SftpPacketWriter.writeInt32 (wst (int32Bytes 14) 28) ((uv : Nat) : Int) =
      (Except.ok (), wst ((int32Bytes 14) ++ int32Bytes uv) 24) := by
    rw [writeInt32_wst (int32Bytes 14) 28 ((uv : Nat) : Int) (by norm_num) (by norm_num [int32Bytes])]
    all_goals simp only [toUint32_natCast uv (by omega),
      show (28 : Nat) - 4 = 24 from rfl]
  have hw2 : SftpPacketWriter.writeInt32 (wst ((int32Bytes 14 ++ int32Bytes uv)) 24) ((gv : Nat) : Int) =
      (Except.ok (), wst (((int32Bytes 14 ++ int32Bytes uv)) ++ int32Bytes gv) 20) := by
    rw [writeInt32_wst ((int32Bytes 14 ++ int32Bytes uv)) 24 ((gv : Nat) : Int) (by norm_num) (by norm_num [int32Bytes])]
    all_goals simp only [toUint32_natCast gv (by omega),
      show (24 : Nat) - 4 = 20 from rfl]
  have hw3 : SftpPacketWriter.writeInt32 (wst (((int32Bytes 14 ++ int32Bytes uv) ++ int32Bytes gv)) 20) ((mv : Nat) : Int) =
      (Except.ok (), wst ((((int32Bytes 14 ++ int32Bytes uv) ++ int32Bytes gv)) ++ int32Bytes mv) 16) := by
    rw [writeInt32_wst (((int32Bytes 14 ++ int32Bytes uv) ++ int32Bytes gv)) 20 ((mv : Nat) : Int) (by norm_num) (by norm_num [int32Bytes])]
    all_goals simp only [toUint32_natCast mv (by omega),
      show (20 : Nat) - 4 = 16 from rfl]
  have hw4 : writeTime (wst ((((int32Bytes 14 ++ int32Bytes uv) ++ int32Bytes gv) ++ int32Bytes mv)) 16) (some (1000 * (ta : Int))) =
      (Except.ok (), wst (((((int32Bytes 14 ++ int32Bytes uv) ++ int32Bytes gv) ++ int32Bytes mv)) ++ int32Bytes ta) 12) := by
    rw [writeTime_wst ((((int32Bytes 14 ++ int32Bytes uv) ++ int32Bytes gv) ++ int32Bytes mv)) 16 ta (by norm_num) (by norm_num [int32Bytes])]
    all_goals simp only [toUint32_natCast ta (by omega),
      show (16 : Nat) - 4 = 12 from rfl]
  have hw5 : writeTime (wst (((((int32Bytes 14 ++ int32Bytes uv) ++ int32Bytes gv) ++ int32Bytes mv) ++ int32Bytes ta)) 12) (some (1000 * (tb : Int))) =
      (Except.ok (), wst ((((((int32Bytes 14 ++ int32Bytes uv) ++ int32Bytes gv) ++ int32Bytes mv) ++ int32Bytes ta)) ++ int32Bytes tb) 8) := by
    rw [writeTime_wst (((((int32Bytes 14 ++ int32Bytes uv) ++ int32Bytes gv) ++ int32Bytes mv) ++ int32Bytes ta)) 12 tb (by norm_num) (by norm_num [int32Bytes])]
    all_goals simp only [toUint32_natCast tb (by omega),
      show (12 : Nat) - 4 = 8 from rfl]
  have hwrite : SftpAttributes.write (⟨14, none, some (uv : Int), some (gv : Int), some (mv : Int), some (1000 * (ta : Int)), some (1000 * (tb : Int)), nl⟩ : SftpAttributes) (mkWriter 32) =
      Except.ok (wst ((((((int32Bytes 14 ++ int32Bytes uv) ++ int32Bytes gv) ++ int32Bytes mv) ++ int32Bytes ta) ++ int32Bytes tb)) 8) := by
    simp only [SftpAttributes.write]
    simp [show jsAnd (14 : Int) SftpAttributeFlags.SIZE = 0 by decide,
      show jsAnd (14 : Int) SftpAttributeFlags.UIDGID = 2 by decide,
      show jsAnd (14 : Int) SftpAttributeFlags.PERMISSIONS = 4 by decide,
      show jsAnd (14 : Int) SftpAttributeFlags.ACMODTIME = 8 by decide,
      show jsAnd (14 : Int) SftpAttributeFlags.EXTENDED = 0 by decide]
    simp only [show mkWriter 32 = wst ([] : List Nat) 32 from rfl,
      hw0, hw1, hw2, hw3, hw4, hw5, bindWrite_ok]
    all_goals simp [List.append_assoc]
  have hr0 : SftpPacketReader.readUint32 (rstF ((((((int32Bytes 14 ++ int32Bytes uv) ++ int32Bytes gv) ++ int32Bytes mv) ++ int32Bytes ta) ++ int32Bytes tb)) 0) =
      (Except.ok ((14 : Nat) : Int), rstF ((((((int32Bytes 14 ++ int32Bytes uv) ++ int32Bytes gv) ++ int32Bytes mv) ++ int32Bytes ta) ++ int32Bytes tb)) 4) := by
    rw [readUint32_at_small ((((((int32Bytes 14 ++ int32Bytes uv) ++ int32Bytes gv) ++ int32Bytes mv) ++ int32Bytes ta) ++ int32Bytes tb)) 0 [] ((int32Bytes uv ++ (int32Bytes gv ++ (int32Bytes mv ++ (int32Bytes ta ++ int32Bytes tb))))) 14
      (by simp [List.append_assoc]) (by simp) (by norm_num)]
  have hr1 : condRead true SftpPacketReader.readInt32 (rstF ((((((int32Bytes 14 ++ int32Bytes uv) ++ int32Bytes gv) ++ int32Bytes mv) ++ int32Bytes ta) ++ int32Bytes tb)) 4) =
      (Except.ok (some ((uv : Nat) : Int)), rstF ((((((int32Bytes 14 ++ int32Bytes uv) ++ int32Bytes gv) ++ int32Bytes mv) ++ int32Bytes ta) ++ int32Bytes tb)) 8) := by
    exact condRead_true_ok _ _ _ _ (readInt32_at ((((((int32Bytes 14 ++ int32Bytes uv) ++ int32Bytes gv) ++ int32Bytes mv) ++ int32Bytes ta) ++ int32Bytes tb)) 4 (int32Bytes 14) ((int32Bytes gv ++ (int32Bytes mv ++ (int32Bytes ta ++ int32Bytes tb)))) uv
      (by simp [List.append_assoc]) (by simp [int32Bytes]) huv)
  have hr2 : condRead true SftpPacketReader.readInt32 (rstF ((((((int32Bytes 14 ++ int32Bytes uv) ++ int32Bytes gv) ++ int32Bytes mv) ++ int32Bytes ta) ++ int32Bytes tb)) 8) =
      (Except.ok (some ((gv : Nat) : Int)), rstF ((((((int32Bytes 14 ++ int32Bytes uv) ++ int32Bytes gv) ++ int32Bytes mv) ++ int32Bytes ta) ++ int32Bytes tb)) 12) := by
    exact condRead_true_ok _ _ _ _ (readInt32_at ((((((int32Bytes 14 ++ int32Bytes uv) ++ int32Bytes gv) ++ int32Bytes mv) ++ int32Bytes ta) ++ int32Bytes tb)) 8 ((int32Bytes 14 ++ int32Bytes uv)) ((int32Bytes mv ++ (int32Bytes ta ++ int32Bytes tb))) gv
      (by simp [List.append_assoc]) (by simp [int32Bytes]) hgv)
  have hr3 : condRead true SftpPacketReader.readUint32 (rstF ((((((int32Bytes 14 ++ int32Bytes uv) ++ int32Bytes gv) ++ int32Bytes mv) ++ int32Bytes ta) ++ int32Bytes tb)) 12) =
      (Except.ok (some ((mv : Nat) : Int)), rstF ((((((int32Bytes 14 ++ int32Bytes uv) ++ int32Bytes gv) ++ int32Bytes mv) ++ int32Bytes ta) ++ int32Bytes tb)) 16) := by
    exact condRead_true_ok _ _ _ _ (readUint32_at_small ((((((int32Bytes 14 ++ int32Bytes uv) ++ int32Bytes gv) ++ int32Bytes mv) ++ int32Bytes ta) ++ int32Bytes tb)) 12 (((int32Bytes 14 ++ int32Bytes uv) ++ int32Bytes gv)) ((int32Bytes ta ++ int32Bytes tb)) mv
      (by simp [List.append_assoc]) (by simp [int32Bytes]) hmv)
  have hr4 : condRead true SftpPacketReader.readUint32 (rstF ((((((int32Bytes 14 ++ int32Bytes uv) ++ int32Bytes gv) ++ int32Bytes mv) ++ int32Bytes ta) ++ int32Bytes tb)) 16) =
      (Except.ok (some ((ta : Nat) : Int)), rstF ((((((int32Bytes 14 ++ int32Bytes uv) ++ int32Bytes gv) ++ int32Bytes mv) ++ int32Bytes ta) ++ int32Bytes tb)) 20) := by
    exact condRead_true_ok _ _ _ _ (readUint32_at_small ((((((int32Bytes 14 ++ int32Bytes uv) ++ int32Bytes gv) ++ int32Bytes mv) ++ int32Bytes ta) ++ int32Bytes tb)) 16 ((((int32Bytes 14 ++ int32Bytes uv) ++ int32Bytes gv) ++ int32Bytes mv)) (int32Bytes tb) ta
      (by simp [List.append_assoc]) (by simp [int32Bytes]) hta)
  have hr5 : condRead true SftpPacketReader.readUint32 (rstF ((((((int32Bytes 14 ++ int32Bytes uv) ++ int32Bytes gv) ++ int32Bytes mv) ++ int32Bytes ta) ++ int32Bytes tb)) 20) =
      (Except.ok (some ((tb : Nat) : Int)), rstF ((((((int32Bytes 14 ++ int32Bytes uv) ++ int32Bytes gv) ++ int32Bytes mv) ++ int32Bytes ta) ++ int32Bytes tb)) 24) := by
    exact condRead_true_ok _ _ _ _ (readUint32_at_small ((((((int32Bytes 14 ++ int32Bytes uv) ++ int32Bytes gv) ++ int32Bytes mv) ++ int32Bytes ta) ++ int32Bytes tb)) 20 (((((int32Bytes 14 ++ int32Bytes uv) ++ int32Bytes gv) ++ int32Bytes mv) ++ int32Bytes ta)) (([] : List Nat)) tb
      (by simp [List.append_assoc]) (by simp [int32Bytes]) htb)
  have hdec : SftpAttributes.decode (rstF ((((((int32Bytes 14 ++ int32Bytes uv) ++ int32Bytes gv) ++ int32Bytes mv) ++ int32Bytes ta) ++ int32Bytes tb)) 0) =
      Except.ok ((⟨14, none, some (uv : Int), some (gv : Int), some (mv : Int), some (1000 * (ta : Int)), some (1000 * (tb : Int)), none⟩ : SftpAttributes), rstF ((((((int32Bytes 14 ++ int32Bytes uv) ++ int32Bytes gv) ++ int32Bytes mv) ++ int32Bytes ta) ++ int32Bytes tb)) 24) := by
    simp only [SftpAttributes.decode]
    simp only [hr0, bindRead_ok, show ((14 : Nat) : Int) = (14 : Int) from rfl]
    simp only [show ((jsAnd (14 : Int) SftpAttributeFlags.SIZE != 0)) = false by decide,
      show ((jsAnd (14 : Int) SftpAttributeFlags.UIDGID != 0)) = true by decide,
      show ((jsAnd (14 : Int) SftpAttributeFlags.PERMISSIONS != 0)) = true by decide,
      show ((jsAnd (14 : Int) SftpAttributeFlags.ACMODTIME != 0)) = true by decide]
    simp only [hr1, hr2, hr3, hr4, hr5, condRead_false, bindRead_ok]
    rfl
  have hmk : mkRawReader ((wst ((((((int32Bytes 14 ++ int32Bytes uv) ++ int32Bytes gv) ++ int32Bytes mv) ++ int32Bytes ta) ++ int32Bytes tb)) 8).buffer.take (wst ((((((int32Bytes 14 ++ int32Bytes uv) ++ int32Bytes gv) ++ int32Bytes mv) ++ int32Bytes ta) ++ int32Bytes tb)) 8).position.toNat)
      = rstF ((((((int32Bytes 14 ++ int32Bytes uv) ++ int32Bytes gv) ++ int32Bytes mv) ++ int32Bytes ta) ++ int32Bytes tb)) 0 := by
    exact mkRawReader_wst _ _
  exact roundtripAttrs_eq _ _ _ _ (by rw [hfrom]; exact hwrite) (by rw [hmk]; exact hdec)

theorem attrRoundtrip_s1u0m0t0 (sv : Nat) (nl : Option Int)
    (hsv : sv < 2147483648) :
    roundtripAttrs ⟨some (sv : Int), none, none, none, none, none, nl⟩ =
      Except.ok ⟨1, some (sv : Int), none, none, none, none, none, none⟩ := by
  have hfrom : SftpAttributes.fromStats (some ⟨some (sv : Int), none, none, none, none, none, nl⟩) = (⟨1, some (sv : Int), none, none, none, none, none, nl⟩ : SftpAttributes) := by
    rw [SftpAttributes.fromStats]
    simp only [Option.isSome_some, Option.isSome_none, Option.getD_some, Bool.or_self,
      Bool.false_eq_true, if_true, if_false]
    rw [jsToInt32_natCast_small sv hsv]
    rw [show jsOr 0 SftpAttributeFlags.SIZE = 1 by decide]
  have hw0 : SftpPacketWriter.writeInt32 (wst ([] : List Nat) 32) 1 =
      (Except.ok (), wst (int32Bytes 1) 28) := by
    rw [writeInt32_wst [] 32 1 (by norm_num) (by norm_num)]
    all_goals simp only [List.nil_append, show toUint32 1 = 1 from rfl,
      show (32 : Nat) - 4 = 28 from rfl]
  have hw1 : SftpPacketWriter.writeInt64 (wst (int32Bytes 1) 28) ((sv : Nat) : Int) =
      (Except.ok (), wst (((int32Bytes 1) ++ int32Bytes 0) ++ int32Bytes sv) 20) := by
    rw [writeInt64_wst (int32Bytes 1) 28 sv hsv (by norm_num) (by norm_num [int32Bytes])]
    all_goals simp only [show (28 : Nat) - 8 = 20 from rfl]
  have hwrite : SftpAttributes.write (⟨1, some (sv : Int), none, none, none, none, none, nl⟩ : SftpAttributes) (mkWriter 32) =
      Except.ok (wst (((int32Bytes 1 ++ int32Bytes 0) ++ int32Bytes sv)) 20) := by
    simp only [SftpAttributes.write]
    simp [show jsAnd (1 : Int) SftpAttributeFlags.SIZE = 1 by decide,
      show jsAnd (1 : Int) SftpAttributeFlags.UIDGID = 0 by decide,
      show jsAnd (1 : Int) SftpAttributeFlags.PERMISSIONS = 0 by decide,
      show jsAnd (1 : Int) SftpAttributeFlags.ACMODTIME = 0 by decide,
      show jsAnd (1 : Int) SftpAttributeFlags.EXTENDED = 0 by decide]
    simp only [show mkWriter 32 = wst ([] : List Nat) 32 from rfl,
      hw0, hw1, bindWrite_ok]
    all_goals simp [List.append_assoc]
  have hr0 : SftpPacketReader.readUint32 (rstF (((int32Bytes 1 ++ int32Bytes 0) ++ int32Bytes sv)) 0) =
      (Except.ok ((1 : Nat) : Int), rstF (((int32Bytes 1 ++ int32Bytes 0) ++ int32Bytes sv)) 4) := by
    rw [readUint32_at_small (((int32Bytes 1 ++ int32Bytes 0) ++ int32Bytes sv)) 0 [] ((int32Bytes 0 ++ int32Bytes sv)) 1
      (by simp [List.append_assoc]) (by simp) (by norm_num)]
  have hr1 : condRead true SftpPacketReader.readInt64 (rstF (((int32Bytes 1 ++ int32Bytes 0) ++ int32Bytes sv)) 4) =
      (Except.ok (some ((sv : Nat) : Int)), rstF (((int32Bytes 1 ++ int32Bytes 0) ++ int32Bytes sv)) 12) := by
    exact condRead_true_ok _ _ _ _ (readInt64_at (((int32Bytes 1 ++ int32Bytes 0) ++ int32Bytes sv)) 4 (int32Bytes 1) (([] : List Nat)) sv
      (by simp [List.append_assoc]) (by simp [int32Bytes]) hsv)
  have hdec : SftpAttributes.decode (rstF (((int32Bytes 1 ++ int32Bytes 0) ++ int32Bytes sv)) 0) =
      Except.ok ((⟨1, some (sv : Int), none, none, none, none, none, none⟩ : SftpAttributes), rstF (((int32Bytes 1 ++ int32Bytes 0) ++ int32Bytes sv)) 12) := by
    simp only [SftpAttributes.decode]
    simp only [hr0, bindRead_ok, show ((1 : Nat) : Int) = (1 : Int) from rfl]
    simp only [show ((jsAnd (1 : Int) SftpAttributeFlags.SIZE != 0)) = true by decide,
      show ((jsAnd (1 : Int) SftpAttributeFlags.UIDGID != 0)) = false by decide,
      show ((jsAnd (1 : Int) SftpAttributeFlags.PERMISSIONS != 0)) = false by decide,
      show ((jsAnd (1 : Int) SftpAttributeFlags.ACMODTIME != 0)) = false by decide]
    simp only [hr1, condRead_false, bindRead_ok]
    rfl
  have hmk : mkRawReader ((wst (((int32Bytes 1 ++ int32Bytes 0) ++ int32Bytes sv)) 20).buffer.take (wst (((int32Bytes 1 ++ int32Bytes 0) ++ int32Bytes sv)) 20).position.toNat)
      = rstF (((int32Bytes 1 ++ int32Bytes 0) ++ int32Bytes sv)) 0 := by
    exact mkRawReader_wst _ _
  exact roundtripAttrs_eq _ _ _ _ (by rw [hfrom]; exact hwrite) (by rw [hmk]; exact hdec)

theorem attrRoundtrip_s1u0m0t1 (sv ta tb : Nat) (nl : Option Int)
    (hsv : sv < 2147483648) (hta : ta < 2147483648) (htb : tb < 2147483648) :
    roundtripAttrs ⟨some (sv : Int), none, none, none, some (1000 * (ta : Int)), some (1000 * (tb : Int)), nl⟩ =
      Except.ok ⟨9, some (sv : Int), none, none, none, some (1000 * (ta : Int)), some (1000 * (tb : Int)), none⟩ := by
  have hfrom : SftpAttributes.fromStats (some ⟨some (sv : Int), none, none, none, some (1000 * (ta : Int)), some (1000 * (tb : Int)), nl⟩) = (⟨9, some (sv : Int), none, none, none, some (1000 * (ta : Int)), some (1000 * (tb : Int)), nl⟩ : SftpAttributes) := by
    rw [SftpAttributes.fromStats]
    simp only [Option.isSome_some, Option.isSome_none, Option.getD_some, Bool.or_self,
      Bool.false_eq_true, if_true, if_false]
    rw [jsToInt32_natCast_small sv hsv]
    rw [show jsOr 0 SftpAttributeFlags.SIZE = 1 by decide, show jsOr 1 SftpAttributeFlags.ACMODTIME = 9 by decide]
  have hw0 : SftpPacketWriter.writeInt32 (wst ([] : List Nat) 32) 9 =
      (Except.ok (), wst (int32Bytes 9) 28) := by
    rw [writeInt32_wst [] 32 9 (by norm_num) (by norm_num)]
    all_goals simp only [List.nil_append, show toUint32 9 = 9 from rfl,
      show (32 : Nat) - 4 = 28 from rfl]
  have hw1 : SftpPacketWriter.writeInt64 (wst (int32Bytes 9) 28) ((sv : Nat) : Int) =
      (Except.ok (), wst (((int32Bytes 9) ++ int32Bytes 0) ++ int32Bytes sv) 20) := by
    rw [writeInt64_wst (int32Bytes 9) 28 sv hsv (by norm_num) (by norm_num [int32Bytes])]
    all_goals simp only [show (28 : Nat) - 8 = 20 from rfl]
  have hw2 : writeTime (wst (((int32Bytes 9 ++ int32Bytes 0) ++ int32Bytes sv)) 20) (some (1000 * (ta : Int))) =
      (Except.ok (), wst ((((int32Bytes 9 ++ int32Bytes 0) ++ int32Bytes sv)) ++ int32Bytes ta) 16) := by
    rw [writeTime_wst (((int32Bytes 9 ++ int32Bytes 0) ++ int32Bytes sv)) 20 ta (by norm_num) (by norm_num [int32Bytes])]
    all_goals simp only [toUint32_natCast ta (by omega),
      show (20 : Nat) - 4 = 16 from rfl]
  have hw3 : writeTime (wst ((((int32Bytes 9 ++ int32Bytes 0) ++ int32Bytes sv) ++ int32Bytes ta)) 16) (some (1000 * (tb : Int))) =
      (Except.ok (), wst (((((int32Bytes 9 ++ int32Bytes 0) ++ int32Bytes sv) ++ int32Bytes ta)) ++ int32Bytes tb) 12) := by
    rw [writeTime_wst ((((int32Bytes 9 ++ int32Bytes 0) ++ int32Bytes sv) ++ int32Bytes ta)) 16 tb (by norm_num) (by norm_num [int32Bytes])]
    all_goals simp only [toUint32_natCast tb (by omega),
      show (16 : Nat) - 4 = 12 from rfl]
  have hwrite : SftpAttributes.write (⟨9, some (sv : Int), none, none, none, some (1000 * (ta : Int)), some (1000 * (tb : Int)), nl⟩ : SftpAttributes) (mkWriter 32) =
      Except.ok (wst (((((int32Bytes 9 ++ int32Bytes 0) ++ int32Bytes sv) ++ int32Bytes ta) ++ int32Bytes tb)) 12) := by
    simp only [SftpAttributes.write]
    simp [show jsAnd (9 : Int) SftpAttributeFlags.SIZE = 1 by decide,
      show jsAnd (9 : Int) SftpAttributeFlags.UIDGID = 0 by decide,
      show jsAnd (9 : Int) SftpAttributeFlags.PERMISSIONS = 0 by decide,
      show jsAnd (9 : Int) SftpAttributeFlags.ACMODTIME = 8 by decide,
      show jsAnd (9 : Int) SftpAttributeFlags.EXTENDED = 0 by decide]
    simp only [show mkWriter 32 = wst ([] : List Nat) 32 from rfl,
      hw0, hw1, hw2, hw3, bindWrite_ok]
    all_goals simp [List.append_assoc]
  have hr0 : SftpPacketReader.readUint32 (rstF (((((int32Bytes 9 ++ int32Bytes 0) ++ int32Bytes sv) ++ int32Bytes ta) ++ int32Bytes tb)) 0) =
      (Except.ok ((9 : Nat) : Int), rstF (((((int32Bytes 9 ++ int32Bytes 0) ++ int32Bytes sv) ++ int32Bytes ta) ++ int32Bytes tb)) 4) := by
    rw [readUint32_at_small (((((int32Bytes 9 ++ int32Bytes 0) ++ int32Bytes sv) ++ int32Bytes ta) ++ int32Bytes tb)) 0 [] ((int32Bytes 0 ++ (int32Bytes sv ++ (int32Bytes ta ++ int32Bytes tb)))) 9
      (by simp [List.append_assoc]) (by simp) (by norm_num)]
  have hr1 : condRead true SftpPacketReader.readInt64 (rstF (((((int32Bytes 9 ++ int32Bytes 0) ++ int32Bytes sv) ++ int32Bytes ta) ++ int32Bytes tb)) 4) =
      (Except.ok (some ((sv : Nat) : Int)), rstF (((((int32Bytes 9 ++ int32Bytes 0) ++ int32Bytes sv) ++ int32Bytes ta) ++ int32Bytes tb)) 12) := by
    exact condRead_true_ok _ _ _ _ (readInt64_at (((((int32Bytes 9 ++ int32Bytes 0) ++ int32Bytes sv) ++ int32Bytes ta) ++ int32Bytes tb)) 4 (int32Bytes 9) ((int32Bytes ta ++ int32Bytes tb)) sv
      (by simp [List.append_assoc]) (by simp [int32Bytes]) hsv)
  have hr2 : condRead true SftpPacketReader.readUint32 (rstF (((((int32Bytes 9 ++ int32Bytes 0) ++ int32Bytes sv) ++ int32Bytes ta) ++ int32Bytes tb)) 12) =
      (Except.ok (some ((ta : Nat) : Int)), rstF (((((int32Bytes 9 ++ int32Bytes 0) ++ int32Bytes sv) ++ int32Bytes ta) ++ int32Bytes tb)) 16) := by
    exact condRead_true_ok _ _ _ _ (readUint32_at_small (((((int32Bytes 9 ++ int32Bytes 0) ++ int32Bytes sv) ++ int32Bytes ta) ++ int32Bytes tb)) 12 (((int32Bytes 9 ++ int32Bytes 0) ++ int32Bytes sv)) (int32Bytes tb) ta
      (by simp [List.append_assoc]) (by simp [int32Bytes]) hta)
  have hr3 : condRead true SftpPacketReader.readUint32 (rstF (((((int32Bytes 9 ++ int32Bytes 0) ++ int32Bytes sv) ++ int32Bytes ta) ++ int32Bytes tb)) 16) =
      (Except.ok (some ((tb : Nat) : Int)), rstF (((((int32Bytes 9 ++ int32Bytes 0) ++ int32Bytes sv) ++ int32Bytes ta) ++ int32Bytes tb)) 20) := by
    exact condRead_true_ok _ _ _ _ (readUint32_at_small (((((int32Bytes 9 ++ int32Bytes 0) ++ int32Bytes sv) ++ int32Bytes ta) ++ int32Bytes tb)) 16 ((((int32Bytes 9 ++ int32Bytes 0) ++ int32Bytes sv) ++ int32Bytes ta)) (([] : List Nat)) tb
      (by simp [List.append_assoc]) (by simp [int32Bytes]) htb)
  have hdec : SftpAttributes.decode (rstF (((((int32Bytes 9 ++ int32Bytes 0) ++ int32Bytes sv) ++ int32Bytes ta) ++ int32Bytes tb)) 0) =
      Except.ok ((⟨9, some (sv : Int), none, none, none, some (1000 * (ta : Int)), some (1000 * (tb : Int)), none⟩ : SftpAttributes), rstF (((((int32Bytes 9 ++ int32Bytes 0) ++ int32Bytes sv) ++ int32Bytes ta) ++ int32Bytes tb)) 20) := by
    simp only [SftpAttributes.decode]
    simp only [hr0, bindRead_ok, show ((9 : Nat) : Int) = (9 : Int) from rfl]
    simp only [show ((jsAnd (9 : Int) SftpAttributeFlags.SIZE != 0)) = true by decide,
      show ((jsAnd (9 : Int) SftpAttributeFlags.UIDGID != 0)) = false by decide,
      show ((jsAnd (9 : Int) SftpAttributeFlags.PERMISSIONS != 0)) = false by decide,
      show ((jsAnd (9 : Int) SftpAttributeFlags.ACMODTIME != 0)) = true by decide]
    simp only [hr1, hr2, hr3, condRead_false, bindRead_ok]
    rfl
  have hmk : mkRawReader ((wst (((((int32Bytes 9 ++ int32Bytes 0) ++ int32Bytes sv) ++ int32Bytes ta) ++ int32Bytes tb)) 12).buffer.take (wst (((((int32Bytes 9 ++ int32Bytes 0) ++ int32Bytes sv) ++ int32Bytes ta) ++ int32Bytes tb)) 12).position.toNat)
      = rstF (((((int32Bytes 9 ++ int32Bytes 0) ++ int32Bytes sv) ++ int32Bytes ta) ++ int32Bytes tb)) 0 := by
    exact mkRawReader_wst _ _
  exact roundtripAttrs_eq _ _ _ _ (by rw [hfrom]; exact hwrite) (by rw [hmk]; exact hdec)

theorem attrRoundtrip_s1u0m1t0 (sv mv : Nat) (nl : Option Int)
    (hsv : sv < 2147483648) (hmv : mv < 2147483648) :
    roundtripAttrs ⟨some (sv : Int), none, none, some (mv : Int), none, none, nl⟩ =
      Except.ok ⟨5, some (sv : Int), none, none, some (mv : Int), none, none, none⟩ := by
  have hfrom : SftpAttributes.fromStats (some ⟨some (sv : Int), none, none, some (mv : Int), none, none, nl⟩) = (⟨5, some (sv : Int), none, none, some (mv : Int), none, none, nl⟩ : SftpAttributes) := by
    rw [SftpAttributes.fromStats]
    simp only [Option.isSome_some, Option.isSome_none, Option.getD_some, Bool.or_self,
      Bool.false_eq_true, if_true, if_false]
    rw [jsToInt32_natCast_small sv hsv, jsToInt32_natCast_small mv hmv]
    rw [show jsOr 0 SftpAttributeFlags.SIZE = 1 by decide, show jsOr 1 SftpAttributeFlags.PERMISSIONS = 5 by decide]
  have hw0 : SftpPacketWriter.writeInt32 (wst ([] : List Nat) 32) 5 =
      (Except.ok (), wst (int32Bytes 5) 28) := by
    rw [writeInt32_wst [] 32 5 (by norm_num) (by norm_num)]
    all_goals simp only [List.nil_append, show toUint32 5 = 5 from rfl,
      show (32 : Nat) - 4 = 28 from rfl]
  have hw1 : SftpPacketWriter.writeInt64 (wst (int32Bytes 5) 28) ((sv : Nat) : Int) =
      (Except.ok (), wst (((int32Bytes 5) ++ int32Bytes 0) ++ int32Bytes sv) 20) := by
    rw [writeInt64_wst (int32Bytes 5) 28 sv hsv (by norm_num) (by norm_num [int32Bytes])]
    all_goals simp only [show (28 : Nat) - 8 = 20 from rfl]
  have hw2 : SftpPacketWriter.writeInt32 (wst (((int32Bytes 5 ++ int32Bytes 0) ++ int32Bytes sv)) 20) ((mv : Nat) : Int) =
      (Except.ok (), wst ((((int32Bytes 5 ++ int32Bytes 0) ++ int32Bytes sv)) ++ int32Bytes mv) 16) := by
    rw [writeInt32_wst (((int32Bytes 5 ++ int32Bytes 0) ++ int32Bytes sv)) 20 ((mv : Nat) : Int) (by norm_num) (by norm_num [int32Bytes])]
    all_goals simp only [toUint32_natCast mv (by omega),
      show (20 : Nat) - 4 = 16 from rfl]
  have hwrite : SftpAttributes.write (⟨5, some (sv : Int), none, none, some (mv : Int), none, none, nl⟩ : SftpAttributes) (mkWriter 32) =
      Except.ok (wst ((((int32Bytes 5 ++ int32Bytes 0) ++ int32Bytes sv) ++ int32Bytes mv)) 16) := by
    simp only [SftpAttributes.write]
    simp [show jsAnd (5 : Int) SftpAttributeFlags.SIZE = 1 by decide,
      show jsAnd (5 : Int) SftpAttributeFlags.UIDGID = 0 by decide,
      show jsAnd (5 : Int) SftpAttributeFlags.PERMISSIONS = 4 by decide,
      show jsAnd (5 : Int) SftpAttributeFlags.ACMODTIME = 0 by decide,
      show jsAnd (5 : Int) SftpAttributeFlags.EXTENDED = 0 by decide]
    simp only [show mkWriter 32 = wst ([] : List Nat) 32 from rfl,
      hw0, hw1, hw2, bindWrite_ok]
    all_goals simp [List.append_assoc]
  have hr0 : SftpPacketReader.readUint32 (rstF ((((int32Bytes 5 ++ int32Bytes 0) ++ int32Bytes sv) ++ int32Bytes mv)) 0) =
      (Except.ok ((5 : Nat) : Int), rstF ((((int32Bytes 5 ++ int32Bytes 0) ++ int32Bytes sv) ++ int32Bytes mv)) 4) := by
    rw [readUint32_at_small ((((int32Bytes 5 ++ int32Bytes 0) ++ int32Bytes sv) ++ int32Bytes mv)) 0 [] ((int32Bytes 0 ++ (int32Bytes sv ++ int32Bytes mv))) 5
      (by simp [List.append_assoc]) (by simp) (by norm_num)]
  have hr1 : condRead true SftpPacketReader.readInt64 (rstF ((((int32Bytes 5 ++ int32Bytes 0) ++ int32Bytes sv) ++ int32Bytes mv)) 4) =
      (Except.ok (some ((sv : Nat) : Int)), rstF ((((int32Bytes 5 ++ int32Bytes 0) ++ int32Bytes sv) ++ int32Bytes mv)) 12) := by
    exact condRead_true_ok _ _ _ _ (readInt64_at ((((int32Bytes 5 ++ int32Bytes 0) ++ int32Bytes sv) ++ int32Bytes mv)) 4 (int32Bytes 5) (int32Bytes mv) sv
      (by simp [List.append_assoc]) (by simp [int32Bytes]) hsv)
  have hr2 : condRead true SftpPacketReader.readUint32 (rstF ((((int32Bytes 5 ++ int32Bytes 0) ++ int32Bytes sv) ++ int32Bytes mv)) 12) =
      (Except.ok (some ((mv : Nat) : Int)), rstF ((((int32Bytes 5 ++ int32Bytes 0) ++ int32Bytes sv) ++ int32Bytes mv)) 16) := by
    exact condRead_true_ok _ _ _ _ (readUint32_at_small ((((int32Bytes 5 ++ int32Bytes 0) ++ int32Bytes sv) ++ int32Bytes mv)) 12 (((int32Bytes 5 ++ int32Bytes 0) ++ int32Bytes sv)) (([] : List Nat)) mv
      (by simp [List.append_assoc]) (by simp [int32Bytes]) hmv)
  have hdec : SftpAttributes.decode (rstF ((((int32Bytes 5 ++ int32Bytes 0) ++ int32Bytes sv) ++ int32Bytes mv)) 0) =
      Except.ok ((⟨5, some (sv : Int), none, none, some (mv : Int), none, none, none⟩ : SftpAttributes), rstF ((((int32Bytes 5 ++ int32Bytes 0) ++ int32Bytes sv) ++ int32Bytes mv)) 16) := by
    simp only [SftpAttributes.decode]
    simp only [hr0, bindRead_ok, show ((5 : Nat) : Int) = (5 : Int) from rfl]
    simp only [show ((jsAnd (5 : Int) SftpAttributeFlags.SIZE != 0)) = true by decide,
      show ((jsAnd (5 : Int) SftpAttributeFlags.UIDGID != 0)) = false by decide,
      show ((jsAnd (5 : Int) SftpAttributeFlags.PERMISSIONS != 0)) = true by decide,
      show ((jsAnd (5 : Int) SftpAttributeFlags.ACMODTIME != 0)) = false by decide]
    simp only [hr1, hr2, condRead_false, bindRead_ok]
    rfl
  have hmk : mkRawReader ((wst ((((int32Bytes 5 ++ int32Bytes 0) ++ int32Bytes sv) ++ int32Bytes mv)) 16).buffer.take (wst ((((int32Bytes 5 ++ int32Bytes 0) ++ int32Bytes sv) ++ int32Bytes mv)) 16).position.toNat)
      = rstF ((((int32Bytes 5 ++ int32Bytes 0) ++ int32Bytes sv) ++ int32Bytes mv)) 0 := by
    exact mkRawReader_wst _ _
  exact roundtripAttrs_eq _ _ _ _ (by rw [hfrom]; exact hwrite) (by rw [hmk]; exact hdec)

theorem attrRoundtrip_s1u0m1t1 (sv mv ta tb : Nat) (nl : Option Int)
    (hsv : sv < 2147483648) (hmv : mv < 2147483648) (hta : ta < 2147483648) (htb : tb < 2147483648) :
    roundtripAttrs ⟨some (sv : Int), none, none, some (mv : Int), some (1000 * (ta : Int)), some (1000 * (tb : Int)), nl⟩ =
      Except.ok ⟨13, some (sv : Int), none, none, some (mv : Int), some (1000 * (ta : Int)), some (1000 * (tb : Int)), none⟩ := by
  have hfrom : SftpAttributes.fromStats (some ⟨some (sv : Int), none, none, some (mv : Int), some (1000 * (ta : Int)), some (1000 * (tb : Int)), nl⟩) = (⟨13, some (sv : Int), none, none, some (mv : Int), some (1000 * (ta : Int)), some (1000 * (tb : Int)), nl⟩ : SftpAttributes) := by
    rw [SftpAttributes.fromStats]
    simp only [Option.isSome_some, Option.isSome_none, Option.getD_some, Bool.or_self,
      Bool.false_eq_true, if_true, if_false]
    rw [jsToInt32_natCast_small sv hsv, jsToInt32_natCast_small mv hmv]
    rw [show jsOr 0 SftpAttributeFlags.SIZE = 1 by decide, show jsOr 1 SftpAttributeFlags.PERMISSIONS = 5 by decide, show jsOr 5 SftpAttributeFlags.ACMODTIME = 13 by decide]
  have hw0 : SftpPacketWriter.writeInt32 (wst ([] : List Nat) 32) 13 =
      (Except.ok (), wst (int32Bytes 13) 28) := by
    rw [writeInt32_wst [] 32 13 (by norm_num) (by norm_num)]
    all_goals simp only [List.nil_append, show toUint32 13 = 13 from rfl,
      show (32 : Nat) - 4 = 28 from rfl]
  have hw1 : SftpPacketWriter.writeInt64 (wst (int32Bytes 13) 28) ((sv : Nat) : Int) =
      (Except.ok (), wst (((int32Bytes 13) ++ int32Bytes 0) ++ int32Bytes sv) 20) := by
    rw [writeInt64_wst (int32Bytes 13) 28 sv hsv (by norm_num) (by norm_num [int32Bytes])]
    all_goals simp only [show (28 : Nat) - 8 = 20 from rfl]
  have hw2 : SftpPacketWriter.writeInt32 (wst (((int32Bytes 13 ++ int32Bytes 0) ++ int32Bytes sv)) 20) ((mv : Nat) : Int) =
      (Except.ok (), wst ((((int32Bytes 13 ++ int32Bytes 0) ++ int32Bytes sv)) ++ int32Bytes mv) 16) := by
    rw [writeInt32_wst (((int32Bytes 13 ++ int32Bytes 0) ++ int32Bytes sv)) 20 ((mv : Nat) : Int) (by norm_num) (by norm_num [int32Bytes])]
    all_goals simp only [toUint32_natCast mv (by omega),
      show (20 : Nat) - 4 = 16 from rfl]
  have hw3 : writeTime (wst ((((int32Bytes 13 ++ int32Bytes 0) ++ int32Bytes sv) ++ int32Bytes mv)) 16) (some (1000 * (ta : Int))) =
      (Except.ok (), wst (((((int32Bytes 13 ++ int32Bytes 0) ++ int32Bytes sv) ++ int32Bytes mv)) ++ int32Bytes ta) 12) := by
    rw [writeTime_wst ((((int32Bytes 13 ++ int32Bytes 0) ++ int32Bytes sv) ++ int32Bytes mv)) 16 ta (by norm_num) (by norm_num [int32Bytes])]
    all_goals simp only [toUint32_natCast ta (by omega),
      show (16 : Nat) - 4 = 12 from rfl]
  have hw4 : writeTime (wst (((((int32Bytes 13 ++ int32Bytes 0) ++ int32Bytes sv) ++ int32Bytes mv) ++ int32Bytes ta)) 12) (some (1000 * (tb : Int))) =
      (Except.ok (), wst ((((((int32Bytes 13 ++ int32Bytes 0) ++ int32Bytes sv) ++ int32Bytes mv) ++ int32Bytes ta)) ++ int32Bytes tb) 8) := by
    rw [writeTime_wst (((((int32Bytes 13 ++ int32Bytes 0) ++ int32Bytes sv) ++ int32Bytes mv) ++ int32Bytes ta)) 12 tb (by norm_num) (by norm_num [int32Bytes])]
    all_goals simp only [toUint32_natCast tb (by omega),
      show (12 : Nat) - 4 = 8 from rfl]
  have hwrite : SftpAttributes.write (⟨13, some (sv : Int), none, none, some (mv : Int), some (1000 * (ta : Int)), some (1000 * (tb : Int)), nl⟩ : SftpAttributes) (mkWriter 32) =
      Except.ok (wst ((((((int32Bytes 13 ++ int32Bytes 0) ++ int32Bytes sv) ++ int32Bytes mv) ++ int32Bytes ta) ++ int32Bytes tb)) 8) := by
    simp only [SftpAttributes.write]
    simp [show jsAnd (13 : Int) SftpAttributeFlags.SIZE = 1 by decide,
      show jsAnd (13 : Int) SftpAttributeFlags.UIDGID = 0 by decide,
      show jsAnd (13 : Int) SftpAttributeFlags.PERMISSIONS = 4 by decide,
      show jsAnd (13 : Int) SftpAttributeFlags.ACMODTIME = 8 by decide,
      show jsAnd (13 : Int) SftpAttributeFlags.EXTENDED = 0 by decide]
    simp only [show mkWriter 32 = wst ([] : List Nat) 32 from rfl,
      hw0, hw1, hw2, hw3, hw4, bindWrite_ok]
    all_goals simp [List.append_assoc]
  have hr0 : SftpPacketReader.readUint32 (rstF ((((((int32Bytes 13 ++ int32Bytes 0) ++ int32Bytes sv) ++ int32Bytes mv) ++ int32Bytes ta) ++ int32Bytes tb)) 0) =
      (Except.ok ((13 : Nat) : Int), rstF ((((((int32Bytes 13 ++ int32Bytes 0) ++ int32Bytes sv) ++ int32Bytes mv) ++ int32Bytes ta) ++ int32Bytes tb)) 4) := by
    rw [readUint32_at_small ((((((int32Bytes 13 ++ int32Bytes 0) ++ int32Bytes sv) ++ int32Bytes mv) ++ int32Bytes ta) ++ int32Bytes tb)) 0 [] ((int32Bytes 0 ++ (int32Bytes sv ++ (int32Bytes mv ++ (int32Bytes ta ++ int32Bytes tb))))) 13
      (by simp [List.append_assoc]) (by simp) (by norm_num)]
  have hr1 : condRead true SftpPacketReader.readInt64 (rstF ((((((int32Bytes 13 ++ int32Bytes 0) ++ int32Bytes sv) ++ int32Bytes mv) ++ int32Bytes ta) ++ int32Bytes tb)) 4) =
      (Except.ok (some ((sv : Nat) : Int)), rstF ((((((int32Bytes 13 ++ int32Bytes 0) ++ int32Bytes sv) ++ int32Bytes mv) ++ int32Bytes ta) ++ int32Bytes tb)) 12) := by
    exact condRead_true_ok _ _ _ _ (readInt64_at ((((((int32Bytes 13 ++ int32Bytes 0) ++ int32Bytes sv) ++ int32Bytes mv) ++ int32Bytes ta) ++ int32Bytes tb)) 4 (int32Bytes 13) ((int32Bytes mv ++ (int32Bytes ta ++ int32Bytes tb))) sv
      (by simp [List.append_assoc]) (by simp [int32Bytes]) hsv)
  have hr2 : condRead true SftpPacketReader.readUint32 (rstF ((((((int32Bytes 13 ++ int32Bytes 0) ++ int32Bytes sv) ++ int32Bytes mv) ++ int32Bytes ta) ++ int32Bytes tb)) 12) =
      (Except.ok (some ((mv : Nat) : Int)), rstF ((((((int32Bytes 13 ++ int32Bytes 0) ++ int32Bytes sv) ++ int32Bytes mv) ++ int32Bytes ta) ++ int32Bytes tb)) 16) := by
    exact condRead_true_ok _ _ _ _ (readUint32_at_small ((((((int32Bytes 13 ++ int32Bytes 0) ++ int32Bytes sv) ++ int32Bytes mv) ++ int32Bytes ta) ++ int32Bytes tb)) 12 (((int32Bytes 13 ++ int32Bytes 0) ++ int32Bytes sv)) ((int32Bytes ta ++ int32Bytes tb)) mv
      (by simp [List.append_assoc]) (by simp [int32Bytes]) hmv)
  have hr3 : condRead true SftpPacketReader.readUint32 (rstF ((((((int32Bytes 13 ++ int32Bytes 0) ++ int32Bytes sv) ++ int32Bytes mv) ++ int32Bytes ta) ++ int32Bytes tb)) 16) =
      (Except.ok (some ((ta : Nat) : Int)), rstF ((((((int32Bytes 13 ++ int32Bytes 0) ++ int32Bytes sv) ++ int32Bytes mv) ++ int32Bytes ta) ++ int32Bytes tb)) 20) := by
    exact condRead_true_ok _ _ _ _ (readUint32_at_small ((((((int32Bytes 13 ++ int32Bytes 0) ++ int32Bytes sv) ++ int32Bytes mv) ++ int32Bytes ta) ++ int32Bytes tb)) 16 ((((int32Bytes 13 ++ int32Bytes 0) ++ int32Bytes sv) ++ int32Bytes mv)) (int32Bytes tb) ta
      (by simp [List.append_assoc]) (by simp [int32Bytes]) hta)
  have hr4 : condRead true SftpPacketReader.readUint32 (rstF ((((((int32Bytes 13 ++ int32Bytes 0) ++ int32Bytes sv) ++ int32Bytes mv) ++ int32Bytes ta) ++ int32Bytes tb)) 20) =
      (Except.ok (some ((tb : Nat) : Int)), rstF ((((((int32Bytes 13 ++ int32Bytes 0) ++ int32Bytes sv) ++ int32Bytes mv) ++ int32Bytes ta) ++ int32Bytes tb)) 24) := by
    exact condRead_true_ok _ _ _ _ (readUint32_at_small ((((((int32Bytes 13 ++ int32Bytes 0) ++ int32Bytes sv) ++ int32Bytes mv) ++ int32Bytes ta) ++ int32Bytes tb)) 20 (((((int32Bytes 13 ++ int32Bytes 0) ++ int32Bytes sv) ++ int32Bytes mv) ++ int32Bytes ta)) (([] : List Nat)) tb
      (by simp [List.append_assoc]) (by simp [int32Bytes]) htb)
  have hdec : SftpAttributes.decode (rstF ((((((int32Bytes 13 ++ int32Bytes 0) ++ int32Bytes sv) ++ int32Bytes mv) ++ int32Bytes ta) ++ int32Bytes tb)) 0) =
      Except.ok ((⟨13, some (sv : Int), none, none, some (mv : Int), some (1000 * (ta : Int)), some (1000 * (tb : Int)), none⟩ : SftpAttributes), rstF ((((((int32Bytes 13 ++ int32Bytes 0) ++ int32Bytes sv) ++ int32Bytes mv) ++ int32Bytes ta) ++ int32Bytes tb)) 24) := by
    simp only [SftpAttributes.decode]
    simp only [hr0, bindRead_ok, show ((13 : Nat) : Int) = (13 : Int) from rfl]
    simp only [show ((jsAnd (13 : Int) SftpAttributeFlags.SIZE != 0)) = true by decide,
      show ((jsAnd (13 : Int) SftpAttributeFlags.UIDGID != 0)) = false by decide,
      show ((jsAnd (13 : Int) SftpAttributeFlags.PERMISSIONS != 0)) = true by decide,
      show ((jsAnd (13 : Int) SftpAttributeFlags.ACMODTIME != 0)) = true by decide]
    simp only [hr1, hr2, hr3, hr4, condRead_false, bindRead_ok]
    rfl
  have hmk : mkRawReader ((wst ((((((int32Bytes 13 ++ int32Bytes 0) ++ int32Bytes sv) ++ int32Bytes mv) ++ int32Bytes ta) ++ int32Bytes tb)) 8).buffer.take (wst ((((((int32Bytes 13 ++ int32Bytes 0) ++ int32Bytes sv) ++ int32Bytes mv) ++ int32Bytes ta) ++ int32Bytes tb)) 8).position.toNat)
      = rstF ((((((int32Bytes 13 ++ int32Bytes 0) ++ int32Bytes sv) ++ int32Bytes mv) ++ int32Bytes ta) ++ int32Bytes tb)) 0 := by
    exact mkRawReader_wst _ _
  exact roundtripAttrs_eq _ _ _ _ (by rw [hfrom]; exact hwrite) (by rw [hmk]; exact hdec)

theorem attrRoundtrip_s1u1m0t0 (sv uv gv : Nat) (nl : Option Int)
    (hsv : sv < 2147483648) (huv : uv < 2147483648) (hgv : gv < 2147483648) :
    roundtripAttrs ⟨some (sv : Int), some (uv : Int), some (gv : Int), none, none, none, nl⟩ =
      Except.ok ⟨3, some (sv : Int), some (uv : Int), some (gv : Int), none, none, none, none⟩ := by
  have hfrom : SftpAttributes.fromStats (some ⟨some (sv : Int), some (uv : Int), some (gv : Int), none, none, none, nl⟩) = (⟨3, some (sv : Int), some (uv : Int), some (gv : Int), none, none, none, nl⟩ : SftpAttributes) := by
    rw [SftpAttributes.fromStats]
    simp only [Option.isSome_some, Option.isSome_none, Option.getD_some, Bool.or_self,
      Bool.false_eq_true, if_true, if_false]
    rw [jsToInt32_natCast_small sv hsv, jsToInt32_natCast_small uv huv, jsToInt32_natCast_small gv hgv]
    rw [show jsOr 0 SftpAttributeFlags.SIZE = 1 by decide, show jsOr 1 SftpAttributeFlags.UIDGID = 3 by decide]
  have hw0 : SftpPacketWriter.writeInt32 (wst ([] : List Nat) 32) 3 =
      (Except.ok (), wst (int32Bytes 3) 28) := by
    rw [writeInt32_wst [] 32 3 (by norm_num) (by norm_num)]
    all_goals simp only [List.nil_append, show toUint32 3 = 3 from rfl,
      show (32 : Nat) - 4 = 28 from rfl]
  have hw1 : SftpPacketWriter.writeInt64 (wst (int32Bytes 3) 28) ((sv : Nat) : Int) =
      (Except.ok (), wst (((int32Bytes 3) ++ int32Bytes 0) ++ int32Bytes sv) 20) := by
    rw [writeInt64_wst (int32Bytes 3) 28 sv hsv (by norm_num) (by norm_num [int32Bytes])]
    all_goals simp only [show (28 : Nat) - 8 = 20 from rfl]
  have hw2 : SftpPacketWriter.writeInt32 (wst (((int32Bytes 3 ++ int32Bytes 0) ++ int32Bytes sv)) 20) ((uv : Nat) : Int) =
      (Except.ok (), wst ((((int32Bytes 3 ++ int32Bytes 0) ++ int32Bytes sv)) ++ int32Bytes uv) 16) := by
    rw [writeInt32_wst (((int32Bytes 3 ++ int32Bytes 0) ++ int32Bytes sv)) 20 ((uv : Nat) : Int) (by norm_num) (by norm_num [int32Bytes])]
    all_goals simp only [toUint32_natCast uv (by omega),
      show (20 : Nat) - 4 = 16 from rfl]
  have hw3 : SftpPacketWriter.writeInt32 (wst ((((int32Bytes 3 ++ int32Bytes 0) ++ int32Bytes sv) ++ int32Bytes uv)) 16) ((gv : Nat) : Int) =
      (Except.ok (), wst (((((int32Bytes 3 ++ int32Bytes 0) ++ int32Bytes sv) ++ int32Bytes uv)) ++ int32Bytes gv) 12) := by
    rw [writeInt32_wst ((((int32Bytes 3 ++ int32Bytes 0) ++ int32Bytes sv) ++ int32Bytes uv)) 16 ((gv : Nat) : Int) (by norm_num) (by norm_num [int32Bytes])]
    all_goals simp only [toUint32_natCast gv (by omega),
      show (16 : Nat) - 4 = 12 from rfl]
  have hwrite : SftpAttributes.write (⟨3, some (sv : Int), some (uv : Int), some (gv : Int), none, none, none, nl⟩ : SftpAttributes) (mkWriter 32) =
      Except.ok (wst (((((int32Bytes 3 ++ int32Bytes 0) ++ int32Bytes sv) ++ int32Bytes uv) ++ int32Bytes gv)) 12) := by
    simp only [SftpAttributes.write]
    simp [show jsAnd (3 : Int) SftpAttributeFlags.SIZE = 1 by decide,
      show jsAnd (3 : Int) SftpAttributeFlags.UIDGID = 2 by decide,
      show jsAnd (3 : Int) SftpAttributeFlags.PERMISSIONS = 0 by decide,
      show jsAnd (3 : Int) SftpAttributeFlags.ACMODTIME = 0 by decide,
      show jsAnd (3 : Int) SftpAttributeFlags.EXTENDED = 0 by decide]
    simp only [show mkWriter 32 = wst ([] : List Nat) 32 from rfl,
      hw0, hw1, hw2, hw3, bindWrite_ok]
    all_goals simp [List.append_assoc]
  have hr0 : SftpPacketReader.readUint32 (rstF (((((int32Bytes 3 ++ int32Bytes 0) ++ int32Bytes sv) ++ int32Bytes uv) ++ int32Bytes gv)) 0) =
      (Except.ok ((3 : Nat) : Int), rstF (((((int32Bytes 3 ++ int32Bytes 0) ++ int32Bytes sv) ++ int32Bytes uv) ++ int32Bytes gv)) 4) := by
    rw [readUint32_at_small (((((int32Bytes 3 ++ int32Bytes 0) ++ int32Bytes sv) ++ int32Bytes uv) ++ int32Bytes gv)) 0 [] ((int32Bytes 0 ++ (int32Bytes sv ++ (int32Bytes uv ++ int32Bytes gv)))) 3
      (by simp [List.append_assoc]) (by simp) (by norm_num)]
  have hr1 : condRead true SftpPacketReader.readInt64 (rstF (((((int32Bytes 3 ++ int32Bytes 0) ++ int32Bytes sv) ++ int32Bytes uv) ++ int32Bytes gv)) 4) =
      (Except.ok (some ((sv : Nat) : Int)), rstF (((((int32Bytes 3 ++ int32Bytes 0) ++ int32Bytes sv) ++ int32Bytes uv) ++ int32Bytes gv)) 12) := by
    exact condRead_true_ok _ _ _ _ (readInt64_at (((((int32Bytes 3 ++ int32Bytes 0) ++ int32Bytes sv) ++ int32Bytes uv) ++ int32Bytes gv)) 4 (int32Bytes 3) ((int32Bytes uv ++ int32Bytes gv)) sv
      (by simp [List.append_assoc]) (by simp [int32Bytes]) hsv)
  have hr2 : condRead true SftpPacketReader.readInt32 (rstF (((((int32Bytes 3 ++ int32Bytes 0) ++ int32Bytes sv) ++ int32Bytes uv) ++ int32Bytes gv)) 12) =
      (Except.ok (some ((uv : Nat) : Int)), rstF (((((int32Bytes 3 ++ int32Bytes 0) ++ int32Bytes sv) ++ int32Bytes uv) ++ int32Bytes gv)) 16) := by
    exact condRead_true_ok _ _ _ _ (readInt32_at (((((int32Bytes 3 ++ int32Bytes 0) ++ int32Bytes sv) ++ int32Bytes uv) ++ int32Bytes gv)) 12 (((int32Bytes 3 ++ int32Bytes 0) ++ int32Bytes sv)) (int32Bytes gv) uv
      (by simp [List.append_assoc]) (by simp [int32Bytes]) huv)
  have hr3 : condRead true SftpPacketReader.readInt32 (rstF (((((int32Bytes 3 ++ int32Bytes 0) ++ int32Bytes sv) ++ int32Bytes uv) ++ int32Bytes gv)) 16) =
      (Except.ok (some ((gv : Nat) : Int)), rstF (((((int32Bytes 3 ++ int32Bytes 0) ++ int32Bytes sv) ++ int32Bytes uv) ++ int32Bytes gv)) 20) := by
    exact condRead_true_ok _ _ _ _ (readInt32_at (((((int32Bytes 3 ++ int32Bytes 0) ++ int32Bytes sv) ++ int32Bytes uv) ++ int32Bytes gv)) 16 ((((int32Bytes 3 ++ int32Bytes 0) ++ int32Bytes sv) ++ int32Bytes uv)) (([] : List Nat)) gv
      (by simp [List.append_assoc]) (by simp [int32Bytes]) hgv)
  have hdec : SftpAttributes.decode (rstF (((((int32Bytes 3 ++ int32Bytes 0) ++ int32Bytes sv) ++ int32Bytes uv) ++ int32Bytes gv)) 0) =
      Except.ok ((⟨3, some (sv : Int), some (uv : Int), some (gv : Int), none, none, none, none⟩ : SftpAttributes), rstF (((((int32Bytes 3 ++ int32Bytes 0) ++ int32Bytes sv) ++ int32Bytes uv) ++ int32Bytes gv)) 20) := by
    simp only [SftpAttributes.decode]
    simp only [hr0, bindRead_ok, show ((3 : Nat) : Int) = (3 : Int) from rfl]
    simp only [show ((jsAnd (3 : Int) SftpAttributeFlags.SIZE != 0)) = true by decide,
      show ((jsAnd (3 : Int) SftpAttributeFlags.UIDGID != 0)) = true by decide,
      show ((jsAnd (3 : Int) SftpAttributeFlags.PERMISSIONS != 0)) = false by decide,
      show ((jsAnd (3 : Int) SftpAttributeFlags.ACMODTIME != 0)) = false by decide]
    simp only [hr1, hr2, hr3, condRead_false, bindRead_ok]
    rfl
  have hmk : mkRawReader ((wst (((((int32Bytes 3 ++ int32Bytes 0) ++ int32Bytes sv) ++ int32Bytes uv) ++ int32Bytes gv)) 12).buffer.take (wst (((((int32Bytes 3 ++ int32Bytes 0) ++ int32Bytes sv) ++ int32Bytes uv) ++ int32Bytes gv)) 12).position.toNat)
      = rstF (((((int32Bytes 3 ++ int32Bytes 0) ++ int32Bytes sv) ++ int32Bytes uv) ++ int32Bytes gv)) 0 := by
    exact mkRawReader_wst _ _
  exact roundtripAttrs_eq _ _ _ _ (by rw [hfrom]; exact hwrite) (by rw [hmk]; exact hdec)

theorem attrRoundtrip_s1u1m0t1 (sv uv gv ta tb : Nat) (nl : Option Int)
    (hsv : sv < 2147483648) (huv : uv < 2147483648) (hgv : gv < 2147483648) (hta : ta < 2147483648) (htb : tb < 2147483648) :
    roundtripAttrs ⟨some (sv : Int), some (uv : Int), some (gv : Int), none, some (1000 * (ta : Int)), some (1000 * (tb : Int)), nl⟩ =
      Except.ok ⟨11, some (sv : Int), some (uv : Int), some (gv : Int), none, some (1000 * (ta : Int)), some (1000 * (tb : Int)), none⟩ := by
  have hfrom : SftpAttributes.fromStats (some ⟨some (sv : Int), some (uv : Int), some (gv : Int), none, some (1000 * (ta : Int)), some (1000 * (tb : Int)), nl⟩) = (⟨11, some (sv : Int), some (uv : Int), some (gv : Int), none, some (1000 * (ta : Int)), some (1000 * (tb : Int)), nl⟩ : SftpAttributes) := by
    rw [SftpAttributes.fromStats]
    simp only [Option.isSome_some, Option.isSome_none, Option.getD_some, Bool.or_self,
      Bool.false_eq_true, if_true, if_false]
    rw [jsToInt32_natCast_small sv hsv, jsToInt32_natCast_small uv huv, jsToInt32_natCast_small gv hgv]
    rw [show jsOr 0 SftpAttributeFlags.SIZE = 1 by decide, show jsOr 1 SftpAttributeFlags.UIDGID = 3 by decide, show jsOr 3 SftpAttributeFlags.ACMODTIME = 11 by decide]
  have hw0 : SftpPacketWriter.writeInt32 (wst ([] : List Nat) 32) 11 =
      (Except.ok (), wst (int32Bytes 11) 28) := by
    rw [writeInt32_wst [] 32 11 (by norm_num) (by norm_num)]
    all_goals simp only [List.nil_append, show toUint32 11 = 11 from rfl,
      show (32 : Nat) - 4 = 28 from rfl]
  have hw1 : SftpPacketWriter.writeInt64 (wst (int32Bytes 11) 28) ((sv : Nat) : Int) =
      (Except.ok (), wst (((int32Bytes 11) ++ int32Bytes 0) ++ int32Bytes sv) 20) := by
    rw [writeInt64_wst (int32Bytes 11) 28 sv hsv (by norm_num) (by norm_num [int32Bytes])]
    all_goals simp only [show (28 : Nat) - 8 = 20 from rfl]
  have hw2 : SftpPacketWriter.writeInt32 (wst (((int32Bytes 11 ++ int32Bytes 0) ++ int32Bytes sv)) 20) ((uv : Nat) : Int) =
      (Except.ok (), wst ((((int32Bytes 11 ++ int32Bytes 0) ++ int32Bytes sv)) ++ int32Bytes uv) 16) := by
    rw [writeInt32_wst (((int32Bytes 11 ++ int32Bytes 0) ++ int32Bytes sv)) 20 ((uv : Nat) : Int) (by norm_num) (by norm_num [int32Bytes])]
    all_goals simp only [toUint32_natCast uv (by omega),
      show (20 : Nat) - 4 = 16 from rfl]
  have hw3 : SftpPacketWriter.writeInt32 (wst ((((int32Bytes 11 ++ int32Bytes 0) ++ int32Bytes sv) ++ int32Bytes uv)) 16) ((gv : Nat) : Int) =
      (Except.ok (), wst (((((int32Bytes 11 ++ int32Bytes 0) ++ int32Bytes sv) ++ int32Bytes uv)) ++ int32Bytes gv) 12) := by
    rw [writeInt32_wst ((((int32Bytes 11 ++ int32Bytes 0) ++ int32Bytes sv) ++ int32Bytes uv)) 16 ((gv : Nat) : Int) (by norm_num) (by norm_num [int32Bytes])]
    all_goals simp only [toUint32_natCast gv (by omega),
      show (16 : Nat) - 4 = 12 from rfl]
  have hw4 : writeTime (wst (((((int32Bytes 11 ++ int32Bytes 0) ++ int32Bytes sv) ++ int32Bytes uv) ++ int32Bytes gv)) 12) (some (1000 * (ta : Int))) =
      (Except.ok (), wst ((((((int32Bytes 11 ++ int32Bytes 0) ++ int32Bytes sv) ++ int32Bytes uv) ++ int32Bytes gv)) ++ int32Bytes ta) 8) := by
    rw [writeTime_wst (((((int32Bytes 11 ++ int32Bytes 0) ++ int32Bytes sv) ++ int32Bytes uv) ++ int32Bytes gv)) 12 ta (by norm_num) (by norm_num [int32Bytes])]
    all_goals simp only [toUint32_natCast ta (by omega),
      show (12 : Nat) - 4 = 8 from rfl]
  have hw5 : writeTime (wst ((((((int32Bytes 11 ++ int32Bytes 0) ++ int32Bytes sv) ++ int32Bytes uv) ++ int32Bytes gv) ++ int32Bytes ta)) 8) (some (1000 * (tb : Int))) =
      (Except.ok (), wst (((((((int32Bytes 11 ++ int32Bytes 0) ++ int32Bytes sv) ++ int32Bytes uv) ++ int32Bytes gv) ++ int32Bytes ta)) ++ int32Bytes tb) 4) := by
    rw [writeTime_wst ((((((int32Bytes 11 ++ int32Bytes 0) ++ int32Bytes sv) ++ int32Bytes uv) ++ int32Bytes gv) ++ int32Bytes ta)) 8 tb (by norm_num) (by norm_num [int32Bytes])]
    all_goals simp only [toUint32_natCast tb (by omega),
      show (8 : Nat) - 4 = 4 from rfl]
  have hwrite : SftpAttributes.write (⟨11, some (sv : Int), some (uv : Int), some (gv : Int), none, some (1000 * (ta : Int)), some (1000 * (tb : Int)), nl⟩ : SftpAttributes) (mkWriter 32) =
      Except.ok (wst (((((((int32Bytes 11 ++ int32Bytes 0) ++ int32Bytes sv) ++ int32Bytes uv) ++ int32Bytes gv) ++ int32Bytes ta) ++ int32Bytes tb)) 4) := by
    simp only [SftpAttributes.write]
    simp [show jsAnd (11 : Int) SftpAttributeFlags.SIZE = 1 by decide,
      show jsAnd (11 : Int) SftpAttributeFlags.UIDGID = 2 by decide,
      show jsAnd (11 : Int) SftpAttributeFlags.PERMISSIONS = 0 by decide,
      show jsAnd (11 : Int) SftpAttributeFlags.ACMODTIME = 8 by decide,
      show jsAnd (11 : Int) SftpAttributeFlags.EXTENDED = 0 by decide]
    simp only [show mkWriter 32 = wst ([] : List Nat) 32 from rfl,
      hw0, hw1, hw2, hw3, hw4, hw5, bindWrite_ok]
    all_goals simp [List.append_assoc]
  have hr0 : SftpPacketReader.readUint32 (rstF (((((((int32Bytes 11 ++ int32Bytes 0) ++ int32Bytes sv) ++ int32Bytes uv) ++ int32Bytes gv) ++ int32Bytes ta) ++ int32Bytes tb)) 0) =
      (Except.ok ((11 : Nat) : Int), rstF (((((((int32Bytes 11 ++ int32Bytes 0) ++ int32Bytes sv) ++ int32Bytes uv) ++ int32Bytes gv) ++ int32Bytes ta) ++ int32Bytes tb)) 4) := by
    rw [readUint32_at_small (((((((int32Bytes 11 ++ int32Bytes 0) ++ int32Bytes sv) ++ int32Bytes uv) ++ int32Bytes gv) ++ int32Bytes ta) ++ int32Bytes tb)) 0 [] ((int32Bytes 0 ++ (int32Bytes sv ++ (int32Bytes uv ++ (int32Bytes gv ++ (int32Bytes ta ++ int32Bytes tb)))))) 11
      (by simp [List.append_assoc]) (by simp) (by norm_num)]
  have hr1 : condRead true SftpPacketReader.readInt64 (rstF (((((((int32Bytes 11 ++ int32Bytes 0) ++ int32Bytes sv) ++ int32Bytes uv) ++ int32Bytes gv) ++ int32Bytes ta) ++ int32Bytes tb)) 4) =
      (Except.ok (some ((sv : Nat) : Int)), rstF (((((((int32Bytes 11 ++ int32Bytes 0) ++ int32Bytes sv) ++ int32Bytes uv) ++ int32Bytes gv) ++ int32Bytes ta) ++ int32Bytes tb)) 12) := by
    exact condRead_true_ok _ _ _ _ (readInt64_at (((((((int32Bytes 11 ++ int32Bytes 0) ++ int32Bytes sv) ++ int32Bytes uv) ++ int32Bytes gv) ++ int32Bytes ta) ++ int32Bytes tb)) 4 (int32Bytes 11) ((int32Bytes uv ++ (int32Bytes gv ++ (int32Bytes ta ++ int32Bytes tb)))) sv
      (by simp [List.append_assoc]) (by simp [int32Bytes]) hsv)
  have hr2 : condRead true SftpPacketReader.readInt32 (rstF (((((((int32Bytes 11 ++ int32Bytes 0) ++ int32Bytes sv) ++ int32Bytes uv) ++ int32Bytes gv) ++ int32Bytes ta) ++ int32Bytes tb)) 12) =
      (Except.ok (some ((uv : Nat) : Int)), rstF (((((((int32Bytes 11 ++ int32Bytes 0) ++ int32Bytes sv) ++ int32Bytes uv) ++ int32Bytes gv) ++ int32Bytes ta) ++ int32Bytes tb)) 16) := by
    exact condRead_true_ok _ _ _ _ (readInt32_at (((((((int32Bytes 11 ++ int32Bytes 0) ++ int32Bytes sv) ++ int32Bytes uv) ++ int32Bytes gv) ++ int32Bytes ta) ++ int32Bytes tb)) 12 (((int32Bytes 11 ++ int32Bytes 0) ++ int32Bytes sv)) ((int32Bytes gv ++ (int32Bytes ta ++ int32Bytes tb))) uv
      (by simp [List.append_assoc]) (by simp [int32Bytes]) huv)
  have hr3 : condRead true SftpPacketReader.readInt32 (rstF (((((((int32Bytes 11 ++ int32Bytes 0) ++ int32Bytes sv) ++ int32Bytes uv) ++ int32Bytes gv) ++ int32Bytes ta) ++ int32Bytes tb)) 16) =
      (Except.ok (some ((gv : Nat) : Int)), rstF (((((((int32Bytes 11 ++ int32Bytes 0) ++ int32Bytes sv) ++ int32Bytes uv) ++ int32Bytes gv) ++ int32Bytes ta) ++ int32Bytes tb)) 20) := by
    exact condRead_true_ok _ _ _ _ (readInt32_at (((((((int32Bytes 11 ++ int32Bytes 0) ++ int32Bytes sv) ++ int32Bytes uv) ++ int32Bytes gv) ++ int32Bytes ta) ++ int32Bytes tb)) 16 ((((int32Bytes 11 ++ int32Bytes 0) ++ int32Bytes sv) ++ int32Bytes uv)) ((int32Bytes ta ++ int32Bytes tb)) gv
      (by simp [List.append_assoc]) (by simp [int32Bytes]) hgv)
  have hr4 : condRead true SftpPacketReader.readUint32 (rstF (((((((int32Bytes 11 ++ int32Bytes 0) ++ int32Bytes sv) ++ int32Bytes uv) ++ int32Bytes gv) ++ int32Bytes ta) ++ int32Bytes tb)) 20) =
      (Except.ok (some ((ta : Nat) : Int)), rstF (((((((int32Bytes 11 ++ int32Bytes 0) ++ int32Bytes sv) ++ int32Bytes uv) ++ int32Bytes gv) ++ int32Bytes ta) ++ int32Bytes tb)) 24) := by
    exact condRead_true_ok _ _ _ _ (readUint32_at_small (((((((int32Bytes 11 ++ int32Bytes 0) ++ int32Bytes sv) ++ int32Bytes uv) ++ int32Bytes gv) ++ int32Bytes ta) ++ int32Bytes tb)) 20 (((((int32Bytes 11 ++ int32Bytes 0) ++ int32Bytes sv) ++ int32Bytes uv) ++ int32Bytes gv)) (int32Bytes tb) ta
      (by simp [List.append_assoc]) (by simp [int32Bytes]) hta)
  have hr5 : condRead true SftpPacketReader.readUint32 (rstF (((((((int32Bytes 11 ++ int32Bytes 0) ++ int32Bytes sv) ++ int32Bytes uv) ++ int32Bytes gv) ++ int32Bytes ta) ++ int32Bytes tb)) 24) =
      (Except.ok (some ((tb : Nat) : Int)), rstF (((((((int32Bytes 11 ++ int32Bytes 0) ++ int32Bytes sv) ++ int32Bytes uv) ++ int32Bytes gv) ++ int32Bytes ta) ++ int32Bytes tb)) 28) := by
    exact condRead_true_ok _ _ _ _ (readUint32_at_small (((((((int32Bytes 11 ++ int32Bytes 0) ++ int32Bytes sv) ++ int32Bytes uv) ++ int32Bytes gv) ++ int32Bytes ta) ++ int32Bytes tb)) 24 ((((((int32Bytes 11 ++ int32Bytes 0) ++ int32Bytes sv) ++ int32Bytes uv) ++ int32Bytes gv) ++ int32Bytes ta)) (([] : List Nat)) tb
      (by simp [List.append_assoc]) (by simp [int32Bytes]) htb)
  have hdec : SftpAttributes.decode (rstF (((((((int32Bytes 11 ++ int32Bytes 0) ++ int32Bytes sv) ++ int32Bytes uv) ++ int32Bytes gv) ++ int32Bytes ta) ++ int32Bytes tb)) 0) =
      Except.ok ((⟨11, some (sv : Int), some (uv : Int), some (gv : Int), none, some (1000 * (ta : Int)), some (1000 * (tb : Int)), none⟩ : SftpAttributes), rstF (((((((int32Bytes 11 ++ int32Bytes 0) ++ int32Bytes sv) ++ int32Bytes uv) ++ int32Bytes gv) ++ int32Bytes ta) ++ int32Bytes tb)) 28) := by
    simp only [SftpAttributes.decode]
    simp only [hr0, bindRead_ok, show ((11 : Nat) : Int) = (11 : Int) from rfl]
    simp only [show ((jsAnd (11 : Int) SftpAttributeFlags.SIZE != 0)) = true by decide,
      show ((jsAnd (11 : Int) SftpAttributeFlags.UIDGID != 0)) = true by decide,
      show ((jsAnd (11 : Int) SftpAttributeFlags.PERMISSIONS != 0)) = false by decide,
      show ((jsAnd (11 : Int) SftpAttributeFlags.ACMODTIME != 0)) = true by decide]
    simp only [hr1, hr2, hr3, hr4, hr5, condRead_false, bindRead_ok]
    rfl
  have hmk : mkRawReader ((wst (((((((int32Bytes 11 ++ int32Bytes 0) ++ int32Bytes sv) ++ int32Bytes uv) ++ int32Bytes gv) ++ int32Bytes ta) ++ int32Bytes tb)) 4).buffer.take (wst (((((((int32Bytes 11 ++ int32Bytes 0) ++ int32Bytes sv) ++ int32Bytes uv) ++ int32Bytes gv) ++ int32Bytes ta) ++ int32Bytes tb)) 4).position.toNat)
      = rstF (((((((int32Bytes 11 ++ int32Bytes 0) ++ int32Bytes sv) ++ int32Bytes uv) ++ int32Bytes gv) ++ int32Bytes ta) ++ int32Bytes tb)) 0 := by
    exact mkRawReader_wst _ _
  exact roundtripAttrs_eq _ _ _ _ (by rw [hfrom]; exact hwrite) (by rw [hmk]; exact hdec)

theorem attrRoundtrip_s1u1m1t0 (sv uv gv mv : Nat) (nl : Option Int)
    (hsv : sv < 2147483648) (huv : uv < 2147483648) (hgv : gv < 2147483648) (hmv : mv < 2147483648) :
    roundtripAttrs ⟨some (sv : Int), some (uv : Int), some (gv : Int), some (mv : Int), none, none, nl⟩ =
      Except.ok ⟨7, some (sv : Int), some (uv : Int), some (gv : Int), some (mv : Int), none, none, none⟩ := by
  have hfrom : SftpAttributes.fromStats (some ⟨some (sv : Int), some (uv : Int), some (gv : Int), some (mv : Int), none, none, nl⟩) = (⟨7, some (sv : Int), some (uv : Int), some (gv : Int), some (mv : Int), none, none, nl⟩ : SftpAttributes) := by
    rw [SftpAttributes.fromStats]
    simp only [Option.isSome_some, Option.isSome_none, Option.getD_some, Bool.or_self,
      Bool.false_eq_true, if_true, if_false]
    rw [jsToInt32_natCast_small sv hsv, jsToInt32_natCast_small uv huv, jsToInt32_natCast_small gv hgv, jsToInt32_natCast_small mv hmv]
    rw [show jsOr 0 SftpAttributeFlags.SIZE = 1 by decide, show jsOr 1 SftpAttributeFlags.UIDGID = 3 by decide, show jsOr 3 SftpAttributeFlags.PERMISSIONS = 7 by decide]
  have hw0 : SftpPacketWriter.writeInt32 (wst ([] : List Nat) 32) 7 =
      (Except.ok (), wst (int32Bytes 7) 28) := by
    rw [writeInt32_wst [] 32 7 (by norm_num) (by norm_num)]
    all_goals simp only [List.nil_append, show toUint32 7 = 7 from rfl,
      show (32 : Nat) - 4 = 28 from rfl]
  have hw1 : SftpPacketWriter.writeInt64 (wst (int32Bytes 7) 28) ((sv : Nat) : Int) =
      (Except.ok (), wst (((int32Bytes 7) ++ int32Bytes 0) ++ int32Bytes sv) 20) := by
    rw [writeInt64_wst (int32Bytes 7) 28 sv hsv (by norm_num) (by norm_num [int32Bytes])]
    all_goals simp only [show (28 : Nat) - 8 = 20 from rfl]
  have hw2 : SftpPacketWriter.writeInt32 (wst (((int32Bytes 7 ++ int32Bytes 0) ++ int32Bytes sv)) 20) ((uv : Nat) : Int) =
      (Except.ok (), wst ((((int32Bytes 7 ++ int32Bytes 0) ++ int32Bytes sv)) ++ int32Bytes uv) 16) := by
    rw [writeInt32_wst (((int32Bytes 7 ++ int32Bytes 0) ++ int32Bytes sv)) 20 ((uv : Nat) : Int) (by norm_num) (by norm_num [int32Bytes])]
    all_goals simp only [toUint32_natCast uv (by omega),
      show (20 : Nat) - 4 = 16 from rfl]
  have hw3 : SftpPacketWriter.writeInt32 (wst ((((int32Bytes 7 ++ int32Bytes 0) ++ int32Bytes sv) ++ int32Bytes uv)) 16) ((gv : Nat) : Int) =
      (Except.ok (), wst (((((int32Bytes 7 ++ int32Bytes 0) ++ int32Bytes sv) ++ int32Bytes uv)) ++ int32Bytes gv) 12) := by
    rw [writeInt32_wst ((((int32Bytes 7 ++ int32Bytes 0) ++ int32Bytes sv) ++ int32Bytes uv)) 16 ((gv : Nat) : Int) (by norm_num) (by norm_num [int32Bytes])]
    all_goals simp only [toUint32_natCast gv (by omega),
      show (16 : Nat) - 4 = 12 from rfl]
  have hw4 : SftpPacketWriter.writeInt32 (wst (((((int32Bytes 7 ++ int32Bytes 0) ++ int32Bytes sv) ++ int32Bytes uv) ++ int32Bytes gv)) 12) ((mv : Nat) : Int) =
      (Except.ok (), wst ((((((int32Bytes 7 ++ int32Bytes 0) ++ int32Bytes sv) ++ int32Bytes uv) ++ int32Bytes gv)) ++ int32Bytes mv) 8) := by
    rw [writeInt32_wst (((((int32Bytes 7 ++ int32Bytes 0) ++ int32Bytes sv) ++ int32Bytes uv) ++ int32Bytes gv)) 12 ((mv : Nat) : Int) (by norm_num) (by norm_num [int32Bytes])]
    all_goals simp only [toUint32_natCast mv (by omega),
      show (12 : Nat) - 4 = 8 from rfl]
  have hwrite : SftpAttributes.write (⟨7, some (sv : Int), some (uv : Int), some (gv : Int), some (mv : Int), none, none, nl⟩ : SftpAttributes) (mkWriter 32) =
      Except.ok (wst ((((((int32Bytes 7 ++ int32Bytes 0) ++ int32Bytes sv) ++ int32Bytes uv) ++ int32Bytes gv) ++ int32Bytes mv)) 8) := by
    simp only [SftpAttributes.write]
    simp [show jsAnd (7 : Int) SftpAttributeFlags.SIZE = 1 by decide,
      show jsAnd (7 : Int) SftpAttributeFlags.UIDGID = 2 by decide,
      show jsAnd (7 : Int) SftpAttributeFlags.PERMISSIONS = 4 by decide,
      show jsAnd (7 : Int) SftpAttributeFlags.ACMODTIME = 0 by decide,
      show jsAnd (7 : Int) SftpAttributeFlags.EXTENDED = 0 by decide]
    simp only [show mkWriter 32 = wst ([] : List Nat) 32 from rfl,
      hw0, hw1, hw2, hw3, hw4, bindWrite_ok]
    all_goals simp [List.append_assoc]
  have hr0 : SftpPacketReader.readUint32 (rstF ((((((int32Bytes 7 ++ int32Bytes 0) ++ int32Bytes sv) ++ int32Bytes uv) ++ int32Bytes gv) ++ int32Bytes mv)) 0) =
      (Except.ok ((7 : Nat) : Int), rstF ((((((int32Bytes 7 ++ int32Bytes 0) ++ int32Bytes sv) ++ int32Bytes uv) ++ int32Bytes gv) ++ int32Bytes mv)) 4) := by
    rw [readUint32_at_small ((((((int32Bytes 7 ++ int32Bytes 0) ++ int32Bytes sv) ++ int32Bytes uv) ++ int32Bytes gv) ++ int32Bytes mv)) 0 [] ((int32Bytes 0 ++ (int32Bytes sv ++ (int32Bytes uv ++ (int32Bytes gv ++ int32Bytes mv))))) 7
      (by simp [List.append_assoc]) (by simp) (by norm_num)]
  have hr1 : condRead true SftpPacketReader.readInt64 (rstF ((((((int32Bytes 7 ++ int32Bytes 0) ++ int32Bytes sv) ++ int32Bytes uv) ++ int32Bytes gv) ++ int32Bytes mv)) 4) =
      (Except.ok (some ((sv : Nat) : Int)), rstF ((((((int32Bytes 7 ++ int32Bytes 0) ++ int32Bytes sv) ++ int32Bytes uv) ++ int32Bytes gv) ++ int32Bytes mv)) 12) := by
    exact condRead_true_ok _ _ _ _ (readInt64_at ((((((int32Bytes 7 ++ int32Bytes 0) ++ int32Bytes sv) ++ int32Bytes uv) ++ int32Bytes gv) ++ int32Bytes mv)) 4 (int32Bytes 7) ((int32Bytes uv ++ (int32Bytes gv ++ int32Bytes mv))) sv
      (by simp [List.append_assoc]) (by simp [int32Bytes]) hsv)
  have hr2 : condRead true SftpPacketReader.readInt32 (rstF ((((((int32Bytes 7 ++ int32Bytes 0) ++ int32Bytes sv) ++ int32Bytes uv) ++ int32Bytes gv) ++ int32Bytes mv)) 12) =
      (Except.ok (some ((uv : Nat) : Int)), rstF ((((((int32Bytes 7 ++ int32Bytes 0) ++ int32Bytes sv) ++ int32Bytes uv) ++ int32Bytes gv) ++ int32Bytes mv)) 16) := by
    exact condRead_true_ok _ _ _ _ (readInt32_at ((((((int32Bytes 7 ++ int32Bytes 0) ++ int32Bytes sv) ++ int32Bytes uv) ++ int32Bytes gv) ++ int32Bytes mv)) 12 (((int32Bytes 7 ++ int32Bytes 0) ++ int32Bytes sv)) ((int32Bytes gv ++ int32Bytes mv)) uv
      (by simp [List.append_assoc]) (by simp [int32Bytes]) huv)
  have hr3 : condRead true SftpPacketReader.readInt32 (rstF ((((((int32Bytes 7 ++ int32Bytes 0) ++ int32Bytes sv) ++ int32Bytes uv) ++ int32Bytes gv) ++ int32Bytes mv)) 16) =
      (Except.ok (some ((gv : Nat) : Int)), rstF ((((((int32Bytes 7 ++ int32Bytes 0) ++ int32Bytes sv) ++ int32Bytes uv) ++ int32Bytes gv) ++ int32Bytes mv)) 20) := by
    exact condRead_true_ok _ _ _ _ (readInt32_at ((((((int32Bytes 7 ++ int32Bytes 0) ++ int32Bytes sv) ++ int32Bytes uv) ++ int32Bytes gv) ++ int32Bytes mv)) 16 ((((int32Bytes 7 ++ int32Bytes 0) ++ int32Bytes sv) ++ int32Bytes uv)) (int32Bytes mv) gv
      (by simp [List.append_assoc]) (by simp [int32Bytes]) hgv)
  have hr4 : condRead true SftpPacketReader.readUint32 (rstF ((((((int32Bytes 7 ++ int32Bytes 0) ++ int32Bytes sv) ++ int32Bytes uv) ++ int32Bytes gv) ++ int32Bytes mv)) 20) =
      (Except.ok (some ((mv : Nat) : Int)), rstF ((((((int32Bytes 7 ++ int32Bytes 0) ++ int32Bytes sv) ++ int32Bytes uv) ++ int32Bytes gv) ++ int32Bytes mv)) 24) := by
    exact condRead_true_ok _ _ _ _ (readUint32_at_small ((((((int32Bytes 7 ++ int32Bytes 0) ++ int32Bytes sv) ++ int32Bytes uv) ++ int32Bytes gv) ++ int32Bytes mv)) 20 (((((int32Bytes 7 ++ int32Bytes 0) ++ int32Bytes sv) ++ int32Bytes uv) ++ int32Bytes gv)) (([] : List Nat)) mv
      (by simp [List.append_assoc]) (by simp [int32Bytes]) hmv)
  have hdec : SftpAttributes.decode (rstF ((((((int32Bytes 7 ++ int32Bytes 0) ++ int32Bytes sv) ++ int32Bytes uv) ++ int32Bytes gv) ++ int32Bytes mv)) 0) =
      Except.ok ((⟨7, some (sv : Int), some (uv : Int), some (gv : Int), some (mv : Int), none, none, none⟩ : SftpAttributes), rstF ((((((int32Bytes 7 ++ int32Bytes 0) ++ int32Bytes sv) ++ int32Bytes uv) ++ int32Bytes gv) ++ int32Bytes mv)) 24) := by
    simp only [SftpAttributes.decode]
    simp only [hr0, bindRead_ok, show ((7 : Nat) : Int) = (7 : Int) from rfl]
    simp only [show ((jsAnd (7 : Int) SftpAttributeFlags.SIZE != 0)) = true by decide,
      show ((jsAnd (7 : Int) SftpAttributeFlags.UIDGID != 0)) = true by decide,
      show ((jsAnd (7 : Int) SftpAttributeFlags.PERMISSIONS != 0)) = true by decide,
      show ((jsAnd (7 : Int) SftpAttributeFlags.ACMODTIME != 0)) = false by decide]
    simp only [hr1, hr2, hr3, hr4, condRead_false, bindRead_ok]
    rfl
  have hmk : mkRawReader ((wst ((((((int32Bytes 7 ++ int32Bytes 0) ++ int32Bytes sv) ++ int32Bytes uv) ++ int32Bytes gv) ++ int32Bytes mv)) 8).buffer.take (wst ((((((int32Bytes 7 ++ int32Bytes 0) ++ int32Bytes sv) ++ int32Bytes uv) ++ int32Bytes gv) ++ int32Bytes mv)) 8).position.toNat)
      = rstF ((((((int32Bytes 7 ++ int32Bytes 0) ++ int32Bytes sv) ++ int32Bytes uv) ++ int32Bytes gv) ++ int32Bytes mv)) 0 := by
    exact mkRawReader_wst _ _
  exact roundtripAttrs_eq _ _ _ _ (by rw [hfrom]; exact hwrite) (by rw [hmk]; exact hdec)

theorem attrRoundtrip_s1u1m1t1 (sv uv gv mv ta tb : Nat) (nl : Option Int)
    (hsv : sv < 2147483648) (huv : uv < 2147483648) (hgv : gv < 2147483648) (hmv : mv < 2147483648) (hta : ta < 2147483648) (htb : tb < 2147483648) :
    roundtripAttrs ⟨some (sv : Int), some (uv : Int), some (gv : Int), some (mv : Int), some (1000 * (ta : Int)), some (1000 * (tb : Int)), nl⟩ =
      Except.ok ⟨15, some (sv : Int), some (uv : Int), some (gv : Int), some (mv : Int), some (1000 * (ta : Int)), some (1000 * (tb : Int)), none⟩ := by
  have hfrom : SftpAttributes.fromStats (some ⟨some (sv : Int), some (uv : Int), some (gv : Int), some (mv : Int), some (1000 * (ta : Int)), some (1000 * (tb : Int)), nl⟩) = (⟨15, some (sv : Int), some (uv : Int), some (gv : Int), some (mv : Int), some (1000 * (ta : Int)), some (1000 * (tb : Int)), nl⟩ : SftpAttributes) := by
    rw [SftpAttributes.fromStats]
    simp only [Option.isSome_some, Option.isSome_none, Option.getD_some, Bool.or_self,
      Bool.false_eq_true, if_true, if_false]
    rw [jsToInt32_natCast_small sv hsv, jsToInt32_natCast_small uv huv, jsToInt32_natCast_small gv hgv, jsToInt32_natCast_small mv hmv]
    rw [show jsOr 0 SftpAttributeFlags.SIZE = 1 by decide, show jsOr 1 SftpAttributeFlags.UIDGID = 3 by decide, show jsOr 3 SftpAttributeFlags.PERMISSIONS = 7 by decide, show jsOr 7 SftpAttributeFlags.ACMODTIME = 15 by decide]
  have hw0 : SftpPacketWriter.writeInt32 (wst ([] : List Nat) 32) 15 =
      (Except.ok (), wst (int32Bytes 15) 28) := by
    rw [writeInt32_wst [] 32 15 (by norm_num) (by norm_num)]
    all_goals simp only [List.nil_append, show toUint32 15 = 15 from rfl,
      show (32 : Nat) - 4 = 28 from rfl]
  have hw1 : SftpPacketWriter.writeInt64 (wst (int32Bytes 15) 28) ((sv : Nat) : Int) =
      (Except.ok (), wst (((int32Bytes 15) ++ int32Bytes 0) ++ int32Bytes sv) 20) := by
    rw [writeInt64_wst (int32Bytes 15) 28 sv hsv (by norm_num) (by norm_num [int32Bytes])]
    all_goals simp only [show (28 : Nat) - 8 = 20 from rfl]
  have hw2 : SftpPacketWriter.writeInt32 (wst (((int32Bytes 15 ++ int32Bytes 0) ++ int32Bytes sv)) 20) ((uv : Nat) : Int) =
      (Except.ok (), wst ((((int32Bytes 15 ++ int32Bytes 0) ++ int32Bytes sv)) ++ int32Bytes uv) 16) := by
    rw [writeInt32_wst (((int32Bytes 15 ++ int32Bytes 0) ++ int32Bytes sv)) 20 ((uv : Nat) : Int) (by norm_num) (by norm_num [int32Bytes])]
    all_goals simp only [toUint32_natCast uv (by omega),
      show (20 : Nat) - 4 = 16 from rfl]
  have hw3 : SftpPacketWriter.writeInt32 (wst ((((int32Bytes 15 ++ int32Bytes 0) ++ int32Bytes sv) ++ int32Bytes uv)) 16) ((gv : Nat) : Int) =
      (Except.ok (), wst (((((int32Bytes 15 ++ int32Bytes 0) ++ int32Bytes sv) ++ int32Bytes uv)) ++ int32Bytes gv) 12) := by
    rw [writeInt32_wst ((((int32Bytes 15 ++ int32Bytes 0) ++ int32Bytes sv) ++ int32Bytes uv)) 16 ((gv : Nat) : Int) (by norm_num) (by norm_num [int32Bytes])]
    all_goals simp only [toUint32_natCast gv (by omega),
      show (16 : Nat) - 4 = 12 from rfl]
  have hw4 : SftpPacketWriter.writeInt32 (wst (((((int32Bytes 15 ++ int32Bytes 0) ++ int32Bytes sv) ++ int32Bytes uv) ++ int32Bytes gv)) 12) ((mv : Nat) : Int) =
      (Except.ok (), wst ((((((int32Bytes 15 ++ int32Bytes 0) ++ int32Bytes sv) ++ int32Bytes uv) ++ int32Bytes gv)) ++ int32Bytes mv) 8) := by
    rw [writeInt32_wst (((((int32Bytes 15 ++ int32Bytes 0) ++ int32Bytes sv) ++ int32Bytes uv) ++ int32Bytes gv)) 12 ((mv : Nat) : Int) (by norm_num) (by norm_num [int32Bytes])]
    all_goals simp only [toUint32_natCast mv (by omega),
      show (12 : Nat) - 4 = 8 from rfl]
  have hw5 : writeTime (wst ((((((int32Bytes 15 ++ int32Bytes 0) ++ int32Bytes sv) ++ int32Bytes uv) ++ int32Bytes gv) ++ int32Bytes mv)) 8) (some (1000 * (ta : Int))) =
      (Except.ok (), wst (((((((int32Bytes 15 ++ int32Bytes 0) ++ int32Bytes sv) ++ int32Bytes uv) ++ int32Bytes gv) ++ int32Bytes mv)) ++ int32Bytes ta) 4) := by
    rw [writeTime_wst ((((((int32Bytes 15 ++ int32Bytes 0) ++ int32Bytes sv) ++ int32Bytes uv) ++ int32Bytes gv) ++ int32Bytes mv)) 8 ta (by norm_num) (by norm_num [int32Bytes])]
    all_goals simp only [toUint32_natCast ta (by omega),
      show (8 : Nat) - 4 = 4 from rfl]
  have hw6 : writeTime (wst (((((((int32Bytes 15 ++ int32Bytes 0) ++ int32Bytes sv) ++ int32Bytes uv) ++ int32Bytes gv) ++ int32Bytes mv) ++ int32Bytes ta)) 4) (some (1000 * (tb : Int))) =
      (Except.ok (), wst ((((((((int32Bytes 15 ++ int32Bytes 0) ++ int32Bytes sv) ++ int32Bytes uv) ++ int32Bytes gv) ++ int32Bytes mv) ++ int32Bytes ta)) ++ int32Bytes tb) 0) := by
    rw [writeTime_wst (((((((int32Bytes 15 ++ int32Bytes 0) ++ int32Bytes sv) ++ int32Bytes uv) ++ int32Bytes gv) ++ int32Bytes mv) ++ int32Bytes ta)) 4 tb (by norm_num) (by norm_num [int32Bytes])]
    all_goals simp only [toUint32_natCast tb (by omega),
      show (4 : Nat) - 4 = 0 from rfl]
  have hwrite : SftpAttributes.write (⟨15, some (sv : Int), some (uv : Int), some (gv : Int), some (mv : Int), some (1000 * (ta : Int)), some (1000 * (tb : Int)), nl⟩ : SftpAttributes) (mkWriter 32) =
      Except.ok (wst ((((((((int32Bytes 15 ++ int32Bytes 0) ++ int32Bytes sv) ++ int32Bytes uv) ++ int32Bytes gv) ++ int32Bytes mv) ++ int32Bytes ta) ++ int32Bytes tb)) 0) := by
    simp only [SftpAttributes.write]
    simp [show jsAnd (15 : Int) SftpAttributeFlags.SIZE = 1 by decide,
      show jsAnd (15 : Int) SftpAttributeFlags.UIDGID = 2 by decide,
      show jsAnd (15 : Int) SftpAttributeFlags.PERMISSIONS = 4 by decide,
      show jsAnd (15 : Int) SftpAttributeFlags.ACMODTIME = 8 by decide,
      show jsAnd (15 : Int) SftpAttributeFlags.EXTENDED = 0 by decide]
    simp only [show mkWriter 32 = wst ([] : List Nat) 32 from rfl,
      hw0, hw1, hw2, hw3, hw4, hw5, hw6, bindWrite_ok]
    all_goals simp [List.append_assoc]
  have hr0 : SftpPacketReader.readUint32 (rstF ((((((((int32Bytes 15 ++ int32Bytes 0) ++ int32Bytes sv) ++ int32Bytes uv) ++ int32Bytes gv) ++ int32Bytes mv) ++ int32Bytes ta) ++ int32Bytes tb)) 0) =
      (Except.ok ((15 : Nat) : Int), rstF ((((((((int32Bytes 15 ++ int32Bytes 0) ++ int32Bytes sv) ++ int32Bytes uv) ++ int32Bytes gv) ++ int32Bytes mv) ++ int32Bytes ta) ++ int32Bytes tb)) 4) := by
    rw [readUint32_at_small ((((((((int32Bytes 15 ++ int32Bytes 0) ++ int32Bytes sv) ++ int32Bytes uv) ++ int32Bytes gv) ++ int32Bytes mv) ++ int32Bytes ta) ++ int32Bytes tb)) 0 [] ((int32Bytes 0 ++ (int32Bytes sv ++ (int32Bytes uv ++ (int32Bytes gv ++ (int32Bytes mv ++ (int32Bytes ta ++ int32Bytes tb))))))) 15
      (by simp [List.append_assoc]) (by simp) (by norm_num)]
  have hr1 : condRead true SftpPacketReader.readInt64 (rstF ((((((((int32Bytes 15 ++ int32Bytes 0) ++ int32Bytes sv) ++ int32Bytes uv) ++ int32Bytes gv) ++ int32Bytes mv) ++ int32Bytes ta) ++ int32Bytes tb)) 4) =
      (Except.ok (some ((sv : Nat) : Int)), rstF ((((((((int32Bytes 15 ++ int32Bytes 0) ++ int32Bytes sv) ++ int32Bytes uv) ++ int32Bytes gv) ++ int32Bytes mv) ++ int32Bytes ta) ++ int32Bytes tb)) 12) := by
    exact condRead_true_ok _ _ _ _ (readInt64_at ((((((((int32Bytes 15 ++ int32Bytes 0) ++ int32Bytes sv) ++ int32Bytes uv) ++ int32Bytes gv) ++ int32Bytes mv) ++ int32Bytes ta) ++ int32Bytes tb)) 4 (int32Bytes 15) ((int32Bytes uv ++ (int32Bytes gv ++ (int32Bytes mv ++ (int32Bytes ta ++ int32Bytes tb))))) sv
      (by simp [List.append_assoc]) (by simp [int32Bytes]) hsv)
  have hr2 : condRead true SftpPacketReader.readInt32 (rstF ((((((((int32Bytes 15 ++ int32Bytes 0) ++ int32Bytes sv) ++ int32Bytes uv) ++ int32Bytes gv) ++ int32Bytes mv) ++ int32Bytes ta) ++ int32Bytes tb)) 12) =
      (Except.ok (some ((uv : Nat) : Int)), rstF ((((((((int32Bytes 15 ++ int32Bytes 0) ++ int32Bytes sv) ++ int32Bytes uv) ++ int32Bytes gv) ++ int32Bytes mv) ++ int32Bytes ta) ++ int32Bytes tb)) 16) := by
    exact condRead_true_ok _ _ _ _ (readInt32_at ((((((((int32Bytes 15 ++ int32Bytes 0) ++ int32Bytes sv) ++ int32Bytes uv) ++ int32Bytes gv) ++ int32Bytes mv) ++ int32Bytes ta) ++ int32Bytes tb)) 12 (((int32Bytes 15 ++ int32Bytes 0) ++ int32Bytes sv)) ((int32Bytes gv ++ (int32Bytes mv ++ (int32Bytes ta ++ int32Bytes tb)))) uv
      (by simp [List.append_assoc]) (by simp [int32Bytes]) huv)
  have hr3 : condRead true SftpPacketReader.readInt32 (rstF ((((((((int32Bytes 15 ++ int32Bytes 0) ++ int32Bytes sv) ++ int32Bytes uv) ++ int32Bytes gv) ++ int32Bytes mv) ++ int32Bytes ta) ++ int32Bytes tb)) 16) =
      (Except.ok (some ((gv : Nat) : Int)), rstF ((((((((int32Bytes 15 ++ int32Bytes 0) ++ int32Bytes sv) ++ int32Bytes uv) ++ int32Bytes gv) ++ int32Bytes mv) ++ int32Bytes ta) ++ int32Bytes tb)) 20) := by
    exact condRead_true_ok _ _ _ _ (readInt32_at ((((((((int32Bytes 15 ++ int32Bytes 0) ++ int32Bytes sv) ++ int32Bytes uv) ++ int32Bytes gv) ++ int32Bytes mv) ++ int32Bytes ta) ++ int32Bytes tb)) 16 ((((int32Bytes 15 ++ int32Bytes 0) ++ int32Bytes sv) ++ int32Bytes uv)) ((int32Bytes mv ++ (int32Bytes ta ++ int32Bytes tb))) gv
      (by simp [List.append_assoc]) (by simp [int32Bytes]) hgv)
  have hr4 : condRead true SftpPacketReader.readUint32 (rstF ((((((((int32Bytes 15 ++ int32Bytes 0) ++ int32Bytes sv) ++ int32Bytes uv) ++ int32Bytes gv) ++ int32Bytes mv) ++ int32Bytes ta) ++ int32Bytes tb)) 20) =
      (Except.ok (some ((mv : Nat) : Int)), rstF ((((((((int32Bytes 15 ++ int32Bytes 0) ++ int32Bytes sv) ++ int32Bytes uv) ++ int32Bytes gv) ++ int32Bytes mv) ++ int32Bytes ta) ++ int32Bytes tb)) 24) := by
    exact condRead_true_ok _ _ _ _ (readUint32_at_small ((((((((int32Bytes 15 ++ int32Bytes 0) ++ int32Bytes sv) ++ int32Bytes uv) ++ int32Bytes gv) ++ int32Bytes mv) ++ int32Bytes ta) ++ int32Bytes tb)) 20 (((((int32Bytes 15 ++ int32Bytes 0) ++ int32Bytes sv) ++ int32Bytes uv) ++ int32Bytes gv)) ((int32Bytes ta ++ int32Bytes tb)) mv
      (by simp [List.append_assoc]) (by simp [int32Bytes]) hmv)
  have hr5 : condRead true SftpPacketReader.readUint32 (rstF ((((((((int32Bytes 15 ++ int32Bytes 0) ++ int32Bytes sv) ++ int32Bytes uv) ++ int32Bytes gv) ++ int32Bytes mv) ++ int32Bytes ta) ++ int32Bytes tb)) 24) =
      (Except.ok (some ((ta : Nat) : Int)), rstF ((((((((int32Bytes 15 ++ int32Bytes 0) ++ int32Bytes sv) ++ int32Bytes uv) ++ int32Bytes gv) ++ int32Bytes mv) ++ int32Bytes ta) ++ int32Bytes tb)) 28) := by
    exact condRead_true_ok _ _ _ _ (readUint32_at_small ((((((((int32Bytes 15 ++ int32Bytes 0) ++ int32Bytes sv) ++ int32Bytes uv) ++ int32Bytes gv) ++ int32Bytes mv) ++ int32Bytes ta) ++ int32Bytes tb)) 24 ((((((int32Bytes 15 ++ int32Bytes 0) ++ int32Bytes sv) ++ int32Bytes uv) ++ int32Bytes gv) ++ int32Bytes mv)) (int32Bytes tb) ta
      (by simp [List.append_assoc]) (by simp [int32Bytes]) hta)
  have hr6 : condRead true SftpPacketReader.readUint32 (rstF ((((((((int32Bytes 15 ++ int32Bytes 0) ++ int32Bytes sv) ++ int32Bytes uv) ++ int32Bytes gv) ++ int32Bytes mv) ++ int32Bytes ta) ++ int32Bytes tb)) 28) =
      (Except.ok (some ((tb : Nat) : Int)), rstF ((((((((int32Bytes 15 ++ int32Bytes 0) ++ int32Bytes sv) ++ int32Bytes uv) ++ int32Bytes gv) ++ int32Bytes mv) ++ int32Bytes ta) ++ int32Bytes tb)) 32) := by
    exact condRead_true_ok _ _ _ _ (readUint32_at_small ((((((((int32Bytes 15 ++ int32Bytes 0) ++ int32Bytes sv) ++ int32Bytes uv) ++ int32Bytes gv) ++ int32Bytes mv) ++ int32Bytes ta) ++ int32Bytes tb)) 28 (((((((int32Bytes 15 ++ int32Bytes 0) ++ int32Bytes sv) ++ int32Bytes uv) ++ int32Bytes gv) ++ int32Bytes mv) ++ int32Bytes ta)) (([] : List Nat)) tb
      (by simp [List.append_assoc]) (by simp [int32Bytes]) htb)
  have hdec : SftpAttributes.decode (rstF ((((((((int32Bytes 15 ++ int32Bytes 0) ++ int32Bytes sv) ++ int32Bytes uv) ++ int32Bytes gv) ++ int32Bytes mv) ++ int32Bytes ta) ++ int32Bytes tb)) 0) =
      Except.ok ((⟨15, some (sv : Int), some (uv : Int), some (gv : Int), some (mv : Int), some (1000 * (ta : Int)), some (1000 * (tb : Int)), none⟩ : SftpAttributes), rstF ((((((((int32Bytes 15 ++ int32Bytes 0) ++ int32Bytes sv) ++ int32Bytes uv) ++ int32Bytes gv) ++ int32Bytes mv) ++ int32Bytes ta) ++ int32Bytes tb)) 32) := by
    simp only [SftpAttributes.decode]
    simp only [hr0, bindRead_ok, show ((15 : Nat) : Int) = (15 : Int) from rfl]
    simp only [show ((jsAnd (15 : Int) SftpAttributeFlags.SIZE != 0)) = true by decide,
      show ((jsAnd (15 : Int) SftpAttributeFlags.UIDGID != 0)) = true by decide,
      show ((jsAnd (15 : Int) SftpAttributeFlags.PERMISSIONS != 0)) = true by decide,
      show ((jsAnd (15 : Int) SftpAttributeFlags.ACMODTIME != 0)) = true by decide]
    simp only [hr1, hr2, hr3, hr4, hr5, hr6, condRead_false, bindRead_ok]
    rfl
  have hmk : mkRawReader ((wst ((((((((int32Bytes 15 ++ int32Bytes 0) ++ int32Bytes sv) ++ int32Bytes uv) ++ int32Bytes gv) ++ int32Bytes mv) ++ int32Bytes ta) ++ int32Bytes tb)) 0).buffer.take (wst ((((((((int32Bytes 15 ++ int32Bytes 0) ++ int32Bytes sv) ++ int32Bytes uv) ++ int32Bytes gv) ++ int32Bytes mv) ++ int32Bytes ta) ++ int32Bytes tb)) 0).position.toNat)
      = rstF ((((((((int32Bytes 15 ++ int32Bytes 0) ++ int32Bytes sv) ++ int32Bytes uv) ++ int32Bytes gv) ++ int32Bytes mv) ++ int32Bytes ta) ++ int32Bytes tb)) 0 := by
    exact mkRawReader_wst _ _
  exact roundtripAttrs_eq _ _ _ _ (by rw [hfrom]; exact hwrite) (by rw [hmk]; exact hdec)


/-- The attribute-flag mask that `SftpAttributes.from` assembles for a metadata
object: bit 1 when `size` is defined, bit 2 when `uid`/`gid` are, bit 4 for
`mode`, bit 8 for `atime`/`mtime` (misc.ts lines 279-307). -/
def expectedAttrFlags (m : IStatsModel) : Int :=
  (if m.size.isSome then 1 else 0) + (if m.uid.isSome then 2 else 0) +
    (if m.mode.isSome then 4 else 0) + (if m.atime.isSome then 8 else 0)

/-- Claim C5 (amended): if `uid`/`gid` are defined together, `atime`/`mtime` are
defined together, the numeric fields hold nonnegative values below 2^31, and the
times are whole seconds (multiples of 1000 ms below 2^31 seconds), then decoding
the encoding of the attributes record built by `SftpAttributes.from` reproduces
exactly the defined fields of the metadata object with their original values
(and never the `nlink` field, which the wire format does not carry). -/
theorem c5_attr_roundtrip_amended (m : IStatsModel)
    (hug : m.uid.isSome = m.gid.isSome)
    (ham : m.atime.isSome = m.mtime.isSome)
    (hs : ∀ v, m.size = some v → ∃ n : Nat, n < 2147483648 ∧ v = (n : Int))
    (hu : ∀ v, m.uid = some v → ∃ n : Nat, n < 2147483648 ∧ v = (n : Int))
    (hg : ∀ v, m.gid = some v → ∃ n : Nat, n < 2147483648 ∧ v = (n : Int))
    (hm : ∀ v, m.mode = some v → ∃ n : Nat, n < 2147483648 ∧ v = (n : Int))
    (hat : ∀ v, m.atime = some v → ∃ n : Nat, n < 2147483648 ∧ v = 1000 * (n : Int))
    (hmt : ∀ v, m.mtime = some v → ∃ n : Nat, n < 2147483648 ∧ v = 1000 * (n : Int)) :
    roundtripAttrs m =
      Except.ok ⟨expectedAttrFlags m, m.size, m.uid, m.gid, m.mode, m.atime, m.mtime, none⟩ := by
  obtain ⟨s, u, g, md, ta, tb, nl⟩ := m
  rcases s with _ | vs <;> rcases u with _ | vu <;> rcases g with _ | vg <;>
    rcases md with _ | vm <;> rcases ta with _ | va <;> rcases tb with _ | vb
  all_goals try (simp only [Option.isSome_some, Option.isSome_none,
    Bool.true_eq_false, Bool.false_eq_true] at hug ham)
  all_goals try (obtain ⟨ns, hns, rfl⟩ := hs _ rfl)
  all_goals try (obtain ⟨nu, hnu, rfl⟩ := hu _ rfl)
  all_goals try (obtain ⟨ng, hng, rfl⟩ := hg _ rfl)
  all_goals try (obtain ⟨nm, hnm, rfl⟩ := hm _ rfl)
  all_goals try (obtain ⟨na, hna, rfl⟩ := hat _ rfl)
  all_goals try (obtain ⟨nb, hnb, rfl⟩ := hmt _ rfl)
  · exact attrRoundtrip_s0u0m0t0 _
  · exact attrRoundtrip_s0u0m0t1 _ _ _ hna hnb
  · exact attrRoundtrip_s0u0m1t0 _ _ hnm
  · exact attrRoundtrip_s0u0m1t1 _ _ _ _ hnm hna hnb
  · exact attrRoundtrip_s0u1m0t0 _ _ _ hnu hng
  · exact attrRoundtrip_s0u1m0t1 _ _ _ _ _ hnu hng hna hnb
  · exact attrRoundtrip_s0u1m1t0 _ _ _ _ hnu hng hnm
  · exact attrRoundtrip_s0u1m1t1 _ _ _ _ _ _ hnu hng hnm hna hnb
  · exact attrRoundtrip_s1u0m0t0 _ _ hns
  · exact attrRoundtrip_s1u0m0t1 _ _ _ _ hns hna hnb
  · exact attrRoundtrip_s1u0m1t0 _ _ _ hns hnm
  · exact attrRoundtrip_s1u0m1t1 _ _ _ _ _ hns hnm hna hnb
  · exact attrRoundtrip_s1u1m0t0 _ _ _ _ hns hnu hng
  · exact attrRoundtrip_s1u1m0t1 _ _ _ _ _ _ hns hnu hng hna hnb
  · exact attrRoundtrip_s1u1m1t0 _ _ _ _ _ hns hnu hng hnm
  · exact attrRoundtrip_s1u1m1t1 _ _ _ _ _ _ _ hns hnu hng hnm hna hnb

theorem c5_attr_roundtrip_amended_witness :
    roundtripAttrs ⟨some 7, none, none, some 420, some 3000, some 5000, some 2⟩ =
      Except.ok ⟨13, some 7, none, none, some 420, some 3000, some 5000, none⟩ :=
  c5_attr_roundtrip_amended ⟨some 7, none, none, some 420, some 3000, some 5000, some 2⟩
    rfl rfl
    (fun v hv => ⟨7, by omega, by injection hv with h; omega⟩)
    (fun v hv => by cases hv)
    (fun v hv => by cases hv)
    (fun v hv => ⟨420, by omega, by injection hv with h; omega⟩)
    (fun v hv => ⟨3, by omega, by injection hv with h; omega⟩)
    (fun v hv => ⟨5, by omega, by injection hv with h; omega⟩)

/-! ## Claims C3 and C4: read-response parsing -/

/-- Modelled from the spec: enums.ts is not under src/, and §6 pins "opcodes
and status codes are fixed small integers per SFTP v3". -/
def SftpPacketType.READ : Int := 5

/-- Modelled from the spec: SFTP v3 STATUS opcode. -/
def SftpPacketType.STATUS : Int := 101

/-- Modelled from the spec: SFTP v3 DATA opcode. -/
def SftpPacketType.DATA : Int := 103

/-- Modelled from the spec: SFTP v3 status code. -/
def SftpStatusCode.OK : Int := 0

/-- Modelled from the spec: SFTP v3 status code. -/
def SftpStatusCode.EOF : Int := 1

/-- Modelled from the spec: SFTP v3 status code. -/
def SftpStatusCode.NO_SUCH_FILE : Int := 2

/-- Modelled from the spec: SFTP v3 status code. -/
def SftpStatusCode.PERMISSION_DENIED : Int := 3

/-- Modelled from the spec: SFTP v3 status code. -/
def SftpStatusCode.FAILURE : Int := 4

/-- Modelled from the spec: SFTP v3 status code. -/
def SftpStatusCode.BAD_MESSAGE : Int := 5

/-- Modelled from the spec: SFTP v3 status code. -/
def SftpStatusCode.NO_CONNECTION : Int := 6

/-- Modelled from the spec: SFTP v3 status code. -/
def SftpStatusCode.CONNECTION_LOST : Int := 7

/-- Modelled from the spec: SFTP v3 status code. -/
def SftpStatusCode.OP_UNSUPPORTED : Int := 8

/-- The `info` record attached to each request (packet.ts `SftpCommandInfo`):
the command name plus its path or handle argument. -/
structure SftpCommandInfo where
  command : String
  path : Option String := none
  handle : Option (List Nat) := none
deriving Repr, DecidableEq

/-- The observable fields of the `SftpError` objects built by
`SftpClientCore.createError` (packet.ts lines 836-901). -/
structure SftpErrorModel where
  message : String
  code : String
  errno : Int
  nativeCode : Int
  description : String
  info : SftpCommandInfo
deriving Repr, DecidableEq

/-- JavaScript stringification of a `Uint8Array` (elements joined by commas),
used when a handle argument is interpolated into an error message. -/
def jsArrayToString (l : List Nat) : String :=
  String.intercalate "," (l.map (fun n => toString n))

/-- The `arg` computed by `createError` (packet.ts lines 880-886):
`info.path || info.handle`, quoted when it is a (non-empty) string,
stringified when it is a truthy object, empty otherwise. -/
def commandArgString (info : SftpCommandInfo) : String :=
  match info.path with
  | some p =>
    if p ≠ "" then "\x27" ++ p ++ "\x27"
    else match info.handle with
      | some h => jsArrayToString h
      | none => ""
  | none =>
    match info.handle with
    | some h => jsArrayToString h
    | none => ""

/-- `SftpClientCore.createError` (packet.ts lines 836-901): map the protocol
status code to a POSIX-style code/errno pair, and assemble the message from
the code, the command name and its argument.  The second `BAD_MESSAGE` switch
case in the source is dead (the first occurrence wins), so it is omitted. -/
def SftpClientCore.createError (nativeCode : Int) (message : String)
    (info : SftpCommandInfo) : SftpErrorModel :=
  let ce : String × Int :=
    if nativeCode = SftpStatusCode.EOF then ("EOF", 1)
    else if nativeCode = SftpStatusCode.NO_SUCH_FILE then ("ENOENT", 34)
    else if nativeCode = SftpStatusCode.PERMISSION_DENIED then ("EACCES", 3)
    else if nativeCode = SftpStatusCode.OK ∨ nativeCode = SftpStatusCode.FAILURE
        ∨ nativeCode = SftpStatusCode.BAD_MESSAGE then ("EFAILURE", -2)
    else if nativeCode = SftpStatusCode.NO_CONNECTION then ("ENOTCONN", 31)
    else if nativeCode = SftpStatusCode.CONNECTION_LOST then ("ESHUTDOWN", 46)
    else if nativeCode = SftpStatusCode.OP_UNSUPPORTED then ("ENOSYS", 35)
    else ("UNKNOWN", -1)
  { message := ce.1 ++ ", " ++ info.command ++ " " ++ commandArgString info
    code := ce.1
    errno := ce.2
    nativeCode := nativeCode
    description := message
    info := info }

/-- `SftpClientCore.readStatus` (packet.ts lines 817-826): read the status
code and message from the response, returning `none` for `OK` and the built
error otherwise. -/
def SftpClientCore.readStatus (p : SftpPacketState) (info : SftpCommandInfo) :
    ReadResult (Option SftpErrorModel) :=
  match SftpPacketReader.readInt32 p with
  | (Except.error e, p1) => (Except.error e, p1)
  | (Except.ok nativeCode, p1) =>
    match SftpPacketReader.readString p1 with
    | (Except.error e, p2) => (Except.error e, p2)
    | (Except.ok message, p2) =>
      if nativeCode = SftpStatusCode.OK then (Except.ok none, p2)
      else (Except.ok (some (SftpClientCore.createError nativeCode message info)), p2)

/-- An inbound response as handed to a response parser: the packet type, the
reader positioned at the payload, and the originating request's info. -/
structure SftpResponseR where
  type : Int
  state : SftpPacketState
  info : SftpCommandInfo
deriving Repr, DecidableEq

/-- What `parseData` does with a response: invoke the callback successfully
(with the result buffer and byte count), invoke it with an error, or re-issue
a READ request (with the retry count carried by the new parser and the
handle, position and length written into the new packet). -/
inductive ParseDataOutcome where
  | callbackOk (buffer : List Nat) (bytesRead : Int)
  | callbackErr (err : SftpErrorModel)
  | retryRead (retries : Int) (h : List Nat) (position length : Int)
deriving Repr, DecidableEq

/-- The non-STATUS tail of `SftpClientCore.parseData` (packet.ts lines
970-1004): read the data payload, reject overlong payloads, retry or fail on
an empty payload (note `length` is overwritten by `data.length` first), and
otherwise deliver the data (copied into the caller's buffer when one was
supplied, with `Uint8Array.set` range semantics). -/
def parseDataBody (st : SftpPacketState) (info : SftpCommandInfo)
    (retries : Int) (h : List Nat) (buffer : Option (List Nat))
    (offset length position : Int) : Except String ParseDataOutcome :=
  match SftpPacketReader.readData st false with
  | (Except.error e, _) => Except.error e
  | (Except.ok data, _) =>
    if (data.length : Int) > length then Except.error "Received too much data"
    else
      let length : Int := (data.length : Int)
      if length = 0 then
        if retries > 4 then
          let e0 := SftpClientCore.createError SftpStatusCode.FAILURE
            "Unable to read data" info
          Except.ok (ParseDataOutcome.callbackErr { e0 with code := "EIO", errno := 55 })
        else
          Except.ok (ParseDataOutcome.retryRead (retries + 1) h position length)
      else
        match buffer with
        | none => Except.ok (ParseDataOutcome.callbackOk data length)
        | some b =>
          if offset < 0 ∨ (b.length : Int) < offset + (data.length : Int) then
            Except.error "RangeError: offset is out of bounds"
          else
            Except.ok (ParseDataOutcome.callbackOk (overwriteBytes b offset data) length)

/-- `SftpClientCore.parseData` (packet.ts lines 957-1005): a STATUS response
is examined first — a non-OK status invokes the callback (successfully, with
an empty slice, when the status is EOF; with the error otherwise), while an
OK status falls through to the data path on the advanced reader. -/
def SftpClientCore.parseData (resp : SftpResponseR) (retries : Int)
    (h : List Nat) (buffer : Option (List Nat))
    (offset length position : Int) : Except String ParseDataOutcome :=
  if resp.type = SftpPacketType.STATUS then
    match SftpClientCore.readStatus resp.state resp.info with
    | (Except.error e, _) => Except.error e
    | (Except.ok (some err), _) =>
      if err.nativeCode = SftpStatusCode.EOF then
        Except.ok (ParseDataOutcome.callbackOk
          (match buffer with
            | some b => jsSlice b offset 0
            | none => []) 0)
      else Except.ok (ParseDataOutcome.callbackErr err)
    | (Except.ok none, st) =>
      parseDataBody st resp.info retries h buffer offset length position
  else parseDataBody resp.state resp.info retries h buffer offset length position

/-- The payload of a STATUS packet: a 32-bit status code, then the
length-prefixed message bytes. -/
def statusPayload (code : Nat) (mb : List Nat) : List Nat :=
  int32Bytes code ++ (int32Bytes mb.length ++ (mb ++ []))

/-- A slice that ends at index 0 is always empty. -/
theorem jsSlice_end_zero (b : List Nat) (start : Int) : jsSlice b start 0 = [] := by
  simp only [jsSlice]
  have he : (if (0 : Int) < 0 then max 0 ((b.length : Int) + 0) else min 0 (b.length : Int)) = 0 := by
    simp
  rw [he]
  rcases lt_or_le start 0 with hs | hs
  · rw [if_pos hs]
    have : (0 - max 0 ((b.length : Int) + start)).toNat = 0 := by omega
    rw [this, List.take_zero]
  · rw [if_neg (by omega)]
    have : (0 - min start (b.length : Int)).toNat = 0 := by omega
    rw [this, List.take_zero]

/-- `readString` over an `rstF` state positioned at a length-prefixed string. -/
theorem readString_rst (pre data rest : List Nat) (hdl : data.length < 2147483648) :
    SftpPacketReader.readString
        (rstF (pre ++ (int32Bytes data.length ++ (data ++ rest))) pre.length) =
      (Except.ok (String.mk (data.map Char.ofNat)),
       rstF (pre ++ (int32Bytes data.length ++ (data ++ rest))) (pre.length + 4 + data.length)) := by
  unfold rstF
  rw [readString_seg pre data rest _ hdl (by simp [int32Bytes]; push_cast; omega)]
  rw [show (pre.length : Int) + 4 + (data.length : Int)
    = ((pre.length + 4 + data.length : Nat) : Int) by push_cast; ring]

/-- Hypothesis-style form of `readString_rst`. -/
theorem readString_at (full : List Nat) (c : Nat) (pre data rest : List Nat)
    (hfull : full = pre ++ (int32Bytes data.length ++ (data ++ rest)))
    (hc : c = pre.length) (hdl : data.length < 2147483648) :
    SftpPacketReader.readString (rstF full c) =
      (Except.ok (String.mk (data.map Char.ofNat)), rstF full (c + 4 + data.length)) := by
  subst hfull hc
  exact readString_rst pre data rest hdl

/-- `readStatus` on a raw reader over a `statusPayload`: the code is read,
the message is read, and (for a non-OK code) the built error is returned. -/
theorem readStatus_statusPayload (code : Nat) (mb : List Nat) (info : SftpCommandInfo)
    (hcode : code < 2147483648) (hc0 : (code : Int) ≠ SftpStatusCode.OK)
    (hmb : mb.length < 2147483648) :
    SftpClientCore.readStatus (mkRawReader (statusPayload code mb)) info =
      (Except.ok (some (SftpClientCore.createError (code : Int)
          (String.mk (mb.map Char.ofNat)) info)),
       rstF (statusPayload code mb) (8 + mb.length)) := by
  have hmk : mkRawReader (statusPayload code mb) = rstF (statusPayload code mb) 0 := by
    simp [mkRawReader, rstF]
  have hr1 : SftpPacketReader.readInt32 (rstF (statusPayload code mb) 0) =
      (Except.ok ((code : Nat) : Int), rstF (statusPayload code mb) 4) := by
    exact readInt32_at (statusPayload code mb) 0 [] (int32Bytes mb.length ++ (mb ++ [])) code
      (by simp [statusPayload]) (by simp) hcode
  have hr2 : SftpPacketReader.readString (rstF (statusPayload code mb) 4) =
      (Except.ok (String.mk (mb.map Char.ofNat)), rstF (statusPayload code mb) (8 + mb.length)) := by
    have := readString_at (statusPayload code mb) 4 (int32Bytes code) mb [] 
      (by simp [statusPayload]) (by simp [int32Bytes]) hmb
    rw [this]
  simp only [SftpClientCore.readStatus, hmk, hr1, hr2]
  rw [if_neg hc0]

/-- Claim C4: a read whose response is a STATUS packet with the EOF status
code completes successfully — `parseData` invokes the callback with no error,
zero bytes read and an empty result buffer, never an EOF error. -/
theorem c4_eof_read_success (mb : List Nat) (info : SftpCommandInfo)
    (buffer : Option (List Nat)) (h : List Nat) (retries offset length position : Int)
    (hmb : mb.length < 2147483648) :
    SftpClientCore.parseData
        ⟨SftpPacketType.STATUS, mkRawReader (statusPayload SftpStatusCode.EOF.toNat mb), info⟩
        retries h buffer offset length position =
      Except.ok (ParseDataOutcome.callbackOk [] 0) := by
  simp only [SftpClientCore.parseData, if_true]
  simp only [readStatus_statusPayload SftpStatusCode.EOF.toNat mb info
    (by norm_num [SftpStatusCode.EOF])
    (by norm_num [SftpStatusCode.EOF, SftpStatusCode.OK]) hmb]
  rw [show (SftpClientCore.createError ((SftpStatusCode.EOF.toNat : Nat) : Int)
      (String.mk (mb.map Char.ofNat)) info).nativeCode
    = ((SftpStatusCode.EOF.toNat : Nat) : Int) from rfl]
  rw [if_pos (by norm_num [SftpStatusCode.EOF])]
  cases buffer with
  | none => rfl
  | some b => simp only [jsSlice_end_zero]

theorem c4_eof_read_success_witness :
    ([72, 105] : List Nat).length < 2147483648 ∧
    SftpClientCore.parseData
        ⟨SftpPacketType.STATUS, mkRawReader (statusPayload SftpStatusCode.EOF.toNat [72, 105]),
          ⟨"read", none, some [7]⟩⟩
        0 [7] (some [9, 9, 9]) 1 8 3 =
      Except.ok (ParseDataOutcome.callbackOk [] 0) :=
  ⟨by decide,
   c4_eof_read_success [72, 105] ⟨"read", none, some [7]⟩ (some [9, 9, 9]) [7] 0 1 8 3
     (by decide)⟩

/-- Claim C3 counterexample: on the 5th consecutive empty data response
(`retries = 4`) with an original requested length of 8, `parseData` does not
surface an error — it issues a 6th read — and the re-issued read carries
length 0, not the requested length 8, because `length` is overwritten with
`data.length` before the retry request is written. -/
theorem c3_read_retry_counterexample :
    SftpClientCore.parseData
        ⟨SftpPacketType.DATA, mkRawReader (int32Bytes 0), ⟨"read", none, some [7]⟩⟩
        4 [7] none 0 8 0 =
      Except.ok (ParseDataOutcome.retryRead 5 [7] 0 0) := by
  decide

/-- Claim C3 (amended): an empty data payload (no status) makes `parseData`
re-issue the read with the same handle and position but with requested length
0 (the `length` variable is clobbered by `data.length` first) and an
incremented retry counter; the EIO "Unable to read data" failure surfaces
only when `retries` exceeds 4 — that is, on the 6th consecutive empty
response, not the 5th. -/
theorem c3_read_retry_amended (info : SftpCommandInfo) (retries : Int)
    (h : List Nat) (buffer : Option (List Nat)) (offset length position : Int)
    (hlen : 0 ≤ length) :
    SftpClientCore.parseData ⟨SftpPacketType.DATA, mkRawReader (int32Bytes 0), info⟩
        retries h buffer offset length position =
      Except.ok (if retries > 4
        then ParseDataOutcome.callbackErr
          { SftpClientCore.createError SftpStatusCode.FAILURE "Unable to read data" info
            with code := "EIO", errno := 55 }
        else ParseDataOutcome.retryRead (retries + 1) h position 0) := by
  simp only [SftpClientCore.parseData]
  rw [if_neg (by norm_num [SftpPacketType.DATA, SftpPacketType.STATUS])]
  simp only [parseDataBody]
  rw [show SftpPacketReader.readData (mkRawReader (int32Bytes 0)) false =
    (Except.ok ([] : List Nat), ⟨int32Bytes 0, 4, 4⟩) from by decide]
  simp only [List.length_nil, Nat.cast_zero]
  rw [if_neg (by omega)]
  simp only [if_true]
  split <;> rfl

theorem c3_read_retry_amended_witness :
    (0 : Int) ≤ 8 ∧
    SftpClientCore.parseData
        ⟨SftpPacketType.DATA, mkRawReader (int32Bytes 0), ⟨"read", none, some [7]⟩⟩
        5 [7] none 0 8 2 =
      Except.ok (if (5 : Int) > 4
        then ParseDataOutcome.callbackErr
          { SftpClientCore.createError SftpStatusCode.FAILURE "Unable to read data"
              ⟨"read", none, some [7]⟩
            with code := "EIO", errno := 55 }
        else ParseDataOutcome.retryRead ((5 : Int) + 1) [7] 2 0) :=
  ⟨by norm_num,
   c3_read_retry_amended ⟨"read", none, some [7]⟩ 5 [7] none 0 8 2 (by norm_num)⟩

/-! ## Claim C1: request correlation -/

/-- An entry of the pending-request table (`execute`, packet.ts line 429):
the completion callback (identified abstractly) and the command info. -/
structure RequestEntry where
  callback : Nat
  info : SftpCommandInfo
deriving Repr, DecidableEq

/-- The `_requests` sparse array, as an association list keyed by request id. -/
def lookupRequest : List (Nat × RequestEntry) → Nat → Option RequestEntry
  | [], _ => none
  | (k, e) :: rest, id => if k = id then some e else lookupRequest rest id

/-- `delete this._requests[response.id]` (packet.ts line 522). -/
def removeRequest : List (Nat × RequestEntry) → Nat → List (Nat × RequestEntry)
  | [], _ => []
  | (k, e) :: rest, id => if k = id then rest else (k, e) :: removeRequest rest id

/-- The registration step of `execute` (packet.ts lines 405-406, 429): a
request id already present throws "Duplicate request"; otherwise the entry is
stored under the request's id. -/
def SftpClientCore.registerRequest (t : List (Nat × RequestEntry)) (id : Nat)
    (e : RequestEntry) : Except String (List (Nat × RequestEntry)) :=
  if (lookupRequest t id).isSome then Except.error "Duplicate request"
  else Except.ok (t ++ [(id, e)])

/-- One callback invocation as observed at dispatch time: which callback ran,
the id of the response packet it was handed, and the command info attached to
that response (`response.info = request.info`, packet.ts line 524). -/
structure DispatchEvent where
  callback : Nat
  responseId : Nat
  info : SftpCommandInfo
deriving Repr, DecidableEq

/-- `SftpClientCore._process` (packet.ts lines 498-527) on a response with id
`respId`: an unknown id throws, otherwise the matched entry is removed from
the table before its parser is invoked with the original callback and the
original command info carried on the response. -/
def SftpClientCore.processResponse (t : List (Nat × RequestEntry)) (respId : Nat) :
    Except String (DispatchEvent × List (Nat × RequestEntry)) :=
  match lookupRequest t respId with
  | none => Except.error "Unknown response ID"
  | some req => Except.ok (⟨req.callback, respId, req.info⟩, removeRequest t respId)

/-- Deliver a sequence of response packets, threading the table. -/
def dispatchAll (t : List (Nat × RequestEntry)) : List Nat →
    Except String (List DispatchEvent × List (Nat × RequestEntry))
  | [] => Except.ok ([], t)
  | id :: rest =>
    Except.bind (SftpClientCore.processResponse t id) (fun pr =>
      Except.map (fun qr => (pr.1 :: qr.1, qr.2)) (dispatchAll pr.2 rest))

/-- The event a response with id `id` produces against table `t`. -/
def eventFor (t : List (Nat × RequestEntry)) (id : Nat) : DispatchEvent :=
  match lookupRequest t id with
  | some e => ⟨e.callback, id, e.info⟩
  | none => ⟨0, id, ⟨"", none, none⟩⟩

theorem eventFor_responseId (t : List (Nat × RequestEntry)) (id : Nat) :
    (eventFor t id).responseId = id := by
  unfold eventFor
  cases lookupRequest t id <;> rfl

theorem lookupRequest_of_mem (t : List (Nat × RequestEntry)) (id : Nat) (e : RequestEntry)
    (hnd : (t.map Prod.fst).Nodup) (hm : (id, e) ∈ t) :
    lookupRequest t id = some e := by
  induction t with
  | nil => cases hm
  | cons p rest ih =>
    obtain ⟨k, e0⟩ := p
    simp only [List.map_cons, List.nodup_cons] at hnd
    rcases List.mem_cons.mp hm with h | h
    · injection h.symm with h1 h2
      subst h1
      subst h2
      unfold lookupRequest
      rw [if_pos rfl]
    · unfold lookupRequest
      by_cases hk : k = id
      · exfalso
        subst hk
        exact hnd.1 (List.mem_map.mpr ⟨(k, e), h, rfl⟩)
      · rw [if_neg hk]
        exact ih hnd.2 h

theorem lookupRequest_mem_keys (t : List (Nat × RequestEntry)) (id : Nat)
    (hm : id ∈ t.map Prod.fst) :
    ∃ e, lookupRequest t id = some e ∧ (id, e) ∈ t := by
  induction t with
  | nil => cases hm
  | cons p rest ih =>
    obtain ⟨k, e0⟩ := p
    unfold lookupRequest
    by_cases hk : k = id
    · subst hk
      exact ⟨e0, by rw [if_pos rfl], List.mem_cons_self _ _⟩
    · rw [if_neg hk]
      simp only [List.map_cons, List.mem_cons] at hm
      rcases hm with h | h
      · exact absurd h.symm hk
      · obtain ⟨e, h1, h2⟩ := ih h
        exact ⟨e, h1, List.mem_cons_of_mem _ h2⟩

theorem removeRequest_keys (t : List (Nat × RequestEntry)) (id : Nat) :
    (removeRequest t id).map Prod.fst = (t.map Prod.fst).erase id := by
  induction t with
  | nil => rfl
  | cons p rest ih =>
    obtain ⟨k, e0⟩ := p
    unfold removeRequest
    by_cases hk : k = id
    · subst hk
      rw [if_pos rfl]
      simp [List.erase_cons_head]
    · rw [if_neg hk]
      simp [List.erase_cons, hk, ih]

theorem lookupRequest_removeRequest_ne (t : List (Nat × RequestEntry)) (id id2 : Nat)
    (hne : id2 ≠ id) :
    lookupRequest (removeRequest t id) id2 = lookupRequest t id2 := by
  induction t with
  | nil => rfl
  | cons p rest ih =>
    obtain ⟨k, e0⟩ := p
    unfold removeRequest
    by_cases hk : k = id
    · subst hk
      rw [if_pos rfl]
      simp only [lookupRequest]
      rw [if_neg (fun h => hne h.symm)]
    · rw [if_neg hk]
      unfold lookupRequest
      by_cases hk2 : k = id2
      · rw [if_pos hk2, if_pos hk2]
      · rw [if_neg hk2, if_neg hk2]
        exact ih

/-- Delivering a permutation of the registered request ids consumes every
table entry: each response produces its own event and the table drains. -/
theorem dispatchAll_drains (t : List (Nat × RequestEntry)) (resps : List Nat)
    (hnd : (t.map Prod.fst).Nodup) (hperm : List.Perm resps (t.map Prod.fst)) :
    dispatchAll t resps = Except.ok (resps.map (eventFor t), []) := by
  induction resps generalizing t with
  | nil =>
    have hk : t.map Prod.fst = [] := (List.nil_perm.mp hperm).symm ▸ rfl
    have ht : t = [] := List.map_eq_nil.mp hk
    subst ht
    rfl
  | cons id rest ih =>
    have hid : id ∈ t.map Prod.fst := hperm.subset (List.mem_cons_self id rest)
    obtain ⟨e, hl, hm⟩ := lookupRequest_mem_keys t id hid
    have hrnd : (id :: rest).Nodup := (List.Perm.nodup_iff hperm).mpr hnd
    have hid_not : id ∉ rest := (List.nodup_cons.mp hrnd).1
    have hnd2 : ((removeRequest t id).map Prod.fst).Nodup := by
      rw [removeRequest_keys]
      exact hnd.erase id
    have hperm2 : List.Perm rest ((removeRequest t id).map Prod.fst) := by
      rw [removeRequest_keys]
      have h0 : List.Perm ((id :: rest).erase id) ((t.map Prod.fst).erase id) :=
        List.Perm.erase id hperm
      rwa [List.erase_cons_head] at h0
    have hIH := ih (removeRequest t id) hnd2 hperm2
    have hmapeq : rest.map (eventFor (removeRequest t id)) = rest.map (eventFor t) :=
      List.map_congr_left (fun id2 h2 => by
        unfold eventFor
        rw [lookupRequest_removeRequest_ne t id id2 (fun he => hid_not (he ▸ h2))])
    rw [dispatchAll]
    simp only [SftpClientCore.processResponse, hl]
    rw [except_bind_ok]
    simp only [hIH, except_map_ok, hmapeq, List.map_cons]
    unfold eventFor
    rw [hl]

/-- Claim C1: with every pending operation registered under its own request
id (distinct ids), delivering the responses in any order — any permutation of
the registered ids — runs each operation's callback exactly once, with the
response bearing that operation's own id and its own command info carried
forward (the matched entry having been removed from the table, which ends the
exchange empty). -/
theorem c1_request_correlation (t : List (Nat × RequestEntry)) (resps : List Nat)
    (hnd : (t.map Prod.fst).Nodup) (hperm : List.Perm resps (t.map Prod.fst)) :
    dispatchAll t resps = Except.ok (resps.map (eventFor t), []) ∧
    ∀ id e, (id, e) ∈ t →
      (resps.map (eventFor t)).filter (fun ev => ev.responseId == id) =
        [⟨e.callback, id, e.info⟩] := by
  refine ⟨dispatchAll_drains t resps hnd hperm, ?_⟩
  intro id e hm
  have hidk : id ∈ t.map Prod.fst := List.mem_map.mpr ⟨(id, e), hm, rfl⟩
  have hcount : resps.count id = 1 := by
    rw [List.Perm.count_eq hperm]
    exact List.count_eq_one_of_mem hnd hidk
  rw [List.filter_map]
  rw [List.filter_congr (fun i _ => by
    simp only [Function.comp_apply, eventFor_responseId] : ∀ i ∈ resps,
      ((fun ev => ev.responseId == id) ∘ eventFor t) i = (i == id))]
  rw [List.filter_beq, hcount]
  simp only [List.replicate_one, List.map_cons, List.map_nil]
  unfold eventFor
  rw [lookupRequest_of_mem t id e hnd hm]

theorem c1_request_correlation_witness :
    (([(1, ⟨10, ⟨"open", some "a.txt", none⟩⟩), (2, ⟨20, ⟨"read", none, some [7]⟩⟩)]
        : List (Nat × RequestEntry)).map Prod.fst).Nodup ∧
    List.Perm [2, 1]
      (([(1, ⟨10, ⟨"open", some "a.txt", none⟩⟩), (2, ⟨20, ⟨"read", none, some [7]⟩⟩)]
        : List (Nat × RequestEntry)).map Prod.fst) ∧
    (dispatchAll
        [(1, ⟨10, ⟨"open", some "a.txt", none⟩⟩), (2, ⟨20, ⟨"read", none, some [7]⟩⟩)]
        [2, 1] =
      Except.ok ([⟨20, 2, ⟨"read", none, some [7]⟩⟩, ⟨10, 1, ⟨"open", some "a.txt", none⟩⟩], []) ∧
    ∀ id e, (id, e) ∈
        ([(1, ⟨10, ⟨"open", some "a.txt", none⟩⟩), (2, ⟨20, ⟨"read", none, some [7]⟩⟩)]
          : List (Nat × RequestEntry)) →
      (([2, 1].map (eventFor
          [(1, ⟨10, ⟨"open", some "a.txt", none⟩⟩), (2, ⟨20, ⟨"read", none, some [7]⟩⟩)])).filter
        (fun ev => ev.responseId == id)) = [⟨e.callback, id, e.info⟩]) :=
  ⟨by decide, by decide,
   c1_request_correlation
     [(1, ⟨10, ⟨"open", some "a.txt", none⟩⟩), (2, ⟨20, ⟨"read", none, some [7]⟩⟩)]
     [2, 1] (by decide) (by decide)⟩

/-! ## Claims C6 and C7: VERSION-handshake extensions -/

/-- JavaScript `String.prototype.indexOf` over char lists: the index of the
first occurrence, scanning left to right. -/
def firstIndexOfAux : List Char → List Char → Nat → Option Nat
  | [], sub, i => if sub = [] then some i else none
  | c :: rest, sub, i =>
    if List.isPrefixOf sub (c :: rest) then some i
    else firstIndexOfAux rest sub (i + 1)

/-- JavaScript `s.indexOf(sub)`: first index, or -1 when absent. -/
def jsStringIndexOf (s sub : String) : Int :=
  match firstIndexOfAux s.data sub.data 0 with
  | some i => (i : Int)
  | none => -1

/-- Lookup in a JS string-keyed object, as an association list. -/
def lookupExtension : List (String × String) → String → Option String
  | [], _ => none
  | (k, v) :: rest, name => if k = name then some v else lookupExtension rest name

/-- JS object assignment `obj[k] = v`: overwrite in place, or add. -/
def setExtension : List (String × String) → String → String → List (String × String)
  | [], k, v => [(k, v)]
  | (k0, v0) :: rest, k, v =>
    if k0 = k then (k0, v) :: rest else (k0, v0) :: setExtension rest k v

/-- One iteration of the `_init` extension loop's map update (packet.ts lines
469-480) on an already-decoded (name, value) pair: for a name whose first
"@openssh.com" occurrence is at the end, a comma-appended `val` is computed —
into a local that is never stored — and then line 480 unconditionally stores
`value`, overwriting any earlier entry. -/
def processVersionExtension (ext : List (String × String)) (name value : String) :
    List (String × String) :=
  let _val : String :=
    if jsStringIndexOf name "@openssh.com" = (name.length : Int) - 12 then
      match lookupExtension ext name with
      | none => value
      | some v => v ++ "," ++ value
    else value
  setExtension ext name value

/-- The `_init` extension loop (packet.ts lines 466-481) over the decoded
(name, value) pairs of the VERSION packet, in order. -/
def processExtensions (ext : List (String × String)) :
    List (String × String) → List (String × String)
  | [] => ext
  | (n, v) :: rest => processExtensions (processVersionExtension ext n v) rest

/-- Modelled from the spec: the update policy of its sentence
"OpenSSH-namespaced extension names that repeat are comma-appended rather
than overwritten" — the comma-append is stored for a repeated
OpenSSH-namespaced name. -/
def specProcessVersionExtension (ext : List (String × String)) (name value : String) :
    List (String × String) :=
  if jsStringIndexOf name "@openssh.com" = (name.length : Int) - 12 then
    match lookupExtension ext name with
    | none => setExtension ext name value
    | some v => setExtension ext name (v ++ "," ++ value)
  else setExtension ext name value

/-- Modelled from the spec: the extension loop under the spec's comma-append
policy. -/
def specProcessExtensions (ext : List (String × String)) :
    List (String × String) → List (String × String)
  | [] => ext
  | (n, v) :: rest => specProcessExtensions (specProcessVersionExtension ext n v) rest

/-- Claim C6: a repeated "@openssh.com" extension does not get comma-appended
— the computed `val` is a dead store and the later value overwrites the
earlier one, while the spec's policy would store "1,2". -/
theorem c6_openssh_append_dead_store :
    processExtensions []
        [("hardlink@openssh.com", "1"), ("hardlink@openssh.com", "2")] =
      [("hardlink@openssh.com", "2")] ∧
    specProcessExtensions []
        [("hardlink@openssh.com", "1"), ("hardlink@openssh.com", "2")] =
      [("hardlink@openssh.com", "1,2")] := by
  constructor
  · rfl
  · rfl

/-- `SftpExtensions.POSIX_RENAME` (misc.ts line 97). -/
def SftpExtensions.POSIX_RENAME : String := "posix-rename@openssh.com"

/-- `SftpExtensions.STATVFS` (misc.ts line 98). -/
def SftpExtensions.STATVFS : String := "statvfs@openssh.com"

/-- `SftpExtensions.FSTATVFS` (misc.ts line 99). -/
def SftpExtensions.FSTATVFS : String := "fstatvfs@openssh.com"

/-- `SftpExtensions.HARDLINK` (misc.ts line 100). -/
def SftpExtensions.HARDLINK : String := "hardlink@openssh.com"

/-- `SftpExtensions.FSYNC` (misc.ts line 101). -/
def SftpExtensions.FSYNC : String := "fsync@openssh.com"

/-- `SftpExtensions.NEWLINE` (misc.ts line 102). -/
def SftpExtensions.NEWLINE : String := "newline@sftp.ws"

/-- `SftpExtensions.NEWLINE2` (misc.ts line 103). -/
def SftpExtensions.NEWLINE2 : String := "newline"

/-- `SftpExtensions.NEWLINE3` (misc.ts line 104). -/
def SftpExtensions.NEWLINE3 : String := "newline@vandyke.com"

/-- `SftpExtensions.CHARSET` (misc.ts line 105). -/
def SftpExtensions.CHARSET : String := "charset@sftp.ws"

/-- `SftpExtensions.METADATA` (misc.ts line 106). -/
def SftpExtensions.METADATA : String := "meta@sftp.ws"

/-- `SftpExtensions.VERSIONS` (misc.ts line 107). -/
def SftpExtensions.VERSIONS : String := "versions"

/-- `SftpExtensions.VENDOR` (misc.ts line 108). -/
def SftpExtensions.VENDOR : String := "vendor-id"

/-- The own property names of the `SftpExtensions` class object, which is
what `SftpExtensions.hasOwnProperty(name)` tests (misc.ts lines 96-146): the
static field identifiers, the static method names, and the own properties
every JavaScript function object carries (`length`, `name`, `prototype`).
The wire-format extension names (the fields' string values) are not among
them. -/
def sftpExtensionsOwnPropertyNames : List String :=
  ["POSIX_RENAME", "STATVFS", "FSTATVFS", "HARDLINK", "FSYNC", "NEWLINE",
   "NEWLINE2", "NEWLINE3", "CHARSET", "METADATA", "VERSIONS", "VENDOR",
   "isKnown", "contains", "write", "read", "length", "name", "prototype"]

/-- `SftpExtensions.isKnown` (misc.ts lines 111-113):
`SftpExtensions.hasOwnProperty(name)`. -/
def SftpExtensions.isKnown (name : String) : Bool :=
  sftpExtensionsOwnPropertyNames.contains name

/-- A decoded extension value: a plain string, an opaque byte view, or the
structured vendor record. -/
inductive ExtensionValue where
  | str (s : String)
  | raw (bytes : List Nat)
  | vendor (vendorName productName productVersion : String) (productBuild : Int)
deriving Repr, DecidableEq

/-- `SftpExtensions.read` (misc.ts lines 125-146): `vendor-id` and
`newline@vandyke.com` read structured payloads; any other name reads a plain
string when `isKnown(name)` holds and a raw non-cloned data view otherwise. -/
def SftpExtensions.read (p : SftpPacketState) (name : String) :
    ReadResult ExtensionValue :=
  if name = SftpExtensions.VENDOR then
    match SftpPacketReader.readStructuredData p with
    | (Except.error e, p1) => (Except.error e, p1)
    | (Except.ok inner, p1) =>
      match SftpPacketReader.readString inner with
      | (Except.error e, _) => (Except.error e, p1)
      | (Except.ok vn, i1) =>
        match SftpPacketReader.readString i1 with
        | (Except.error e, _) => (Except.error e, p1)
        | (Except.ok pn, i2) =>
          match SftpPacketReader.readString i2 with
          | (Except.error e, _) => (Except.error e, p1)
          | (Except.ok pv, i3) =>
            match SftpPacketReader.readInt64 i3 with
            | (Except.error e, _) => (Except.error e, p1)
            | (Except.ok pb, _) => (Except.ok (ExtensionValue.vendor vn pn pv pb), p1)
  else if name = SftpExtensions.NEWLINE3 then
    match SftpPacketReader.readStructuredData p with
    | (Except.error e, p1) => (Except.error e, p1)
    | (Except.ok inner, p1) =>
      match SftpPacketReader.readString inner with
      | (Except.error e, _) => (Except.error e, p1)
      | (Except.ok s, _) => (Except.ok (ExtensionValue.str s), p1)
  else if SftpExtensions.isKnown name then
    match SftpPacketReader.readString p with
    | (Except.error e, p1) => (Except.error e, p1)
    | (Except.ok s, p1) => (Except.ok (ExtensionValue.str s), p1)
  else
    match SftpPacketReader.readData p true with
    | (Except.error e, p1) => (Except.error e, p1)
    | (Except.ok d, p1) => (Except.ok (ExtensionValue.raw d), p1)

/-- Claim C7: `isKnown` tests the registry's property names, not the wire
extension names those properties hold — so the registry's own wire names
(e.g. "hardlink@openssh.com", "versions") are classified unknown and their
values decode as raw opaque data, not plain strings; only the identifier
spellings (e.g. "HARDLINK") count as known. -/
theorem c7_known_names_decode_raw :
    SftpExtensions.isKnown SftpExtensions.HARDLINK = false ∧
    SftpExtensions.isKnown SftpExtensions.POSIX_RENAME = false ∧
    SftpExtensions.isKnown SftpExtensions.VERSIONS = false ∧
    SftpExtensions.isKnown SftpExtensions.NEWLINE2 = false ∧
    SftpExtensions.isKnown "HARDLINK" = true ∧
    SftpExtensions.read (mkRawReader (int32Bytes 1 ++ [49])) SftpExtensions.HARDLINK =
      (Except.ok (ExtensionValue.raw [49]),
       ⟨int32Bytes 1 ++ [49], 5, 5⟩) := by
  refine ⟨by decide, by decide, by decide, by decide, by decide, ?_⟩
  decide

/-! ## Claims C9 and C10: synchronous phase of client operations -/

/-- Modelled from the spec: SFTP v3 OPEN opcode. -/
def SftpPacketType.OPEN : Int := 3

/-- Modelled from the spec: SFTP v3 WRITE opcode. -/
def SftpPacketType.WRITE : Int := 6

/-- Modelled from the spec: SFTP v3 RENAME opcode. -/
def SftpPacketType.RENAME : Int := 18

/-- `RenameFlags.NONE` (api.ts line 25). -/
def RenameFlags.NONE : Int := 0

/-- `RenameFlags.OVERWRITE` (api.ts line 26). -/
def RenameFlags.OVERWRITE : Int := 1

/-- `SftpFeature.POSIX_RENAME` (packet.ts line 328). -/
def SftpFeature.POSIX_RENAME : String := "POSIX_RENAME"

/-- `SftpFeature.HARDLINK` (packet.ts line 327). -/
def SftpFeature.HARDLINK : String := "LINK"

/-- The engine state an operation's synchronous phase observes: whether a
transport is bound (`this._host`) and the negotiated feature map
(`this._features`, feature key to extension name). -/
structure EngineStateModel where
  connected : Bool
  features : List (String × String)
deriving Repr, DecidableEq

/-- The synchronous effect of one client operation call: a request packet
sent to the transport, a failure callback scheduled for the next scheduling
turn (`window.setTimeout(..., 0)`), or a synchronous throw. -/
inductive OpOutcome where
  | sent (info : SftpCommandInfo)
  | scheduled (err : SftpErrorModel)
  | thrown (msg : String)
deriving Repr, DecidableEq

/-- `SftpClientCore.checkPath` (packet.ts lines 783-794): empty paths throw,
a leading tilde is rewritten. -/
def checkPath (path : String) (name : String) : Except String String :=
  if path.length = 0 then Except.error ("Empty " ++ name)
  else if path.data.head? = some (Char.ofNat 126) then
    if path.data.get? 1 = some (Char.ofNat 47) then Except.ok ("." ++ path.drop 1)
    else if path.length = 1 then Except.ok "."
    else Except.ok path
  else Except.ok path

/-- `SftpClientCore.checkBuffer` (packet.ts lines 769-781) for an actual
`Uint8Array` of length `bufLen` (the `isBuffer` and `typeof number` checks
hold by typing). -/
def checkBufferE (bufLen offset length : Int) : Except String Unit :=
  if offset < 0 then Except.error "Invalid offset"
  else if length < 0 then Except.error "Invalid length"
  else if offset + length > bufLen then Except.error "Offset or length is out of bands"
  else Except.ok ()

/-- `SftpClientCore.checkPosition` (packet.ts lines 796-799). -/
def checkPositionE (position : Int) : Except String Unit :=
  if position < 0 ∨ position > 9223372036854775807 then Except.error "Invalid position"
  else Except.ok ()

/-- `SftpClientCore.execute` (packet.ts lines 396-430) with a fresh request
id: without a bound transport the NO_CONNECTION failure is scheduled on the
next turn; otherwise the packet is sent and the entry registered. -/
def executeOutcome (st : EngineStateModel) (info : SftpCommandInfo) : List OpOutcome :=
  if st.connected then [OpOutcome.sent info]
  else [OpOutcome.scheduled
    (SftpClientCore.createError SftpStatusCode.NO_CONNECTION "Not connected" info)]

/-- The `command` argument of `SftpClientCore.command`: a numeric packet
type, a feature key, or JavaScript `undefined` (reachable from `rename`,
whose switch leaves `command` unassigned in the default case). -/
inductive CommandArg where
  | num (t : Int)
  | feature (f : String)
  | undef
deriving Repr, DecidableEq

/-- `this._features[f]` lookup. -/
def lookupFeature : List (String × String) → String → Option String
  | [], _ => none
  | (k, v) :: rest, f => if k = f then some v else lookupFeature rest f

/-- `SftpClientCore.command` (packet.ts lines 801-816): a non-numeric command
is resolved through the feature map; a falsy result (unknown feature, or
`undefined`) schedules the OP_UNSUPPORTED failure, otherwise the request is
built and passed to `execute`. -/
def commandOutcome (st : EngineStateModel) (cmd : CommandArg)
    (info : SftpCommandInfo) : List OpOutcome :=
  let resolved : CommandArg :=
    match cmd with
    | CommandArg.num t => CommandArg.num t
    | CommandArg.feature f =>
      match lookupFeature st.features f with
      | some ext => CommandArg.feature ext
      | none => CommandArg.undef
    | CommandArg.undef => CommandArg.undef
  let falsy : Bool :=
    match resolved with
    | CommandArg.num t => t == 0
    | CommandArg.feature s => s == ""
    | CommandArg.undef => true
  if falsy then
    [OpOutcome.scheduled
      (SftpClientCore.createError SftpStatusCode.OP_UNSUPPORTED "Operation not supported" info)]
  else executeOutcome st info

/-- `SftpClientCore.open` (packet.ts lines 540-556): the path is validated
(throwing), the flag string is converted (throwing on an unknown mode), then
the request goes to `execute`. -/
def SftpClientCore.openOp (st : EngineStateModel) (path flags : String) : List OpOutcome :=
  match checkPath path "path" with
  | Except.error m => [OpOutcome.thrown m]
  | Except.ok p1 =>
    match SftpFlags.toNumber flags with
    | Except.error m => [OpOutcome.thrown m]
    | Except.ok _ => executeOutcome st ⟨"open", some p1, none⟩

/-- `SftpClientCore.write` (packet.ts lines 591-612) with a valid handle `h`:
buffer, position and block-length validation throw synchronously, then the
request goes to `execute`. -/
def SftpClientCore.writeOp (st : EngineStateModel) (h : List Nat)
    (bufLen offset length position : Int) : List OpOutcome :=
  match checkBufferE bufLen offset length with
  | Except.error m => [OpOutcome.thrown m]
  | Except.ok _ =>
  match checkPositionE position with
  | Except.error m => [OpOutcome.thrown m]
  | Except.ok _ =>
    if length > 32768 then
      [OpOutcome.thrown "Length exceeds maximum allowed data block length"]
    else executeOutcome st ⟨"write", none, some h⟩

/-- `SftpClientCore.rename` (packet.ts lines 709-729): both paths are
validated (throwing); the flags switch picks the POSIX-rename feature for
OVERWRITE and the RENAME opcode for NONE, while any other value schedules the
"Unsupported rename flags" failure *without returning*, so `command` then
runs with `command` still `undefined`.  (The oldPath/newPath/flags fields of
the info record are not modelled.) -/
def SftpClientCore.rename (st : EngineStateModel) (oldPath newPath : String)
    (flags : Int) : List OpOutcome :=
  match checkPath oldPath "oldPath" with
  | Except.error m => [OpOutcome.thrown m]
  | Except.ok _ =>
  match checkPath newPath "newPath" with
  | Except.error m => [OpOutcome.thrown m]
  | Except.ok _ =>
    let info : SftpCommandInfo := ⟨"rename", none, none⟩
    if flags = RenameFlags.OVERWRITE then
      commandOutcome st (CommandArg.feature SftpFeature.POSIX_RENAME) info
    else if flags = RenameFlags.NONE then
      commandOutcome st (CommandArg.num SftpPacketType.RENAME) info
    else
      OpOutcome.scheduled
          (SftpClientCore.createError SftpStatusCode.OP_UNSUPPORTED
            "Unsupported rename flags" info)
        :: commandOutcome st CommandArg.undef info

/-- Claim C9 counterexample: local validation failures do not schedule the
failure callback — a write with a negative offset and an open with an empty
path both throw synchronously, even on a connected session. -/
theorem c9_sync_throw_counterexample :
    SftpClientCore.writeOp ⟨true, []⟩ [7] 10 (-1) 4 0 = [OpOutcome.thrown "Invalid offset"] ∧
    SftpClientCore.openOp ⟨true, []⟩ "" "r" = [OpOutcome.thrown "Empty path"] := by
  constructor
  · decide
  · decide

/-- Claim C9 (amended): a not-connected session schedules the failure
callback for a later turn (and a valid call on a connected session sends the
request), but bad-path and bad-buffer validation failures throw
synchronously instead of scheduling the callback. -/
theorem c9_validation_amended (st : EngineStateModel) (path flags : String)
    (h : List Nat) (bufLen offset length position : Int) :
    (path.length = 0 →
      SftpClientCore.openOp st path flags = [OpOutcome.thrown "Empty path"]) ∧
    (offset < 0 →
      SftpClientCore.writeOp st h bufLen offset length position =
        [OpOutcome.thrown "Invalid offset"]) ∧
    (path.length ≠ 0 → path.data.head? ≠ some (Char.ofNat 126) → st.connected = false →
      SftpClientCore.openOp st path flags =
        (match SftpFlags.toNumber flags with
         | Except.error m => [OpOutcome.thrown m]
         | Except.ok _ => [OpOutcome.scheduled (SftpClientCore.createError
             SftpStatusCode.NO_CONNECTION "Not connected" ⟨"open", some path, none⟩)])) ∧
    (0 ≤ offset → 0 ≤ length → offset + length ≤ bufLen → 0 ≤ position →
      position ≤ 9223372036854775807 → length ≤ 32768 → st.connected = true →
      SftpClientCore.writeOp st h bufLen offset length position =
        [OpOutcome.sent ⟨"write", none, some h⟩]) := by
  refine ⟨?_, ?_, ?_, ?_⟩
  · intro h0
    have hcp : checkPath path "path" = Except.error "Empty path" := by
      unfold checkPath
      rw [if_pos h0]
      rfl
    simp only [SftpClientCore.openOp, hcp]
  · intro h0
    have hcb : checkBufferE bufLen offset length = Except.error "Invalid offset" := by
      unfold checkBufferE
      rw [if_pos h0]
    simp only [SftpClientCore.writeOp, hcb]
  · intro h1 h2 hc
    have hcp : checkPath path "path" = Except.ok path := by
      unfold checkPath
      rw [if_neg h1, if_neg h2]
    simp only [SftpClientCore.openOp, hcp]
    cases htn : SftpFlags.toNumber flags with
    | error m => simp
    | ok v => simp [executeOutcome, hc]
  · intro h1 h2 h3 h4 h5 h6 hc
    have hcb : checkBufferE bufLen offset length = Except.ok () := by
      unfold checkBufferE
      rw [if_neg (by omega), if_neg (by omega), if_neg (by omega)]
    have hcz : checkPositionE position = Except.ok () := by
      unfold checkPositionE
      rw [if_neg (by omega)]
    simp only [SftpClientCore.writeOp, hcb, hcz]
    rw [if_neg (by omega)]
    simp [executeOutcome, hc]

theorem c9_validation_amended_witness :
    SftpClientCore.openOp ⟨true, []⟩ "" "r" = [OpOutcome.thrown "Empty path"] ∧
    SftpClientCore.writeOp ⟨true, []⟩ [7] 10 (-1) 4 0 = [OpOutcome.thrown "Invalid offset"] ∧
    SftpClientCore.openOp ⟨false, []⟩ "a.txt" "r" =
      [OpOutcome.scheduled (SftpClientCore.createError SftpStatusCode.NO_CONNECTION
        "Not connected" ⟨"open", some "a.txt", none⟩)] ∧
    SftpClientCore.writeOp ⟨true, []⟩ [7] 10 2 4 0 =
      [OpOutcome.sent ⟨"write", none, some [7]⟩] :=
  ⟨(c9_validation_amended ⟨true, []⟩ "" "r" [7] 10 (-1) 4 0).1 (by decide),
   (c9_validation_amended ⟨true, []⟩ "" "r" [7] 10 (-1) 4 0).2.1 (by decide),
   (c9_validation_amended ⟨false, []⟩ "a.txt" "r" [7] 10 (-1) 4 0).2.2.1
     (by decide) (by decide) rfl,
   (c9_validation_amended ⟨true, []⟩ "" "r" [7] 10 2 4 0).2.2.2
     (by decide) (by decide) (by decide) (by decide) (by decide) (by decide) rfl⟩

/-- Claim C10: rename with non-empty paths and a flags value that is neither
NONE nor OVERWRITE sends nothing and schedules the completion callback twice
— first with the "Unsupported rename flags" OP_UNSUPPORTED error from the
flags switch (which does not return), then with the "Operation not
supported" OP_UNSUPPORTED error from `command` running on the still-undefined
command. -/
theorem c10_rename_double_callback (st : EngineStateModel) (oldPath newPath : String)
    (flags : Int)
    (ho1 : oldPath.length ≠ 0) (ho2 : oldPath.data.head? ≠ some (Char.ofNat 126))
    (hn1 : newPath.length ≠ 0) (hn2 : newPath.data.head? ≠ some (Char.ofNat 126))
    (hf0 : flags ≠ RenameFlags.NONE) (hf1 : flags ≠ RenameFlags.OVERWRITE) :
    SftpClientCore.rename st oldPath newPath flags =
      [OpOutcome.scheduled (SftpClientCore.createError SftpStatusCode.OP_UNSUPPORTED
          "Unsupported rename flags" ⟨"rename", none, none⟩),
       OpOutcome.scheduled (SftpClientCore.createError SftpStatusCode.OP_UNSUPPORTED
          "Operation not supported" ⟨"rename", none, none⟩)] := by
  have hco : checkPath oldPath "oldPath" = Except.ok oldPath := by
    unfold checkPath
    rw [if_neg ho1, if_neg ho2]
  have hcn : checkPath newPath "newPath" = Except.ok newPath := by
    unfold checkPath
    rw [if_neg hn1, if_neg hn2]
  simp only [SftpClientCore.rename, hco, hcn]
  rw [if_neg hf1, if_neg hf0]
  rfl

theorem c10_rename_double_callback_witness :
    SftpClientCore.rename ⟨true, [("POSIX_RENAME", "posix-rename@openssh.com")]⟩
        "a" "b" 2 =
      [OpOutcome.scheduled (SftpClientCore.createError SftpStatusCode.OP_UNSUPPORTED
          "Unsupported rename flags" ⟨"rename", none, none⟩),
       OpOutcome.scheduled (SftpClientCore.createError SftpStatusCode.OP_UNSUPPORTED
          "Operation not supported" ⟨"rename", none, none⟩)] :=
  c10_rename_double_callback ⟨true, [("POSIX_RENAME", "posix-rename@openssh.com")]⟩
    "a" "b" 2 (by decide) (by decide) (by decide) (by decide) (by decide) (by decide)
